import Mathlib

/-!
# DX12Renderer: frame-resource ring, draw dispatch and GPU wave simulator

A shallow embedding of the host-side logic of
`Application/Test/TextureTest/TextureWaves.cpp`, `Types/DirectX/FrameResource.h`,
`Types/DirectX/RenderItem.h` and `Objects/Geometry/GPUWave/GpuWave.cpp`.

Conventions of the embedding.

* Device work is not executed; every call that reaches the device or a mapped
  buffer is recorded: calls on the command list become `Command`s, fence waits and
  constant-buffer uploads become `HostEvent`s.
* A raw pointer is the key of its pointee in the owning container (an index into
  the ring, the name of a material); `none` is `nullptr`.  Dereferencing a null or
  dangling pointer, indexing a vector out of range and `% 0` have no defined
  result: the embedded function returns `none`.
* `float` values are carried as rationals.  The accumulated time of
  `OGPUWave::Update`, whose comparison with `TimeStep` decides whether a step is
  taken, is rounded to binary32 (`roundBinary32`); the other `float` results are
  kept exact.  32- and 64-bit unsigned arithmetic is written with an explicit
  `% 2 ^ 32` and `% 2 ^ 64`.
* A `CopyData` into a slot beyond the `ElementCount` of an upload buffer has no
  defined result either.
-/

namespace DX12Renderer

/-! ## DirectXMath carriers -/

abbrev XMFLOAT2 := ℚ × ℚ

abbrev XMFLOAT3 := ℚ × ℚ × ℚ

abbrev XMFLOAT4 := ℚ × ℚ × ℚ × ℚ

/-- Row-major 4x4 matrix; `M r c` is the C++ `M(r, c)`. -/
abbrev XMFLOAT4X4 := Fin 4 → Fin 4 → ℚ

def XMMatrixTranspose (M : XMFLOAT4X4) : XMFLOAT4X4 := fun r c => M c r

/-- The identity matrix, `Utils::Math::Identity4x4`. -/
def Identity4x4 : XMFLOAT4X4 := fun r c => if r = c then 1 else 0

/-- Unsigned 32-bit post-decrement `x--` (the stored value afterwards). -/
def decUInt32 (x : Nat) : Nat := (x + (2 ^ 32 - 1)) % 2 ^ 32

/-! ## Timer and events -/

/-- The timer `STimer`, reduced to the two readings the embedded code takes. -/
structure STimer where
  DeltaTime : ℚ
  Time : ℚ

structure UpdateEventArgs where
  Timer : STimer
  IsWidgetInFocus : Bool

/-! ## Constant-buffer payloads -/

structure SObjectConstants where
  World : XMFLOAT4X4
  TexTransform : XMFLOAT4X4
  DisplacementMapTexelSize : XMFLOAT2
  GridSpatialStep : ℚ

structure SMaterialConstants where
  DiffuseAlbedo : XMFLOAT4
  FresnelR0 : XMFLOAT3
  Roughness : ℚ
  MatTransform : XMFLOAT4X4

/-! ## Frame resources (`FrameResource.h`) -/

/-- Modelled from the spec: `OUploadBuffer<T>` (§4.2; its header is not part of the
sources), as far as the embedded code reads it: the GPU virtual address of its
resource and its fixed capacity.  What `CopyData` writes is recorded as a
`HostEvent`. -/
structure OUploadBuffer where
  GPUVirtualAddress : Nat
  ElementCount : Nat
  IsConstantBuffer : Bool
  deriving DecidableEq, Repr

/-- The struct `SFrameResource`.  `PassCB`, `ObjectCB` and `WavesVB` are allocated by the only
constructor, `MaterialCB` only when `MaterialCount > 0`, so it alone is nullable. -/
structure SFrameResource where
  PassCB : OUploadBuffer
  ObjectCB : OUploadBuffer
  MaterialCB : Option OUploadBuffer
  WavesVB : OUploadBuffer
  Fence : Nat
  deriving DecidableEq, Repr

/-! ## Materials and render items -/

/-- Modelled from the spec: `SMaterial` (§3 Material; `Materials/Material.h` is not
part of the sources), with the fields the embedded code reads and writes under the
names it uses for them. -/
structure SMaterial where
  MaterialCBIndex : Nat
  DiffuseSRVHeapIndex : Nat
  NumFramesDirty : Nat
  MaterialConsatnts : SMaterialConstants

/-- The struct `SRenderItem` (`RenderItem.h`).  `Material` and `Geometry` are the raw
back-pointers: a material is named by its catalog key, a mesh by its identity. -/
structure SRenderItem where
  World : XMFLOAT4X4
  TexTransform : XMFLOAT4X4
  DisplacementMapTexelSize : XMFLOAT2
  GridSpatialStep : ℚ
  NumFramesDirty : Nat
  ObjectCBIndex : Nat
  Material : Option String
  Geometry : Option Nat
  PrimitiveType : Nat
  IndexCount : Nat
  StartIndexLocation : Nat
  BaseVertexLocation : Int

/-- The method `SRenderItem::UpdateWorldMatrix`: stores the matrix and marks the item dirty for
every frame resource (`NumFramesDirty` is a `uint32_t`). -/
def SRenderItem.UpdateWorldMatrix (NumFrameResources : Nat) (WorldMatrix : XMFLOAT4X4)
    (item : SRenderItem) : SRenderItem :=
  { item with World := WorldMatrix, NumFramesDirty := NumFrameResources % 2 ^ 32 }

/-- The render layers `TextureWaves.cpp` registers items in and draws. -/
inductive SRenderLayer
  | Opaque
  | Tesselation
  | AlphaTested
  | AlphaTestedTreeSprites
  | IcosahedronLODs
  | Transparent
  | Waves
  deriving DecidableEq, Repr

/-- The pipeline-state roles `TextureWaves.cpp` names. -/
inductive SPSOType
  | Opaque
  | Tesselation
  | AlphaTested
  | TreeSprites
  | Icosahedron
  | Transparent
  | WavesRender
  | WavesUpdate
  | WavesDisturb
  deriving DecidableEq, Repr

/-! ## Host-side effects of `OnUpdate` -/

/-- What `OnUpdate` does outside the engine state: a blocking fence wait, and a
`CopyData` into the object or material constant buffer of the frame resource with
the given ring index. -/
inductive HostEvent
  | WaitForFenceValue (Value : Nat)
  | ObjectCBCopyData (FrameResource : Nat) (ElementIndex : Nat) (Data : SObjectConstants)
  | MaterialCBCopyData (FrameResource : Nat) (ElementIndex : Nat) (Data : SMaterialConstants)

/-- The fence values waited on, in order. -/
def HostEvent.waits : List HostEvent → List Nat
  | [] => []
  | HostEvent.WaitForFenceValue v :: rest => v :: HostEvent.waits rest
  | _ :: rest => HostEvent.waits rest

/-- The (ring index, slot) pairs of the object-CB uploads, in order. -/
def HostEvent.objectWrites : List HostEvent → List (Nat × Nat)
  | [] => []
  | HostEvent.ObjectCBCopyData f i _ :: rest => (f, i) :: HostEvent.objectWrites rest
  | _ :: rest => HostEvent.objectWrites rest

/-- The (ring index, slot) pairs of the material-CB uploads, in order. -/
def HostEvent.materialWrites : List HostEvent → List (Nat × Nat)
  | [] => []
  | HostEvent.MaterialCBCopyData f i _ :: rest => (f, i) :: HostEvent.materialWrites rest
  | _ :: rest => HostEvent.materialWrites rest

/-- The ring index a constant-buffer upload goes to; `none` for a fence wait. -/
def HostEvent.writtenFrame : HostEvent → Option Nat
  | HostEvent.WaitForFenceValue _ => none
  | HostEvent.ObjectCBCopyData f _ _ => some f
  | HostEvent.MaterialCBCopyData f _ _ => some f

/-! ## Engine state -/

/-- Modelled from the spec: `OEngine` (`Engine.h` is not part of the sources), the part
of it and of its command queue that the embedded code touches, under the names the
code uses.
`CurrentFrameResources` is the raw pointer into `FrameResources`, kept as the index
of its pointee.  `CompletedValue` is what
`GetCommandQueue()->GetFence()->GetCompletedValue()` returns.  `AllRenderItems`
carries each item with the layer it was added to; `Materials` is the name-keyed
map of `unique_ptr<SMaterial>` (a `none` value is a null `unique_ptr`). -/
structure OEngine where
  CurrentFrameResourceIndex : Nat
  CurrentFrameResources : Nat
  FrameResources : List SFrameResource
  AllRenderItems : List (SRenderLayer × SRenderItem)
  Materials : List (String × Option SMaterial)
  CompletedValue : Nat
  SRVHeapStart : Nat
  CBVSRVUAVDescriptorSize : Nat

/-- Modelled from the spec: `GetAllRenderItems()` (`Engine.h` is not part of the
sources), every registered render item. -/
def OEngine.GetAllRenderItems (engine : OEngine) : List SRenderItem :=
  engine.AllRenderItems.map Prod.snd

/-- Modelled from the spec: `GetRenderItems(Layer)` (§4.6; `Engine.h` is not part of
the sources), the items of one layer in insertion order. -/
def OEngine.GetRenderItems (engine : OEngine) (Layer : SRenderLayer) : List SRenderItem :=
  (engine.AllRenderItems.filter (fun p => p.1 = Layer)).map Prod.snd

/-- The pointee of a material pointer (`none`: null or dangling). -/
def derefMaterial (Materials : List (String × Option SMaterial)) (Name : String) :
    Option SMaterial :=
  match Materials with
  | [] => none
  | (key, val) :: rest => if key = Name then val else derefMaterial rest Name

/-- Store through a material pointer: replaces the pointee registered under `Name`. -/
def storeMaterial (Materials : List (String × Option SMaterial)) (Name : String)
    (m : SMaterial) : List (String × Option SMaterial) :=
  match Materials with
  | [] => []
  | (key, val) :: rest =>
    if key = Name then (key, some m) :: rest else (key, val) :: storeMaterial rest Name m

/-- Modelled from the spec: `FindMaterial(Name)` (§4.9; `Engine.h` is not part of the
sources), a non-owning pointer to the material registered under `Name`, null when
there is none. -/
def OEngine.FindMaterial (engine : OEngine) (Name : String) : Option String :=
  match derefMaterial engine.Materials Name with
  | some _ => some Name
  | none => none

/-! ## Command list -/

inductive D3D12_RESOURCE_STATES
  | COMMON
  | GENERIC_READ
  | RENDER_TARGET
  | DEPTH_WRITE
  | UNORDERED_ACCESS
  | COPY_SOURCE
  | COPY_DEST
  | PRESENT
  deriving DecidableEq, Repr

/-- The two root signatures the engine hands out. -/
inductive SRootSignature
  | Default
  | Waves
  deriving DecidableEq, Repr

/-- One 32-bit root constant: a `float` or a `UINT`. -/
inductive Const32
  | F32 (x : ℚ)
  | U32 (n : Nat)
  deriving DecidableEq

/-- The calls on `ID3D12GraphicsCommandList` the embedded code records, with their
arguments in the order of the API.  A pipeline state is named by its role, a
resource and a mesh (whose buffer views are bound) by their identity, a descriptor
handle by its `ptr`. -/
inductive Command
  | SetPipelineState (PSO : SPSOType)
  | SetComputeRootSignature (RootSignature : SRootSignature)
  | SetComputeRoot32BitConstants (RootParameterIndex : Nat) (Num32BitValuesToSet : Nat)
      (SrcData : List Const32) (DestOffsetIn32BitValues : Nat)
  | SetComputeRootDescriptorTable (RootParameterIndex : Nat) (BaseDescriptor : Nat)
  | Dispatch (ThreadGroupCountX ThreadGroupCountY ThreadGroupCountZ : Nat)
  | ResourceBarrier (Resource : Nat) (Before After : D3D12_RESOURCE_STATES)
  | SetGraphicsRootConstantBufferView (RootParameterIndex : Nat) (BufferLocation : Nat)
  | SetGraphicsRootDescriptorTable (RootParameterIndex : Nat) (BaseDescriptor : Nat)
  | IASetVertexBuffers (StartSlot NumViews : Nat) (Geometry : Nat)
  | IASetIndexBuffer (Geometry : Nat)
  | IASetPrimitiveTopology (PrimitiveTopology : Nat)
  | DrawIndexedInstanced (IndexCountPerInstance InstanceCount StartIndexLocation : Nat)
      (BaseVertexLocation : Int) (StartInstanceLocation : Nat)
  | UpdateSubresources (DestinationResource Intermediate : Nat)
      (IntermediateOffset FirstSubresource NumSubresources : Nat) (RowPitch SlicePitch : Nat)
  | ClearRenderTargetView (RenderTargetView : Nat) (ColorRGBA : XMFLOAT4)
  | ClearDepthStencilView (DepthStencilView : Nat) (ClearDepth ClearStencil : Bool)
      (Depth : ℚ) (Stencil : Nat)
  | OMSetRenderTargets (NumRenderTargetDescriptors : Nat) (RenderTargetDescriptor : Nat)
      (RTsSingleHandleToDescriptorRange : Bool) (DepthStencilDescriptor : Nat)
  | RSSetViewports (NumViewports : Nat) (TopLeftX TopLeftY Width Height MinDepth MaxDepth : ℚ)
  | RSSetScissorRects (NumRects : Nat) (left top right bottom : Int)
  deriving DecidableEq

/-- The helper `CD3DX12_GPU_DESCRIPTOR_HANDLE::Offset(offsetInDescriptors,
descriptorIncrementSize)` of `d3dx12.h`, on the 64-bit `ptr`. -/
def OffsetHandle (ptr offsetInDescriptors descriptorIncrementSize : Nat) : Nat :=
  (ptr + offsetInDescriptors * descriptorIncrementSize) % 2 ^ 64

/-! ## Binary32 arithmetic

The accumulated time of `OGPUWave::Update` is a `float`: a sum stored in it is rounded
to binary32 (round to nearest, ties to even; subnormal numbers included).  The
exponent is not bounded above here: a sum beyond `FLT_MAX` compares with a time step
as the infinity does that the hardware produces in its place, but is not the value
the hardware stores; statements about the stored sum take it within `FLT_MAX`. -/

/-- Round to the nearest integer, ties to the even one. -/
def roundHalfEven (x : ℚ) : ℤ :=
  let f := ⌊x⌋
  if x - f < 1 / 2 then f
  else if 1 / 2 < x - f then f + 1
  else if f % 2 = 0 then f else f + 1

/-- The exponent of the binade of a positive `x` in binary32: that of the largest
power of two not above `x`, and `-126` for the subnormal numbers. -/
def binade32 (x : ℚ) : ℤ := max (Int.log 2 x) (-126)

/-- Rounding of a non-negative rational to binary32: to the nearest multiple of the
quantum of its binade, ties to even. -/
def roundMagnitude32 (x : ℚ) : ℚ :=
  (roundHalfEven (x / (2 : ℚ) ^ (binade32 x - 23)) : ℚ) * (2 : ℚ) ^ (binade32 x - 23)

/-- Rounding of a rational to binary32 (sign and magnitude): the `float` nearest to
`x`, ties to the one with an even significand. -/
def roundBinary32 (x : ℚ) : ℚ :=
  if 0 ≤ x then roundMagnitude32 x else - roundMagnitude32 (-x)

/-- The largest finite `float`, `FLT_MAX` of `<cfloat>`: `(2^24 - 1) * 2^104`. -/
def FLT_MAX : ℚ := (2 ^ 24 - 1) * 2 ^ 104

/-! ## GPU wave simulator (`GpuWave.cpp`) -/

/-- The class `OGPUWave`.  The three textures and the two upload buffers are named by
their identity, the six GPU descriptor handles by their `ptr`; `mK` is the array
`float mK[3]`.  `t` is the function-local `static float t` of `Update`. -/
structure OGPUWave where
  NumRows : Nat
  NumCols : Nat
  VertexCount : Nat
  TriangleCount : Nat
  mK : Fin 3 → ℚ
  TimeStep : ℚ
  SpatialStep : ℚ
  PrevSolSrv : Nat
  CurrSolSrv : Nat
  NextSolSrv : Nat
  PrevSolUav : Nat
  CurrSolUav : Nat
  NextSolUav : Nat
  PrevSol : Nat
  CurrSol : Nat
  NextSol : Nat
  t : ℚ
  PrevUploadBuffer : Nat := 0
  CurrUploadBuffer : Nat := 0

def OGPUWave.GetRowCount (w : OGPUWave) : Nat := w.NumRows

def OGPUWave.GetColumnCount (w : OGPUWave) : Nat := w.NumCols

def OGPUWave.GetDisplacementMap (w : OGPUWave) : Nat := w.CurrSolSrv

/-- The method `OGPUWave::Update`: the wave after the call and the commands it records.
`t += Gt.GetDeltaTime()` is a `float` addition: the sum is rounded to binary32 before
it is stored and compared.  `TimeStep` is a `float` member: `t >= TimeStep` compares
with the binary32 value of the field, which is the field itself whenever the model
carries a binary32 value there. -/
def OGPUWave.Update (Gt : STimer) (RootSignature : SRootSignature) (PSO : SPSOType)
    (w : OGPUWave) : OGPUWave × List Command :=
  let t := roundBinary32 (w.t + Gt.DeltaTime)
  let head := [Command.SetPipelineState PSO, Command.SetComputeRootSignature RootSignature]
  if t ≥ roundBinary32 w.TimeStep then
    let step :=
      [Command.SetComputeRoot32BitConstants 0 3
         [Const32.F32 (w.mK 0), Const32.F32 (w.mK 1), Const32.F32 (w.mK 2)] 0,
       Command.SetComputeRootDescriptorTable 1 w.PrevSolSrv,
       Command.SetComputeRootDescriptorTable 2 w.CurrSolUav,
       Command.SetComputeRootDescriptorTable 3 w.NextSolUav,
       Command.Dispatch (w.NumCols / 16) (w.NumRows / 16) 1]
    let resTmp := w.PrevSol
    let srvTmp := w.PrevSolSrv
    let uavTemp := w.PrevSolUav
    let w1 : OGPUWave :=
      { w with
        PrevSol := w.CurrSol, CurrSol := w.NextSol, NextSol := resTmp,
        PrevSolSrv := w.CurrSolSrv, CurrSolSrv := w.NextSolSrv, NextSolSrv := srvTmp,
        PrevSolUav := w.CurrSolUav, CurrSolUav := w.NextSolUav, NextSolUav := uavTemp,
        t := 0 }
    (w1, head ++ step ++
      [Command.ResourceBarrier w1.CurrSol D3D12_RESOURCE_STATES.UNORDERED_ACCESS
        D3D12_RESOURCE_STATES.GENERIC_READ])
  else
    ({ w with t := t }, head)

/-- The method `OGPUWave::Disturb`: records its commands; the wave object is not modified. -/
def OGPUWave.Disturb (RootSignature : SRootSignature) (PSO : SPSOType) (I J : Nat)
    (Magnitude : ℚ) (w : OGPUWave) : List Command :=
  [Command.SetPipelineState PSO,
   Command.SetComputeRootSignature RootSignature,
   Command.SetComputeRoot32BitConstants 0 1 [Const32.F32 Magnitude] 3,
   Command.SetComputeRoot32BitConstants 0 2 [Const32.U32 J, Const32.U32 I] 4,
   Command.SetComputeRootDescriptorTable 3 w.CurrSolUav,
   Command.ResourceBarrier w.CurrSol D3D12_RESOURCE_STATES.GENERIC_READ
     D3D12_RESOURCE_STATES.UNORDERED_ACCESS,
   Command.Dispatch 1 1 1]

/-! ## `OTextureWaves` (`TextureWaves.cpp`) -/

/-- The members of `OTextureWaves` the embedded code touches.  `tBase` is the
function-local `static float tBase` of `UpdateWave`. -/
structure OTextureWaves where
  Engine : OEngine
  Waves : OGPUWave
  IsInputBlocked : Bool
  tBase : ℚ

/-- The `objConstants` that `UpdateObjectCBs` fills in from a render item. -/
def ObjectConstantsOf (item : SRenderItem) : SObjectConstants :=
  { World := XMMatrixTranspose item.World
    TexTransform := XMMatrixTranspose item.TexTransform
    DisplacementMapTexelSize := item.DisplacementMapTexelSize
    GridSpatialStep := item.GridSpatialStep }

/-- The `matConstants` that `UpdateMaterialCB` fills in from a material. -/
def MaterialConstantsOf (material : SMaterial) : SMaterialConstants :=
  { DiffuseAlbedo := material.MaterialConsatnts.DiffuseAlbedo
    FresnelR0 := material.MaterialConsatnts.FresnelR0
    Roughness := material.MaterialConsatnts.Roughness
    MatTransform := XMMatrixTranspose material.MaterialConsatnts.MatTransform }

/-- One iteration of the loop of `UpdateObjectCBs` on the item `item`, writing into
`currentObjectCB`, the object CB of the frame resource with ring index `cur`.
`CopyData(ObjectCBIndex, ...)` into a slot the buffer does not have (its capacity is
`ElementCount`) is an out-of-range copy: the result is `none`. -/
def UpdateObjectCBsItem (cur : Nat) (currentObjectCB : OUploadBuffer) (item : SRenderItem) :
    Option (SRenderItem × List HostEvent) :=
  if item.NumFramesDirty > 0 then
    if item.ObjectCBIndex < currentObjectCB.ElementCount then
      some ({ item with NumFramesDirty := decUInt32 item.NumFramesDirty },
        [HostEvent.ObjectCBCopyData cur item.ObjectCBIndex (ObjectConstantsOf item)])
    else
      none
  else
    some (item, [])

/-- The loop of `UpdateObjectCBs` over `GetAllRenderItems()`. -/
def UpdateObjectCBsLoop (cur : Nat) (currentObjectCB : OUploadBuffer) :
    List (SRenderLayer × SRenderItem) →
      Option (List (SRenderLayer × SRenderItem) × List HostEvent)
  | [] => some ([], [])
  | (layer, item) :: rest =>
    match UpdateObjectCBsItem cur currentObjectCB item with
    | none => none
    | some r =>
      (UpdateObjectCBsLoop cur currentObjectCB rest).map
        (fun rs => ((layer, r.1) :: rs.1, r.2 ++ rs.2))

/-- The method `OTextureWaves::UpdateObjectCBs`; the current frame resource is
dereferenced before the loop. -/
def OTextureWaves.UpdateObjectCBs (_Timer : STimer) (self : OTextureWaves) :
    Option (OTextureWaves × List HostEvent) :=
  let engine := self.Engine
  match engine.FrameResources[engine.CurrentFrameResources]? with
  | none => none
  | some F =>
    match UpdateObjectCBsLoop engine.CurrentFrameResources F.ObjectCB engine.AllRenderItems with
    | none => none
    | some r => some ({ self with Engine := { engine with AllRenderItems := r.1 } }, r.2)

/-- The render items and the uploads that the loop of `UpdateObjectCBs` leaves when it
runs to its end: every item with `NumFramesDirty > 0` is uploaded and has its
`uint32_t` counter decremented, in list order. -/
def ObjectCBsUpdated (cur : Nat) (items : List (SRenderLayer × SRenderItem)) :
    List (SRenderLayer × SRenderItem) × List HostEvent :=
  (items.map (fun q =>
      (q.1,
        if q.2.NumFramesDirty > 0 then
          { q.2 with NumFramesDirty := decUInt32 q.2.NumFramesDirty }
        else q.2)),
    (items.filter (fun q => decide (0 < q.2.NumFramesDirty))).map
      (fun q => HostEvent.ObjectCBCopyData cur q.2.ObjectCBIndex (ObjectConstantsOf q.2)))

/-- The loop of `UpdateMaterialCB` over the values of `GetMaterials()`; a dirty
material with a null `currentMaterialCB` is a null dereference, and
`CopyData(MaterialCBIndex, ...)` into a slot the buffer does not have is an
out-of-range copy: both give `none`. -/
def UpdateMaterialCBLoop (cur : Nat) (currentMaterialCB : Option OUploadBuffer) :
    List (String × Option SMaterial) →
      Option (List (String × Option SMaterial) × List HostEvent)
  | [] => some ([], [])
  | (name, none) :: rest =>
    (UpdateMaterialCBLoop cur currentMaterialCB rest).map
      (fun r => ((name, none) :: r.1, r.2))
  | (name, some material) :: rest =>
    if material.NumFramesDirty > 0 then
      match currentMaterialCB with
      | none => none
      | some materialCB =>
        if material.MaterialCBIndex < materialCB.ElementCount then
          (UpdateMaterialCBLoop cur currentMaterialCB rest).map
            (fun r =>
              ((name, some { material with NumFramesDirty := material.NumFramesDirty - 1 }) :: r.1,
                HostEvent.MaterialCBCopyData cur material.MaterialCBIndex
                  (MaterialConstantsOf material) :: r.2))
        else
          none
    else
      (UpdateMaterialCBLoop cur currentMaterialCB rest).map
        (fun r => ((name, some material) :: r.1, r.2))

/-- The method `OTextureWaves::UpdateMaterialCB`; the current frame resource is
dereferenced before the loop. -/
def OTextureWaves.UpdateMaterialCB (self : OTextureWaves) :
    Option (OTextureWaves × List HostEvent) :=
  let engine := self.Engine
  match engine.FrameResources[engine.CurrentFrameResources]? with
  | none => none
  | some F =>
    match UpdateMaterialCBLoop engine.CurrentFrameResources F.MaterialCB engine.Materials with
    | none => none
    | some r => some ({ self with Engine := { engine with Materials := r.1 } }, r.2)

/-- The body of `AnimateMaterials` on the material `FindMaterial("Water")` points to:
scrolls the texture coordinates `MatTransform(3, 0)` and `MatTransform(3, 1)` and
marks the material dirty for every frame resource. -/
def AnimateWater (NumFrameResources : Nat) (Timer : STimer) (waterMaterial : SMaterial) :
    SMaterial :=
  let M := waterMaterial.MaterialConsatnts.MatTransform
  let tu := M 3 0 + (1 / 10) * Timer.DeltaTime
  let tv := M 3 1 + (1 / 50) * Timer.DeltaTime
  let tu := if tu ≥ 1 then tu - 1 else tu
  let tv := if tv ≥ 1 then tv - 1 else tv
  let M1 : XMFLOAT4X4 := fun r c =>
    if r = 3 ∧ c = 0 then tu else if r = 3 ∧ c = 1 then tv else M r c
  { waterMaterial with
    MaterialConsatnts := { waterMaterial.MaterialConsatnts with MatTransform := M1 }
    NumFramesDirty := NumFrameResources }

/-- The method `OTextureWaves::AnimateMaterials`; a missing water material is a null
dereference. -/
def OTextureWaves.AnimateMaterials (NumFrameResources : Nat) (Timer : STimer)
    (self : OTextureWaves) : Option OTextureWaves :=
  let engine := self.Engine
  match (engine.FindMaterial "Water").bind (derefMaterial engine.Materials) with
  | none => none
  | some waterMaterial =>
    some { self with
      Engine :=
        { engine with
          Materials :=
            storeMaterial engine.Materials "Water"
              (AnimateWater NumFrameResources Timer waterMaterial) } }

/-- The method `OTextureWaves::OnUpdate`.  `Wait c v` is the completed fence value at which
`WaitForFenceValue(v)`, entered at completed value `c`, returns.  `Super::OnUpdate`,
`UpdateCamera` and `OnKeyboardInput` act on the camera, the window and the blur
settings only, which the embedding does not carry. -/
def OTextureWaves.OnUpdate (NumFrameResources : Nat) (Wait : Nat → Nat → Nat)
    (Event : UpdateEventArgs) (self : OTextureWaves) :
    Option (OTextureWaves × List HostEvent) :=
  let self := { self with IsInputBlocked := Event.IsWidgetInFocus }
  if NumFrameResources = 0 then none
  else
    let engine := self.Engine
    let index := (engine.CurrentFrameResourceIndex + 1) % NumFrameResources
    match engine.FrameResources[index]? with
    | none => none
    | some F =>
      let engine :=
        { engine with CurrentFrameResourceIndex := index, CurrentFrameResources := index }
      let waited : OEngine × List HostEvent :=
        if F.Fence ≠ 0 ∧ engine.CompletedValue < F.Fence then
          ({ engine with CompletedValue := Wait engine.CompletedValue F.Fence },
            [HostEvent.WaitForFenceValue F.Fence])
        else
          (engine, [])
      match OTextureWaves.AnimateMaterials NumFrameResources Event.Timer
          { self with Engine := waited.1 } with
      | none => none
      | some self1 =>
        match OTextureWaves.UpdateObjectCBs Event.Timer self1 with
        | none => none
        | some (self2, objectEvents) =>
          match OTextureWaves.UpdateMaterialCB self2 with
          | none => none
          | some (self3, materialEvents) =>
            some (self3, waited.2 ++ objectEvents ++ materialEvents)

/-- The commands `DrawRenderItems` records for one render item whose mesh is
`geometry` and whose material is `material`.  `objectCBByteSize` and `matCBByteSize`
are the results of `Utils::CalcBufferByteSize` (not part of the sources), taken as
`UINT` like `ObjectCBIndex`: each product is a 32-bit one, the sum with the 64-bit
GPU virtual address a 64-bit one. -/
def DrawRenderItemCommands (engine : OEngine) (objectCBByteSize matCBByteSize : Nat)
    (objectCB materialCB : OUploadBuffer) (renderItem : SRenderItem) (geometry : Nat)
    (material : SMaterial) : List Command :=
  let texDef :=
    OffsetHandle engine.SRVHeapStart material.DiffuseSRVHeapIndex engine.CBVSRVUAVDescriptorSize
  let cbAddress :=
    (objectCB.GPUVirtualAddress + (renderItem.ObjectCBIndex * objectCBByteSize) % 2 ^ 32) % 2 ^ 64
  let matCBAddress :=
    (materialCB.GPUVirtualAddress + (material.MaterialCBIndex * matCBByteSize) % 2 ^ 32) % 2 ^ 64
  [Command.IASetVertexBuffers 0 1 geometry,
   Command.IASetIndexBuffer geometry,
   Command.IASetPrimitiveTopology renderItem.PrimitiveType,
   Command.SetGraphicsRootDescriptorTable 0 texDef,
   Command.SetGraphicsRootConstantBufferView 1 cbAddress,
   Command.SetGraphicsRootConstantBufferView 3 matCBAddress,
   Command.DrawIndexedInstanced renderItem.IndexCount 1 renderItem.StartIndexLocation
     renderItem.BaseVertexLocation 0]

/-- The loop of `DrawRenderItems`; a null `Geometry` or `Material` pointer (or a
material pointer that names no material) is a null dereference. -/
def DrawRenderItemsLoop (engine : OEngine) (objectCBByteSize matCBByteSize : Nat)
    (objectCB materialCB : OUploadBuffer) : List SRenderItem → Option (List Command)
  | [] => some []
  | renderItem :: rest =>
    match renderItem.Geometry, renderItem.Material.bind (derefMaterial engine.Materials) with
    | some geometry, some material =>
      (DrawRenderItemsLoop engine objectCBByteSize matCBByteSize objectCB materialCB rest).map
        (fun cmds =>
          DrawRenderItemCommands engine objectCBByteSize matCBByteSize objectCB materialCB
            renderItem geometry material ++ cmds)
    | _, _ => none

/-- The method `OTextureWaves::DrawRenderItems`: the commands recorded on `CommandList`.  The
buffers of the current frame resource are fetched before the loop, so a null
`MaterialCB` is dereferenced even for an empty list. -/
def OTextureWaves.DrawRenderItems (objectCBByteSize matCBByteSize : Nat)
    (RenderItems : List SRenderItem) (self : OTextureWaves) : Option (List Command) :=
  let engine := self.Engine
  match engine.FrameResources[engine.CurrentFrameResources]? with
  | none => none
  | some F =>
    match F.MaterialCB with
    | none => none
    | some materialCB =>
      DrawRenderItemsLoop engine objectCBByteSize matCBByteSize F.ObjectCB materialCB RenderItems

/-- The method `OTextureWaves::UpdateWave`.  `I`, `J` and `R` are the three values
`Utils::Math::Random` returns when the disturbance is due. -/
def OTextureWaves.UpdateWave (Timer : STimer) (I J : Nat) (R : ℚ) (self : OTextureWaves) :
    OTextureWaves × List Command :=
  let disturbed : ℚ × List Command :=
    if Timer.Time - self.tBase ≥ 1 / 4 then
      (self.tBase + 1 / 4,
        self.Waves.Disturb SRootSignature.Waves SPSOType.WavesDisturb I J R)
    else
      (self.tBase, [])
  let updated := self.Waves.Update Timer SRootSignature.Waves SPSOType.WavesUpdate
  ({ self with tBase := disturbed.1, Waves := updated.1 }, disturbed.2 ++ updated.2)

/-- The method `OTextureWaves::OnRender`: the commands recorded on the command list, in order.
`GetEngine()->SetPipelineState(Type)` records `SetPipelineState` for the pipeline
state registered under `Type`. -/
def OTextureWaves.OnRender (objectCBByteSize matCBByteSize : Nat) (Event : UpdateEventArgs)
    (I J : Nat) (R : ℚ) (self : OTextureWaves) : Option (OTextureWaves × List Command) :=
  let engine := self.Engine
  match engine.FrameResources[engine.CurrentFrameResources]? with
  | none => none
  | some F =>
    let passCB := F.PassCB
    let waved := self.UpdateWave Event.Timer I J R
    let self1 := waved.1
    let draw := fun (Layer : SRenderLayer) =>
      self1.DrawRenderItems objectCBByteSize matCBByteSize (engine.GetRenderItems Layer)
    match draw SRenderLayer.Opaque, draw SRenderLayer.Tesselation, draw SRenderLayer.AlphaTested,
        draw SRenderLayer.Transparent, draw SRenderLayer.Waves with
    | some opaque_, some tesselation, some alphaTested, some transparent, some waves =>
      some (self1,
        [Command.SetGraphicsRootConstantBufferView 2 passCB.GPUVirtualAddress] ++ waved.2 ++
        [Command.SetGraphicsRootDescriptorTable 4 self1.Waves.GetDisplacementMap] ++
        [Command.SetPipelineState SPSOType.Opaque] ++ opaque_ ++
        [Command.SetPipelineState SPSOType.Tesselation] ++ tesselation ++
        [Command.SetPipelineState SPSOType.AlphaTested] ++ alphaTested ++
        [Command.SetPipelineState SPSOType.Transparent] ++ transparent ++
        [Command.SetPipelineState SPSOType.WavesRender] ++ waves)
    | _, _, _, _, _ => none

/-! ## Frames -/

/-- What the rest of the frame does to the state `OnUpdate` reads, between two calls.
The engine's frame loop is not part of the sources; this is its part of §4.5 of the
specification: after submission the marker of the current frame resource receives
the value `Signal` returned by the queue, and the device goes on completing work,
raising the completed fence value by `Progress`. -/
structure FrameInput where
  Event : UpdateEventArgs
  Signal : Nat
  Progress : Nat

/-- Modelled from the spec: step 6 of §4.5, `F.fence ← queue.Signal()`, for the frame
resource `OnUpdate` selected, followed by the device's progress until the next
frame.  The engine code doing this is not part of the sources. -/
def EndFrame (f : FrameInput) (self : OTextureWaves) : OTextureWaves :=
  let engine := self.Engine
  { self with
    Engine :=
      { engine with
        FrameResources :=
          engine.FrameResources.modify (fun F => { F with Fence := f.Signal })
            engine.CurrentFrameResources
        CompletedValue := engine.CompletedValue + f.Progress } }

/-- A run of frames: for each one `OnUpdate`, then the rest of the frame.  Returns,
per frame, the state right after `OnUpdate` and the host events of that call. -/
def RunFrames (NumFrameResources : Nat) (Wait : Nat → Nat → Nat) :
    List FrameInput → OTextureWaves → Option (List (OTextureWaves × List HostEvent))
  | [], _ => some []
  | f :: frames, self =>
    match self.OnUpdate NumFrameResources Wait f.Event with
    | none => none
    | some r =>
      (RunFrames NumFrameResources Wait frames (EndFrame f r.1)).map (fun rs => r :: rs)

/-! ## Preconditions -/

/-- The states in which `OnUpdate` runs without a null dereference, an out-of-range
ring access, an out-of-range `CopyData` or a `% 0`: the ring is non-empty and holds
`NumFrameResources` frame resources, each with its `MaterialCB` allocated, the water
material that `AnimateMaterials` looks up is registered, and in every frame resource
the object CB has a slot `ObjectCBIndex` for every render item and the material CB a
slot `MaterialCBIndex` for every material. -/
def Ready (NumFrameResources : Nat) (self : OTextureWaves) : Prop :=
  0 < NumFrameResources ∧
  self.Engine.FrameResources.length = NumFrameResources ∧
  (∀ F ∈ self.Engine.FrameResources, F.MaterialCB.isSome = true) ∧
  (derefMaterial self.Engine.Materials "Water").isSome = true ∧
  (∀ F ∈ self.Engine.FrameResources, ∀ q ∈ self.Engine.AllRenderItems,
    q.2.ObjectCBIndex < F.ObjectCB.ElementCount) ∧
  (∀ F ∈ self.Engine.FrameResources, ∀ materialCB ∈ F.MaterialCB,
    ∀ p ∈ self.Engine.Materials, ∀ material ∈ p.2,
      material.MaterialCBIndex < materialCB.ElementCount)

instance (NumFrameResources : Nat) (self : OTextureWaves) :
    Decidable (Ready NumFrameResources self) := by
  unfold Ready
  infer_instance

/-! ## A concrete scene

The scene `BuildMaterials` and `BuildRenderItems` set up, on a ring of three frame
resources, used to instantiate the theorems below. -/

def demoBuffer (Address : Nat) (Count : Nat) (Constant : Bool) : OUploadBuffer :=
  { GPUVirtualAddress := Address, ElementCount := Count, IsConstantBuffer := Constant }

/-- A frame resource as the constructor leaves it with one pass, six objects and six
materials: all four buffers allocated, the fence marker at 0. -/
def demoFrameResource (Base : Nat) : SFrameResource :=
  { PassCB := demoBuffer Base 1 true
    ObjectCB := demoBuffer (Base + 4096) 6 true
    MaterialCB := some (demoBuffer (Base + 8192) 6 true)
    WavesVB := demoBuffer (Base + 12288) 65536 false
    Fence := 0 }

def demoMaterial (Index : Nat) (Albedo : XMFLOAT4) (R0 : XMFLOAT3) (Roughness : ℚ) : SMaterial :=
  { MaterialCBIndex := Index
    DiffuseSRVHeapIndex := Index
    NumFramesDirty := 3
    MaterialConsatnts :=
      { DiffuseAlbedo := Albedo, FresnelR0 := R0, Roughness := Roughness,
        MatTransform := Identity4x4 } }

def demoMaterials : List (String × Option SMaterial) :=
  [("Grass", some (demoMaterial 0 (1, 1, 1, 1) (1 / 100, 1 / 100, 1 / 100) (1 / 8))),
   ("Water", some (demoMaterial 1 (1, 1, 1, 1 / 2) (1 / 10, 1 / 10, 1 / 10) 0)),
   ("WireFence", some (demoMaterial 2 (1, 1, 1, 1) (1 / 10, 1 / 10, 1 / 10) (1 / 4))),
   ("FireBall", some (demoMaterial 3 (1, 1, 1, 1 / 2) (1 / 10, 1 / 10, 1 / 10) (1 / 4))),
   ("TreeSprite", some (demoMaterial 4 (1, 1, 1, 1) (1 / 10, 1 / 10, 1 / 10) (1 / 8))),
   ("White", some (demoMaterial 5 (1, 1, 1, 1) (1 / 10, 1 / 10, 1 / 10) (1 / 2)))]

def demoItem (ObjectCBIndex : Nat) (Material : String) (Topology IndexCount : Nat) : SRenderItem :=
  { World := Identity4x4
    TexTransform := Identity4x4
    DisplacementMapTexelSize := (1, 1)
    GridSpatialStep := 1
    NumFramesDirty := 3
    ObjectCBIndex := ObjectCBIndex
    Material := some Material
    Geometry := some ObjectCBIndex
    PrimitiveType := Topology
    IndexCount := IndexCount
    StartIndexLocation := 0
    BaseVertexLocation := 0 }

def demoRenderItems : List (SRenderLayer × SRenderItem) :=
  [(SRenderLayer.Waves, demoItem 0 "Water" 4 390150),
   (SRenderLayer.Opaque, demoItem 1 "Grass" 4 14406),
   (SRenderLayer.AlphaTested, demoItem 2 "WireFence" 4 36),
   (SRenderLayer.AlphaTestedTreeSprites, demoItem 3 "TreeSprite" 1 16),
   (SRenderLayer.IcosahedronLODs, demoItem 4 "FireBall" 4 60),
   (SRenderLayer.Tesselation, demoItem 5 "White" 36 4)]

def demoEngine : OEngine :=
  { CurrentFrameResourceIndex := 0
    CurrentFrameResources := 0
    FrameResources := [demoFrameResource 65536, demoFrameResource 131072, demoFrameResource 196608]
    AllRenderItems := demoRenderItems
    Materials := demoMaterials
    CompletedValue := 0
    SRVHeapStart := 1048576
    CBVSRVUAVDescriptorSize := 32 }

/-- The wave simulator of `Initialize`: a 256 x 256 grid, `dt = 0.03`, `dx = 0.25`,
with its six descriptors at consecutive heap slots after the six material
textures. -/
def demoWaves : OGPUWave :=
  { NumRows := 256
    NumCols := 256
    VertexCount := 65536
    TriangleCount := 130050
    mK := ![(-997) / 1003, 8848 / 5015, 288 / 5015]
    TimeStep := 3 / 100
    SpatialStep := 1 / 4
    PrevSolSrv := 1048576 + 6 * 32
    CurrSolSrv := 1048576 + 7 * 32
    NextSolSrv := 1048576 + 8 * 32
    PrevSolUav := 1048576 + 9 * 32
    CurrSolUav := 1048576 + 10 * 32
    NextSolUav := 1048576 + 11 * 32
    PrevSol := 0
    CurrSol := 1
    NextSol := 2
    t := 0 }

def demoApp : OTextureWaves :=
  { Engine := demoEngine, Waves := demoWaves, IsInputBlocked := false, tBase := 0 }

/-- A frame of 1/60 s whose submission is signalled with fence value `Signal`. -/
def demoFrame (Signal : Nat) : FrameInput :=
  { Event := { Timer := { DeltaTime := 1 / 60, Time := Signal / 60 }, IsWidgetInFocus := false }
    Signal := Signal
    Progress := 0 }

/-! ## Preconditions of the draw calls -/

def Command.isDraw : Command → Bool
  | Command.DrawIndexedInstanced _ _ _ _ _ => true
  | _ => false

def Command.isSetPipelineState : Command → Bool
  | Command.SetPipelineState _ => true
  | _ => false

/-- The layers `OnRender` draws, in the order of its five `DrawRenderItems` calls. -/
def DrawnLayers : List SRenderLayer :=
  [SRenderLayer.Opaque, SRenderLayer.Tesselation, SRenderLayer.AlphaTested,
   SRenderLayer.Transparent, SRenderLayer.Waves]

/-- The `Geometry` and `Material` pointers of a render item point to something. -/
def PointersValid (engine : OEngine) (renderItem : SRenderItem) : Prop :=
  renderItem.Geometry.isSome = true ∧
  (renderItem.Material.bind (derefMaterial engine.Materials)).isSome = true

instance (engine : OEngine) (renderItem : SRenderItem) :
    Decidable (PointersValid engine renderItem) := by
  unfold PointersValid
  infer_instance

/-- A render item `DrawRenderItems` can draw without a null dereference and without
wrap-around in the address arithmetic: its pointers are valid, the two
index-times-stride products fit 32 bits, and the two buffer addresses and the
descriptor handle fit 64 bits. -/
def CanDraw (engine : OEngine) (objectCBByteSize matCBByteSize : Nat)
    (objectCB materialCB : OUploadBuffer) (renderItem : SRenderItem) : Prop :=
  match renderItem.Geometry, renderItem.Material.bind (derefMaterial engine.Materials) with
  | some _, some material =>
    renderItem.ObjectCBIndex * objectCBByteSize < 2 ^ 32 ∧
    objectCB.GPUVirtualAddress + renderItem.ObjectCBIndex * objectCBByteSize < 2 ^ 64 ∧
    material.MaterialCBIndex * matCBByteSize < 2 ^ 32 ∧
    materialCB.GPUVirtualAddress + material.MaterialCBIndex * matCBByteSize < 2 ^ 64 ∧
    engine.SRVHeapStart + material.DiffuseSRVHeapIndex * engine.CBVSRVUAVDescriptorSize < 2 ^ 64
  | _, _ => False

instance (engine : OEngine) (objectCBByteSize matCBByteSize : Nat)
    (objectCB materialCB : OUploadBuffer) (renderItem : SRenderItem) :
    Decidable (CanDraw engine objectCBByteSize matCBByteSize objectCB materialCB renderItem) := by
  unfold CanDraw
  split <;> infer_instance

/-- The commands the specification lists for one draw: the three input-assembler
bindings, root parameter 0 at the material's SRV, root parameters 1 and 3 at the
object and material constants, and the indexed draw of one instance. -/
def ExpectedDraw (engine : OEngine) (objectCBByteSize matCBByteSize : Nat)
    (objectCB materialCB : OUploadBuffer) (renderItem : SRenderItem) (geometry : Nat)
    (material : SMaterial) : List Command :=
  [Command.IASetVertexBuffers 0 1 geometry,
   Command.IASetIndexBuffer geometry,
   Command.IASetPrimitiveTopology renderItem.PrimitiveType,
   Command.SetGraphicsRootDescriptorTable 0
     (engine.SRVHeapStart + material.DiffuseSRVHeapIndex * engine.CBVSRVUAVDescriptorSize),
   Command.SetGraphicsRootConstantBufferView 1
     (objectCB.GPUVirtualAddress + renderItem.ObjectCBIndex * objectCBByteSize),
   Command.SetGraphicsRootConstantBufferView 3
     (materialCB.GPUVirtualAddress + material.MaterialCBIndex * matCBByteSize),
   Command.DrawIndexedInstanced renderItem.IndexCount 1 renderItem.StartIndexLocation
     renderItem.BaseVertexLocation 0]

/-- The timer reading of a frame that makes the wave simulator step. -/
def demoTimer : STimer := { DeltaTime := 3 / 100, Time := 3 / 100 }

/-! ## Device -/

inductive D3D12_HEAP_TYPE
  | DEFAULT
  | UPLOAD
  deriving DecidableEq, Repr

/-- The arguments of `ID3D12Device::CreateCommittedResource` that differ between the
embedded calls: heap type, a buffer of `Width` bytes or a 2D texture of
`Width x Height` texels, and the initial state (`none` where the call goes through
`Utils::CreateResource`, which is not part of the sources and supplies it). -/
structure ResourceRequest where
  HeapType : D3D12_HEAP_TYPE
  IsTexture2D : Bool
  Width : Nat
  Height : Nat
  InitialState : Option D3D12_RESOURCE_STATES
  deriving DecidableEq, Repr

inductive ViewKind
  | SRV
  | UAV
  | RTV
  | DSV
  deriving DecidableEq, Repr

/-- A view the device has written into a descriptor heap: the CPU handle of the slot,
the kind of view and the resource it views. -/
structure ViewRecord where
  Handle : Nat
  Kind : ViewKind
  Resource : Nat
  deriving DecidableEq, Repr

/-- The device as the embedded code uses it.  `Accepts` says which resource creations
succeed, `RequiredIntermediateSize` is `GetRequiredIntermediateSize` for a texture of
the given width and height; both are fixed by the runtime, not by this code.
`NextResource` is the identity the next created resource gets, `Views` the
descriptors written so far, oldest first.  `CreatesCommandAllocator` says whether
`CreateCommandAllocator` succeeds, `GPUVirtualAddress` is the address
`GetGPUVirtualAddress` reports for a buffer. -/
structure ID3D12Device where
  Accepts : ResourceRequest → Bool
  RequiredIntermediateSize : Nat → Nat → Nat
  NextResource : Nat
  Views : List ViewRecord
  CreatesCommandAllocator : Bool := true
  GPUVirtualAddress : Nat → Nat := fun resource => (resource + 1) * 65536

/-- The call `CreateCommittedResource` under `THROW_IF_FAILED`: `none` is the thrown
failure, otherwise the identity of the new resource and the device after the call. -/
def ID3D12Device.CreateCommittedResource (device : ID3D12Device) (request : ResourceRequest) :
    Option (Nat × ID3D12Device) :=
  if device.Accepts request then
    some (device.NextResource, { device with NextResource := device.NextResource + 1 })
  else none

/-- The calls `CreateShaderResourceView`, `CreateUnorderedAccessView`,
`CreateRenderTargetView` and `CreateDepthStencilView`: the view is written at
`Handle`. -/
def ID3D12Device.CreateView (device : ID3D12Device) (Kind : ViewKind) (Resource Handle : Nat) :
    ID3D12Device :=
  { device with Views := device.Views ++ [{ Handle := Handle, Kind := Kind, Resource := Resource }] }

/-! ## Machine integers -/

/-- The values of `int32_t`. -/
def InInt32 (x : Int) : Prop := -(2 ^ 31) ≤ x ∧ x < 2 ^ 31

instance (x : Int) : Decidable (InInt32 x) := by
  unfold InInt32
  infer_instance

/-- Conversion of a signed value to `UINT`. -/
def toUInt32 (x : Int) : Nat := (x % 2 ^ 32).toNat

/-- Conversion of an unsigned 32-bit value to `LONG`. -/
def toLong (x : Nat) : Int := ((x : Int) + 2 ^ 31) % 2 ^ 32 - 2 ^ 31

/-! ## Construction of the wave simulator (`GpuWave.cpp`) -/

/-- The method `OGPUWave::BuildResources`: creates the three textures and the two
upload buffers (a failed creation throws) and records the upload of the zero initial
data and the transitions out of `COMMON`.  The zero data `initData` has
`NumRows * NumCols` elements, a 32-bit product; if that wraps, `UpdateSubresources`
reads past its end. -/
def OGPUWave.BuildResources (device : ID3D12Device) (w : OGPUWave) :
    Option (OGPUWave × ID3D12Device × List Command) :=
  let texDesc : ResourceRequest :=
    { HeapType := D3D12_HEAP_TYPE.DEFAULT, IsTexture2D := true, Width := w.NumCols,
      Height := w.NumRows, InitialState := some D3D12_RESOURCE_STATES.COMMON }
  match device.CreateCommittedResource texDesc with
  | none => none
  | some (PrevSol, device1) =>
    match device1.CreateCommittedResource texDesc with
    | none => none
    | some (CurrSol, device2) =>
      match device2.CreateCommittedResource texDesc with
      | none => none
      | some (NextSol, device3) =>
        let num2DSubresources := 1
        let uploadBufferSize := device3.RequiredIntermediateSize w.NumCols w.NumRows
        let resourceDesc : ResourceRequest :=
          { HeapType := D3D12_HEAP_TYPE.UPLOAD, IsTexture2D := false, Width := uploadBufferSize,
            Height := 1, InitialState := some D3D12_RESOURCE_STATES.GENERIC_READ }
        match device3.CreateCommittedResource resourceDesc with
        | none => none
        | some (PrevUploadBuffer, device4) =>
          match device4.CreateCommittedResource resourceDesc with
          | none => none
          | some (CurrUploadBuffer, device5) =>
            if w.NumRows * w.NumCols ≥ 2 ^ 32 then none
            else
              let RowPitch := w.NumCols * 4
              let SlicePitch := RowPitch * w.NumRows
              some
                ({ w with
                    PrevSol := PrevSol, CurrSol := CurrSol, NextSol := NextSol,
                    PrevUploadBuffer := PrevUploadBuffer, CurrUploadBuffer := CurrUploadBuffer },
                  device5,
                  [Command.ResourceBarrier PrevSol D3D12_RESOURCE_STATES.COMMON
                     D3D12_RESOURCE_STATES.COPY_DEST,
                   Command.UpdateSubresources PrevSol PrevUploadBuffer 0 0 num2DSubresources
                     RowPitch SlicePitch,
                   Command.ResourceBarrier PrevSol D3D12_RESOURCE_STATES.COPY_DEST
                     D3D12_RESOURCE_STATES.UNORDERED_ACCESS,
                   Command.ResourceBarrier CurrSol D3D12_RESOURCE_STATES.COMMON
                     D3D12_RESOURCE_STATES.COPY_DEST,
                   Command.UpdateSubresources CurrSol CurrUploadBuffer 0 0 num2DSubresources
                     RowPitch SlicePitch,
                   Command.ResourceBarrier CurrSol D3D12_RESOURCE_STATES.COPY_DEST
                     D3D12_RESOURCE_STATES.GENERIC_READ,
                   Command.ResourceBarrier NextSol D3D12_RESOURCE_STATES.COMMON
                     D3D12_RESOURCE_STATES.UNORDERED_ACCESS])

/-- The constructor `OGPUWave::OGPUWave(Device, List, M, N, dx, dt, speed, damping)`
(a Lean name cannot repeat the structure name inside its own namespace).
`M` and `N` are `int32_t`; the vertex and triangle counts are computed in `int32_t`,
where overflow is undefined, and stored as `UINT`.  The six descriptor handles are
not set before `BuildDescriptors` and are carried as 0. -/
def OGPUWave.Constructor (device : ID3D12Device) (M N : Int) (dx dt speed damping : ℚ) :
    Option (OGPUWave × ID3D12Device × List Command) :=
  if InInt32 (M * N) ∧ InInt32 (M - 1) ∧ InInt32 (N - 1) ∧ InInt32 ((M - 1) * (N - 1)) ∧
      InInt32 ((M - 1) * (N - 1) * 2) then
    let d := damping * dt + 2
    let e := (speed * speed) * (dt * dt) / (dx * dx)
    let mK : Fin 3 → ℚ := ![(damping * dt - 2) / d, (4 - 8 * e) / d, (2 * e) / d]
    OGPUWave.BuildResources device
      { NumRows := toUInt32 M
        NumCols := toUInt32 N
        VertexCount := toUInt32 (M * N)
        TriangleCount := toUInt32 ((M - 1) * (N - 1) * 2)
        mK := mK
        TimeStep := dt
        SpatialStep := dx
        PrevSolSrv := 0, CurrSolSrv := 0, NextSolSrv := 0
        PrevSolUav := 0, CurrSolUav := 0, NextSolUav := 0
        PrevSol := 0, CurrSol := 0, NextSol := 0
        t := 0 }
  else none

/-- The call in `OTextureWaves::Initialize` that builds the wave simulator:
`BuildRenderObject<OGPUWave>(device, list, 256, 256, 0.25f, 0.03f, 2.0f, 0.2f)`. -/
def InitializeWaves (device : ID3D12Device) : Option (OGPUWave × ID3D12Device × List Command) :=
  OGPUWave.Constructor device 256 256 (1 / 4) (3 / 100) 2 (1 / 5)

/-- The struct `SRenderObjectDescriptor` that `BuildDescriptors` reads (its header is
not part of the sources): the CPU and GPU handle of the first free slot and the
descriptor increment. -/
structure SRenderObjectDescriptor where
  CPUSRVescriptor : Nat
  GPUSRVDescriptor : Nat
  DSVSRVUAVDescriptorSize : Nat
  deriving DecidableEq, Repr

/-- The method `OGPUWave::BuildDescriptors`.  `Descriptor` is the result of
`Cast<SRenderObjectDescriptor>`; `none` is a failed cast, on which the method returns
at once.  Each `Offset(1, DescriptorSize)` advances the local handle in place. -/
def OGPUWave.BuildDescriptors (Descriptor : Option SRenderObjectDescriptor)
    (device : ID3D12Device) (w : OGPUWave) : OGPUWave × ID3D12Device :=
  match Descriptor with
  | none => (w, device)
  | some descriptor =>
    let DescriptorSize := descriptor.DSVSRVUAVDescriptorSize
    let Cpu0 := descriptor.CPUSRVescriptor
    let device := device.CreateView ViewKind.SRV w.PrevSol Cpu0
    let Cpu1 := OffsetHandle Cpu0 1 DescriptorSize
    let device := device.CreateView ViewKind.SRV w.CurrSol Cpu1
    let Cpu2 := OffsetHandle Cpu1 1 DescriptorSize
    let device := device.CreateView ViewKind.SRV w.NextSol Cpu2
    let Cpu3 := OffsetHandle Cpu2 1 DescriptorSize
    let device := device.CreateView ViewKind.UAV w.PrevSol Cpu3
    let Cpu4 := OffsetHandle Cpu3 1 DescriptorSize
    let device := device.CreateView ViewKind.UAV w.CurrSol Cpu4
    let Cpu5 := OffsetHandle Cpu4 1 DescriptorSize
    let device := device.CreateView ViewKind.UAV w.NextSol Cpu5
    let Gpu0 := descriptor.GPUSRVDescriptor
    let Gpu1 := OffsetHandle Gpu0 1 DescriptorSize
    let Gpu2 := OffsetHandle Gpu1 1 DescriptorSize
    let Gpu3 := OffsetHandle Gpu2 1 DescriptorSize
    let Gpu4 := OffsetHandle Gpu3 1 DescriptorSize
    let Gpu5 := OffsetHandle Gpu4 1 DescriptorSize
    ({ w with
        PrevSolSrv := Gpu0, CurrSolSrv := Gpu1, NextSolSrv := Gpu2,
        PrevSolUav := Gpu3, CurrSolUav := Gpu4, NextSolUav := Gpu5 },
      device)

/-! ## Logical resource states -/

/-- The logical state of every resource after the recorded commands, from the states
`states` before them: a transition barrier leaves its resource in the `After`
state. -/
def trackStates (states : Nat → D3D12_RESOURCE_STATES) :
    List Command → Nat → D3D12_RESOURCE_STATES
  | [] => states
  | Command.ResourceBarrier Resource _ After :: rest =>
    trackStates (fun r => if r = Resource then After else states r) rest
  | _ :: rest => trackStates states rest

/-- Every resource in the state it is created in by `BuildResources`. -/
def createdStates : Nat → D3D12_RESOURCE_STATES := fun _ => D3D12_RESOURCE_STATES.COMMON

/-- One call on the wave simulator, with its arguments. -/
inductive WaveCall
  | Disturb (I J : Nat) (Magnitude : ℚ)
  | Update (Gt : STimer)

/-- A sequence of `Disturb` and `Update` calls, with the root signature and pipeline
states `UpdateWave` passes: the wave after them and the commands recorded. -/
def RunWave : List WaveCall → OGPUWave → OGPUWave × List Command
  | [], w => (w, [])
  | WaveCall.Disturb I J Magnitude :: rest, w =>
    let r := RunWave rest w
    (r.1, w.Disturb SRootSignature.Waves SPSOType.WavesDisturb I J Magnitude ++ r.2)
  | WaveCall.Update Gt :: rest, w =>
    let u := w.Update Gt SRootSignature.Waves SPSOType.WavesUpdate
    let r := RunWave rest u.1
    (r.1, u.2 ++ r.2)

/-- A device that creates buffers of any size and 2D textures of 1 to 16384 texels a
side, with a row pitch of 256-byte multiples for the intermediate size. -/
def demoDevice : ID3D12Device :=
  { Accepts := fun request =>
      if request.IsTexture2D then
        decide (1 ≤ request.Width ∧ request.Width ≤ 16384 ∧
          1 ≤ request.Height ∧ request.Height ≤ 16384)
      else true
    RequiredIntermediateSize := fun Width Height =>
      (Height - 1) * ((Width * 4 + 255) / 256 * 256) + Width * 4
    NextResource := 0
    Views := [] }

/-! ## Descriptor heap contents and root constants -/

/-- The view a descriptor heap slot holds: the last one written at its handle. -/
def ViewAt : List ViewRecord → Nat → Option ViewRecord
  | [], _ => none
  | v :: rest, Handle =>
    match ViewAt rest Handle with
    | some later => some later
    | none => if v.Handle = Handle then some v else none

/-- The GPU handle `Handle` names one of the six wave slots of `descriptor`, and the
view the device holds at the CPU handle of that slot is a `Kind` view of
`Resource`. -/
def HandleOfView (descriptor : SRenderObjectDescriptor) (device : ID3D12Device)
    (Handle : Nat) (Kind : ViewKind) (Resource : Nat) : Prop :=
  ∃ k : Fin 6,
    Handle = descriptor.GPUSRVDescriptor + k.val * descriptor.DSVSRVUAVDescriptorSize ∧
    ViewAt device.Views
        (descriptor.CPUSRVescriptor + k.val * descriptor.DSVSRVUAVDescriptorSize) =
      some { Handle := descriptor.CPUSRVescriptor + k.val * descriptor.DSVSRVUAVDescriptorSize
             Kind := Kind
             Resource := Resource }

instance (descriptor : SRenderObjectDescriptor) (device : ID3D12Device)
    (Handle : Nat) (Kind : ViewKind) (Resource : Nat) :
    Decidable (HandleOfView descriptor device Handle Kind Resource) := by
  unfold HandleOfView
  infer_instance

/-- Each of the six handles of the wave is the handle of the slot that holds the view
of its kind of the texture the wave holds in the same role. -/
def HandlesAligned (descriptor : SRenderObjectDescriptor) (device : ID3D12Device)
    (w : OGPUWave) : Prop :=
  HandleOfView descriptor device w.PrevSolSrv ViewKind.SRV w.PrevSol ∧
  HandleOfView descriptor device w.CurrSolSrv ViewKind.SRV w.CurrSol ∧
  HandleOfView descriptor device w.NextSolSrv ViewKind.SRV w.NextSol ∧
  HandleOfView descriptor device w.PrevSolUav ViewKind.UAV w.PrevSol ∧
  HandleOfView descriptor device w.CurrSolUav ViewKind.UAV w.CurrSol ∧
  HandleOfView descriptor device w.NextSolUav ViewKind.UAV w.NextSol

instance (descriptor : SRenderObjectDescriptor) (device : ID3D12Device) (w : OGPUWave) :
    Decidable (HandlesAligned descriptor device w) := by
  unfold HandlesAligned
  infer_instance

/-- The heap is wide enough for the six wave slots: a non-zero increment, and neither
the CPU nor the GPU handle of the sixth slot wraps. -/
def SixSlots (descriptor : SRenderObjectDescriptor) : Prop :=
  0 < descriptor.DSVSRVUAVDescriptorSize ∧
  descriptor.CPUSRVescriptor + 5 * descriptor.DSVSRVUAVDescriptorSize < 2 ^ 64 ∧
  descriptor.GPUSRVDescriptor + 5 * descriptor.DSVSRVUAVDescriptorSize < 2 ^ 64

instance (descriptor : SRenderObjectDescriptor) : Decidable (SixSlots descriptor) := by
  unfold SixSlots
  infer_instance

/-- The compute root constants after the recorded commands, by root parameter and
32-bit offset, from the constants `consts` before them (`none` is a constant never
set): `SetComputeRoot32BitConstants` overwrites `Num32BitValuesToSet` values from
`DestOffsetIn32BitValues` on. -/
def rootConstants (consts : Nat → Nat → Option Const32) :
    List Command → Nat → Nat → Option Const32
  | [] => consts
  | Command.SetComputeRoot32BitConstants RootParameterIndex Num32BitValuesToSet SrcData
      DestOffsetIn32BitValues :: rest =>
    rootConstants
      (fun p o =>
        if p = RootParameterIndex ∧ DestOffsetIn32BitValues ≤ o ∧
            o < DestOffsetIn32BitValues + Num32BitValuesToSet then
          SrcData[o - DestOffsetIn32BitValues]?
        else consts p o)
      rest
  | _ :: rest => rootConstants consts rest

/-- The compute descriptor table bound at a root parameter after the recorded
commands (`none` is a table never bound). -/
def computeTables (tables : Nat → Option Nat) : List Command → Nat → Option Nat
  | [] => tables
  | Command.SetComputeRootDescriptorTable RootParameterIndex BaseDescriptor :: rest =>
    computeTables (fun p => if p = RootParameterIndex then some BaseDescriptor else tables p) rest
  | _ :: rest => computeTables tables rest

def Command.isDispatch : Command → Bool
  | Command.Dispatch _ _ _ => true
  | _ => false

def Command.isResourceBarrier : Command → Bool
  | Command.ResourceBarrier _ _ _ => true
  | _ => false

/-- The conditions under which the constructor completes: the `int32_t` products do
not overflow, the device creates the textures and the upload buffers, and the zero
initial data covers the grid. -/
def Constructible (device : ID3D12Device) (M N : Int) : Prop :=
  (InInt32 (M * N) ∧ InInt32 (M - 1) ∧ InInt32 (N - 1) ∧ InInt32 ((M - 1) * (N - 1)) ∧
    InInt32 ((M - 1) * (N - 1) * 2)) ∧
  device.Accepts
    { HeapType := D3D12_HEAP_TYPE.DEFAULT, IsTexture2D := true, Width := toUInt32 N,
      Height := toUInt32 M, InitialState := some D3D12_RESOURCE_STATES.COMMON } = true ∧
  device.Accepts
    { HeapType := D3D12_HEAP_TYPE.UPLOAD, IsTexture2D := false,
      Width := device.RequiredIntermediateSize (toUInt32 N) (toUInt32 M),
      Height := 1, InitialState := some D3D12_RESOURCE_STATES.GENERIC_READ } = true ∧
  toUInt32 M * toUInt32 N < 2 ^ 32

instance (device : ID3D12Device) (M N : Int) : Decidable (Constructible device M N) := by
  unfold Constructible
  infer_instance

/-- The descriptor `OEngine` hands to the wave simulator in the demo: the slot after
the six material textures. -/
def demoDescriptor : SRenderObjectDescriptor :=
  { CPUSRVescriptor := 4096 + 6 * 32
    GPUSRVDescriptor := 1048576 + 6 * 32
    DSVSRVUAVDescriptorSize := 32 }

/-- Whether every recorded transition names as `Before` the logical state its
resource is in at that point, from the states `states` before the commands. -/
def barriersMatch (states : Nat → D3D12_RESOURCE_STATES) : List Command → Bool
  | [] => true
  | Command.ResourceBarrier Resource Before After :: rest =>
    decide (states Resource = Before) &&
      barriersMatch (fun r => if r = Resource then After else states r) rest
  | _ :: rest => barriersMatch states rest

/-! ## Render targets (`RenderTarget.cpp`) -/

/-- The struct `SDescriptorPair`: the CPU and the GPU handle of one descriptor slot. -/
structure SDescriptorPair where
  CPUHandle : Nat
  GPUHandle : Nat
  deriving DecidableEq, Repr

structure D3D12_VIEWPORT where
  TopLeftX : ℚ
  TopLeftY : ℚ
  Width : ℚ
  Height : ℚ
  MinDepth : ℚ
  MaxDepth : ℚ
  deriving DecidableEq

structure D3D12_RECT where
  left : Int
  top : Int
  right : Int
  bottom : Int
  deriving DecidableEq, Repr

/-- The constructor `CD3DX12_VIEWPORT(topLeftX, topLeftY, width, height)` of
`d3dx12.h`, with its default depth range. -/
def CD3DX12_VIEWPORT (topLeftX topLeftY width height : ℚ) : D3D12_VIEWPORT :=
  { TopLeftX := topLeftX, TopLeftY := topLeftY, Width := width, Height := height,
    MinDepth := 0, MaxDepth := 1 }

/-- The constructor `CD3DX12_RECT(Left, Top, Right, Bottom)` of `d3dx12.h`. -/
def CD3DX12_RECT (Left Top Right Bottom : Int) : D3D12_RECT :=
  { left := Left, top := Top, right := Right, bottom := Bottom }

/-- The constant `DirectX::Colors::LightSteelBlue` of `DirectXColors.h`. -/
def LightSteelBlue : XMFLOAT4 :=
  (690196097 / 1000000000, 768627524 / 1000000000, 870588303 / 1000000000, 1)

/-- The members of `ORenderTargetBase` that `RenderTarget.cpp` reads or writes. -/
structure ORenderTargetBase where
  Width : Nat
  Height : Nat
  Format : Nat
  Viewport : D3D12_VIEWPORT
  ScissorRect : D3D12_RECT
  HasBeedPrepared : Bool
  ID : Nat
  deriving DecidableEq

/-- The method `ORenderTargetBase::SetViewport`. -/
def ORenderTargetBase.SetViewport (self : ORenderTargetBase) : List Command :=
  [Command.RSSetViewports 1 self.Viewport.TopLeftX self.Viewport.TopLeftY self.Viewport.Width
     self.Viewport.Height self.Viewport.MinDepth self.Viewport.MaxDepth,
   Command.RSSetScissorRects 1 self.ScissorRect.left self.ScissorRect.top
     self.ScissorRect.right self.ScissorRect.bottom]

/-- The method `ORenderTargetBase::PrepareRenderTarget`.  `RTV` is what the virtual
`GetRTV()` returns, `Resource` the resource of the virtual `GetResource()`, and
`DepthStencilView` the handle `GetWindow()->GetDepthStensilView()` returns. -/
def ORenderTargetBase.PrepareRenderTarget (RTV : SDescriptorPair) (Resource : Nat)
    (DepthStencilView : Nat) (self : ORenderTargetBase) : ORenderTargetBase × List Command :=
  if self.HasBeedPrepared then (self, [])
  else
    let backbufferView := RTV.CPUHandle
    let depthStencilView := DepthStencilView
    ({ self with HasBeedPrepared := true },
      [Command.ClearRenderTargetView backbufferView LightSteelBlue,
       Command.ClearDepthStencilView depthStencilView true true 1 0,
       Command.OMSetRenderTargets 1 backbufferView true depthStencilView,
       Command.ResourceBarrier Resource D3D12_RESOURCE_STATES.GENERIC_READ
         D3D12_RESOURCE_STATES.RENDER_TARGET])

def ORenderTargetBase.GetID (self : ORenderTargetBase) : Nat := self.ID

def ORenderTargetBase.SetID (Other : Nat) (self : ORenderTargetBase) : ORenderTargetBase :=
  { self with ID := Other }

/-- The struct `SResourceInfo`, of which the embedded code reads `Resource`. -/
structure SResourceInfo where
  Resource : Option Nat
  deriving DecidableEq, Repr

/-- The class `OOffscreenTexture`: a render target with its own colour resource and its
three descriptor slots. -/
structure OOffscreenTexture extends ORenderTargetBase where
  SRVHandle : SDescriptorPair
  RTVHandle : SDescriptorPair
  DSVHandle : SDescriptorPair
  RenderTarget : SResourceInfo
  deriving DecidableEq

/-- The method `OOffscreenTexture::BuildResource`.  `Utils::CreateResource` is not part
of the sources; it is taken to create the committed resource described and to throw
when the device refuses. -/
def OOffscreenTexture.BuildResource (device : ID3D12Device) (self : OOffscreenTexture) :
    Option (OOffscreenTexture × ID3D12Device) :=
  let texDesc : ResourceRequest :=
    { HeapType := D3D12_HEAP_TYPE.DEFAULT, IsTexture2D := true, Width := self.Width,
      Height := self.Height, InitialState := none }
  match device.CreateCommittedResource texDesc with
  | none => none
  | some (resource, device1) =>
    some ({ self with RenderTarget := { Resource := some resource } }, device1)

/-- The method `OOffscreenTexture::BuildDescriptors()`.  The render-target view is
created without a description, which the device allows only for a resource that
exists. -/
def OOffscreenTexture.BuildDescriptors (device : ID3D12Device) (self : OOffscreenTexture) :
    Option ID3D12Device :=
  match self.RenderTarget.Resource with
  | none => none
  | some resource =>
    let device1 := device.CreateView ViewKind.SRV resource self.SRVHandle.CPUHandle
    some (device1.CreateView ViewKind.RTV resource self.RTVHandle.CPUHandle)

/-- The method `OOffscreenTexture::OnResize`. -/
def OOffscreenTexture.OnResize (NewWidth NewHeight : Nat) (device : ID3D12Device)
    (self : OOffscreenTexture) : Option (OOffscreenTexture × ID3D12Device) :=
  if self.Width ≠ NewWidth ∨ self.Height ≠ NewHeight then
    let self1 : OOffscreenTexture := { self with Width := NewWidth, Height := NewHeight }
    match self1.BuildResource device with
    | none => none
    | some (self2, device1) =>
      match self2.BuildDescriptors device1 with
      | none => none
      | some device2 => some (self2, device2)
  else some (self, device)

/-- An offscreen texture of 800 x 600 that has not been built yet. -/
def demoOffscreen : OOffscreenTexture :=
  { Width := 800, Height := 600, Format := 28
    Viewport := CD3DX12_VIEWPORT 0 0 800 600
    ScissorRect := CD3DX12_RECT 0 0 800 600
    HasBeedPrepared := false
    ID := 7
    SRVHandle := { CPUHandle := 4096 + 12 * 32, GPUHandle := 1048576 + 12 * 32 }
    RTVHandle := { CPUHandle := 8192 + 3 * 32, GPUHandle := 0 }
    DSVHandle := { CPUHandle := 12288 + 32, GPUHandle := 0 }
    RenderTarget := { Resource := none } }

/-! ## Window (`Window.cpp`) -/

/-- The members of `SWindowInfo` the embedded code touches.  The client size is taken
to be of type `UINT`, as `GetWidth` and `GetHeight` return it. -/
structure SWindowInfo where
  ClientWidth : Nat
  ClientHeight : Nat
  VSync : Bool := false
  Fullscreen : Bool := false
  deriving DecidableEq, Repr

/-- The size a resize event carries. -/
structure ResizeEventArgs where
  Width : Nat
  Height : Nat
  deriving DecidableEq, Repr

/-- A descriptor heap: its capacity, the kind of view it holds and the CPU handle of
its first slot. -/
structure ID3D12DescriptorHeap where
  NumDescriptors : Nat
  Kind : ViewKind
  CPUDescriptorHandleForHeapStart : Nat
  deriving DecidableEq, Repr

/-- The swap chain: the identities of its buffers, their size, and `Accepts`, which
says for which buffer count, width and height `ResizeBuffers` succeeds. -/
structure IDXGISwapChain where
  Buffers : List Nat
  Width : Nat
  Height : Nat
  Accepts : Nat → Nat → Nat → Bool

/-- The calls the window makes on the engine, the command queue, the swap chain and
its own references, in the order made.  Calls on the device are kept in the device. -/
inductive WindowCall
  | FlushGPU
  | ResetCommandList
  | ResetBackBuffer (i : Nat)
  | ResetDepthBuffer
  | ResizeBuffers (BufferCount Width Height : Nat)
  | GetBuffer (i : Nat)
  | Close
  | ExecuteCommandLists
  deriving DecidableEq, Repr

/-- What the window reaches through `Engine.lock()` and `SwapChain`: whether the
engine is still alive, the device, the swap chain, the start handle the `k`-th
descriptor heap created gets (`none`: that creation fails), the number of heaps
created so far, and the calls made so far. -/
structure WindowEnvironment where
  EngineAlive : Bool
  Device : ID3D12Device
  SwapChain : IDXGISwapChain
  HeapStart : Nat → Option Nat
  HeapsCreated : Nat
  Calls : List WindowCall

/-- The members of `OWindow` the embedded code touches.  `BackBuffers` is the array of
`BuffersCount` references, `none` a null reference. -/
structure OWindow where
  WindowInfo : SWindowInfo
  BackBuffers : Nat → Option Nat
  DepthBuffer : Option Nat
  RTVDescriptorHeap : ID3D12DescriptorHeap
  RTVDescriptorSize : Nat
  DSVDescriptorHeap : Option ID3D12DescriptorHeap
  CurrentBackBufferIndex : Nat
  Viewport : D3D12_VIEWPORT
  ScissorRect : D3D12_RECT

/-- The helper `CD3DX12_CPU_DESCRIPTOR_HANDLE::Offset(offsetScaledByIncrementSize)` of
`d3dx12.h`: the `UINT` increment is taken as `INT` and added to the 64-bit `ptr`. -/
def OffsetScaled (ptr offsetScaledByIncrementSize : Nat) : Nat :=
  (((ptr : Int) + toLong offsetScaledByIncrementSize) % 2 ^ 64).toNat

/-- The call `IDXGISwapChain::ResizeBuffers`: on success the swap chain has
`BufferCount` new buffers of the new size. -/
def IDXGISwapChain.ResizeBuffers (BufferCount Width Height : Nat) (device : ID3D12Device)
    (swapChain : IDXGISwapChain) : Option (IDXGISwapChain × ID3D12Device) :=
  if swapChain.Accepts BufferCount Width Height then
    some
      ({ swapChain with
          Buffers := (List.range BufferCount).map (fun i => device.NextResource + i)
          Width := Width, Height := Height },
        { device with NextResource := device.NextResource + BufferCount })
  else none

def OWindow.GetWidth (self : OWindow) : Nat := self.WindowInfo.ClientWidth

def OWindow.GetHeight (self : OWindow) : Nat := self.WindowInfo.ClientHeight

def OWindow.SetVSync (vSync : Bool) (self : OWindow) : OWindow :=
  { self with WindowInfo := { self.WindowInfo with VSync := vSync } }

def OWindow.ToggleVSync (self : OWindow) : OWindow :=
  self.SetVSync (!self.WindowInfo.VSync)

/-- The method `OWindow::MoveToNextFrame`; with no buffers the remainder is undefined. -/
def OWindow.MoveToNextFrame (BuffersCount : Nat) (self : OWindow) : Option OWindow :=
  if BuffersCount = 0 then none
  else some { self with
    CurrentBackBufferIndex := (self.CurrentBackBufferIndex + 1) % BuffersCount }

def OWindow.OnUpdateWindowSize (Event : ResizeEventArgs) (self : OWindow) : OWindow :=
  { self with
    WindowInfo := { self.WindowInfo with ClientHeight := Event.Height, ClientWidth := Event.Width } }

/-- The loop of `OWindow::UpdateRenderTargetViews` from index `i` on, over the
`count` indices left, with the running `rtvHandle`. -/
def UpdateRenderTargetViewsLoop :
    Nat → Nat → Nat → OWindow → WindowEnvironment → Option (OWindow × WindowEnvironment)
  | 0, _, _, self, env => some (self, env)
  | count + 1, i, rtvHandle, self, env =>
    match env.SwapChain.Buffers[i]? with
    | none => none
    | some buffer =>
      let self1 : OWindow :=
        { self with BackBuffers := fun j => if j = i then some buffer else self.BackBuffers j }
      let env1 : WindowEnvironment :=
        { env with
          Calls := env.Calls ++ [WindowCall.GetBuffer i]
          Device := env.Device.CreateView ViewKind.RTV buffer rtvHandle }
      UpdateRenderTargetViewsLoop count (i + 1) (OffsetScaled rtvHandle self.RTVDescriptorSize)
        self1 env1

/-- The method `OWindow::UpdateRenderTargetViews`; a failed `GetBuffer` throws. -/
def OWindow.UpdateRenderTargetViews (BuffersCount : Nat) (env : WindowEnvironment)
    (self : OWindow) : Option (OWindow × WindowEnvironment) :=
  if env.EngineAlive then
    UpdateRenderTargetViewsLoop BuffersCount 0
      self.RTVDescriptorHeap.CPUDescriptorHandleForHeapStart self env
  else none

/-- The method `OWindow::ResizeDepthBuffer`; a failed creation of the depth buffer or
of the descriptor heap throws. -/
def OWindow.ResizeDepthBuffer (env : WindowEnvironment) (self : OWindow) :
    Option (OWindow × WindowEnvironment) :=
  if env.EngineAlive then
    let env1 : WindowEnvironment := { env with Calls := env.Calls ++ [WindowCall.FlushGPU] }
    let resourceDesc : ResourceRequest :=
      { HeapType := D3D12_HEAP_TYPE.DEFAULT, IsTexture2D := true,
        Width := self.WindowInfo.ClientWidth, Height := self.WindowInfo.ClientHeight,
        InitialState := some D3D12_RESOURCE_STATES.DEPTH_WRITE }
    match env1.Device.CreateCommittedResource resourceDesc with
    | none => none
    | some (depthBuffer, device1) =>
      match env1.HeapStart env1.HeapsCreated with
      | none => none
      | some start =>
        let heap : ID3D12DescriptorHeap :=
          { NumDescriptors := 1, Kind := ViewKind.DSV, CPUDescriptorHandleForHeapStart := start }
        some
          ({ self with DepthBuffer := some depthBuffer, DSVDescriptorHeap := some heap },
            { env1 with
              HeapsCreated := env1.HeapsCreated + 1
              Device := device1.CreateView ViewKind.DSV depthBuffer start })
  else none

/-- The loop of `OWindow::OnResize` that resets the back-buffer references from index
`i` on, over the `count` indices left. -/
def ResetBackBuffersLoop : Nat → Nat → OWindow → WindowEnvironment → OWindow × WindowEnvironment
  | 0, _, self, env => (self, env)
  | count + 1, i, self, env =>
    ResetBackBuffersLoop count (i + 1)
      { self with BackBuffers := fun j => if j = i then none else self.BackBuffers j }
      { env with Calls := env.Calls ++ [WindowCall.ResetBackBuffer i] }

/-- The method `OWindow::OnResize`.  It does not read `Event`: the size is the one
`OnUpdateWindowSize` stored in `WindowInfo`.  The client size is passed to
`ResizeBuffers` as `UINT` and to `CD3DX12_RECT` as `LONG`. -/
def OWindow.OnResize (BuffersCount : Nat) (_Event : ResizeEventArgs) (env : WindowEnvironment)
    (self : OWindow) : Option (OWindow × WindowEnvironment) :=
  if env.EngineAlive then
    let env1 : WindowEnvironment :=
      { env with Calls := env.Calls ++ [WindowCall.FlushGPU, WindowCall.ResetCommandList] }
    let reset := ResetBackBuffersLoop BuffersCount 0 self env1
    let self2 : OWindow := { reset.1 with DepthBuffer := none }
    let env2 : WindowEnvironment :=
      { reset.2 with Calls := reset.2.Calls ++ [WindowCall.ResetDepthBuffer] }
    let env3 : WindowEnvironment :=
      { env2 with
        Calls := env2.Calls ++
          [WindowCall.ResizeBuffers BuffersCount self2.WindowInfo.ClientWidth
            self2.WindowInfo.ClientHeight] }
    match env3.SwapChain.ResizeBuffers BuffersCount self2.WindowInfo.ClientWidth
        self2.WindowInfo.ClientHeight env3.Device with
    | none => none
    | some (swapChain, device) =>
      let env4 : WindowEnvironment := { env3 with SwapChain := swapChain, Device := device }
      let self4 : OWindow := { self2 with CurrentBackBufferIndex := 0 }
      match self4.UpdateRenderTargetViews BuffersCount env4 with
      | none => none
      | some (self5, env5) =>
        match self5.ResizeDepthBuffer env5 with
        | none => none
        | some (self6, env6) =>
          let env7 : WindowEnvironment :=
            { env6 with
              Calls := env6.Calls ++
                [WindowCall.Close, WindowCall.ExecuteCommandLists, WindowCall.FlushGPU] }
          some
            ({ self6 with
                Viewport := CD3DX12_VIEWPORT 0 0 (self6.WindowInfo.ClientWidth : ℚ)
                  (self6.WindowInfo.ClientHeight : ℚ)
                ScissorRect := CD3DX12_RECT 0 0 (toLong self6.WindowInfo.ClientWidth)
                  (toLong self6.WindowInfo.ClientHeight) },
              env7)
  else none

/-- The render-target views `UpdateRenderTargetViews` writes for the `count` buffers
from index `i` on, the first at `rtvHandle`. -/
def RenderTargetViews : Nat → Nat → Nat → Nat → List Nat → List ViewRecord
  | 0, _, _, _, _ => []
  | count + 1, i, rtvHandle, RTVDescriptorSize, buffers =>
    match buffers[i]? with
    | none => []
    | some buffer =>
      { Handle := rtvHandle, Kind := ViewKind.RTV, Resource := buffer } ::
        RenderTargetViews count (i + 1) (OffsetScaled rtvHandle RTVDescriptorSize)
          RTVDescriptorSize buffers

/-- The conditions under which a resize to `Width` x `Height` completes: the engine is
alive, the swap chain resizes, the device creates the depth buffer, and the next
descriptor heap is created. -/
def CanResize (BuffersCount Width Height : Nat) (env : WindowEnvironment) : Prop :=
  env.EngineAlive = true ∧
  env.SwapChain.Accepts BuffersCount Width Height = true ∧
  env.Device.Accepts
    { HeapType := D3D12_HEAP_TYPE.DEFAULT, IsTexture2D := true, Width := Width,
      Height := Height, InitialState := some D3D12_RESOURCE_STATES.DEPTH_WRITE } = true ∧
  (env.HeapStart env.HeapsCreated).isSome = true

instance (BuffersCount Width Height : Nat) (env : WindowEnvironment) :
    Decidable (CanResize BuffersCount Width Height env) := by
  unfold CanResize
  infer_instance

/-- An engine with `demoDevice`, a swap chain of three 800 x 600 buffers that resizes
to any non-empty size, and descriptor heaps 4096 bytes apart. -/
def demoEnvironment : WindowEnvironment :=
  { EngineAlive := true
    Device := { demoDevice with NextResource := 10 }
    SwapChain :=
      { Buffers := [5, 6, 7], Width := 800, Height := 600
        Accepts := fun _ Width Height => decide (0 < Width ∧ 0 < Height) }
    HeapStart := fun k => some (65536 + k * 4096)
    HeapsCreated := 2
    Calls := [] }

/-- A window of 800 x 600 with three back buffers, as its constructor leaves it. -/
def demoWindow : OWindow :=
  { WindowInfo := { ClientWidth := 800, ClientHeight := 600 }
    BackBuffers := fun i => [5, 6, 7][i]?
    DepthBuffer := some 8
    RTVDescriptorHeap :=
      { NumDescriptors := 3, Kind := ViewKind.RTV, CPUDescriptorHandleForHeapStart := 8192 }
    RTVDescriptorSize := 32
    DSVDescriptorHeap :=
      some { NumDescriptors := 1, Kind := ViewKind.DSV,
             CPUDescriptorHandleForHeapStart := 65536 + 4096 }
    CurrentBackBufferIndex := 2
    Viewport := CD3DX12_VIEWPORT 0 0 800 600
    ScissorRect := CD3DX12_RECT 0 0 800 600 }

/-! ## Texture catalog (`TextureManager.cpp`, `Texture.h`) -/

/-- The struct `STexture`; the two resources are named by their identity, `none` a
null reference. -/
structure STexture where
  Name : String
  FileName : String
  Resource : Option Nat := none
  UploadHeap : Option Nat := none
  HeapIdx : Int := -1
  deriving DecidableEq, Repr

/-- The class `OTextureManager`: the map `Textures`, kept as its entries in the order
they were inserted, each under its key. -/
structure OTextureManager where
  Textures : List (String × STexture)
  deriving DecidableEq, Repr

/-- The call `Textures.contains(Name)`. -/
def OTextureManager.contains (Name : String) (self : OTextureManager) : Bool :=
  self.Textures.any (fun entry => entry.1 == Name)

/-- How a call of `CreateTexture` ends: it returns `nullptr`, it throws, or it returns
the registered texture. -/
inductive CreateTextureResult
  | Nullptr
  | Thrown
  | Created (texture : STexture)
  deriving DecidableEq, Repr

/-- The method `OTextureManager::CreateTexture`.  `Loaded` is what
`CreateDDSTextureFromFile12` does with the file: `none` a failure, which
`THROW_IF_FAILED` throws, otherwise the resource and the upload heap it creates.
`HeapIdx` is `int64_t`, which holds every size the map can have. -/
def OTextureManager.CreateTexture (Name FileName : String) (Loaded : Option (Nat × Nat))
    (self : OTextureManager) : OTextureManager × CreateTextureResult :=
  if self.contains Name then (self, CreateTextureResult.Nullptr)
  else
    let texture : STexture :=
      { Name := Name, FileName := FileName, HeapIdx := (self.Textures.length : Int) }
    match Loaded with
    | none => (self, CreateTextureResult.Thrown)
    | some (resource, uploadHeap) =>
      let texture : STexture :=
        { texture with Resource := some resource, UploadHeap := some uploadHeap }
      ({ self with Textures := self.Textures ++ [(Name, texture)] },
        CreateTextureResult.Created texture)

/-- The method `OTextureManager::FindTexture`. -/
def OTextureManager.FindTexture (Name : String) (self : OTextureManager) : Option STexture :=
  if !self.contains Name then none
  else (self.Textures.find? (fun entry => entry.1 == Name)).map (fun entry => entry.2)

/-- The arguments of one `CreateTexture` call and what the loader does with the file. -/
structure CreateTextureCall where
  Name : String
  FileName : String
  Loaded : Option (Nat × Nat)
  deriving DecidableEq, Repr

/-- A sequence of `CreateTexture` calls, a thrown failure being caught by the caller:
the catalog after them and how each ended. -/
def RunCreateTexture : List CreateTextureCall → OTextureManager →
    OTextureManager × List CreateTextureResult
  | [], self => (self, [])
  | call :: rest, self =>
    let created := self.CreateTexture call.Name call.FileName call.Loaded
    let r := RunCreateTexture rest created.1
    (r.1, created.2 :: r.2)

/-- The texture a call registered, if it registered one. -/
def CreateTextureResult.registered : CreateTextureResult → Option STexture
  | CreateTextureResult.Created texture => some texture
  | _ => none

/-- The heap indices of the catalog are 0, 1, 2, ... in insertion order, every entry
sits under its own name, and the names are pairwise distinct. -/
def CatalogOrdered (self : OTextureManager) : Prop :=
  self.Textures.map (fun entry => entry.2.HeapIdx) =
    (List.range self.Textures.length).map (fun k : Nat => (k : Int)) ∧
  (∀ entry ∈ self.Textures, entry.2.Name = entry.1) ∧
  (self.Textures.map (fun entry => entry.1)).Nodup

/-! ## Roles of the wave textures, a demo catalog -/

/-- A catalog holding the texture `Grass`, registered first. -/
def demoTextures : OTextureManager :=
  { Textures :=
      [("Grass",
        { Name := "Grass", FileName := "Resources/Textures/grass.dds", Resource := some 20,
          UploadHeap := some 21, HeapIdx := 0 })] }

/-- The assignment of the three textures and of the six descriptor handles to the roles
Prev, Curr, Next. -/
def OGPUWave.Roles (w : OGPUWave) : (Nat × Nat × Nat) × (Nat × Nat × Nat) × (Nat × Nat × Nat) :=
  ((w.PrevSol, w.CurrSol, w.NextSol), (w.PrevSolSrv, w.CurrSolSrv, w.NextSolSrv),
    (w.PrevSolUav, w.CurrSolUav, w.NextSolUav))

/-- The three textures are pairwise distinct. -/
def OGPUWave.TexturesDistinct (w : OGPUWave) : Prop :=
  w.PrevSol ≠ w.CurrSol ∧ w.CurrSol ≠ w.NextSol ∧ w.PrevSol ≠ w.NextSol

instance (w : OGPUWave) : Decidable w.TexturesDistinct := by
  unfold OGPUWave.TexturesDistinct
  infer_instance

/-! ## Key handling (`TextureWaves.cpp`, `Window.cpp`) -/

/-- The values of `KeyCode` that `OnKeyPressed` tells apart; `Other` stands for every
other key. -/
inductive KeyCode
  | Escape
  | Enter
  | F11
  | V
  | Other (code : Nat)
  deriving DecidableEq, Repr

/-- The members of `KeyEventArgs` that `OnKeyPressed` reads. -/
structure KeyEventArgs where
  Key : KeyCode
  Alt : Bool
  deriving DecidableEq, Repr

/-- The method `OWindow::SetFullscreen`, as far as `WindowInfo` goes; the calls that
restyle and move the native window are not embedded. -/
def OWindow.SetFullscreen (_Fullscreen : Bool) (self : OWindow) : OWindow :=
  if self.WindowInfo.Fullscreen ≠ _Fullscreen then
    { self with WindowInfo := { self.WindowInfo with Fullscreen := _Fullscreen } }
  else self

def OWindow.ToggleFullscreen (self : OWindow) : OWindow :=
  self.SetFullscreen (!self.WindowInfo.Fullscreen)

/-- The `switch` of `OTextureWaves::OnKeyPressed`.  `Window` is the window
`Engine.lock()->GetWindow()` reaches (`none`: a null pointer on the way), as the call
of `OTest::OnKeyPressed`, which comes first and is not part of the sources, leaves
it; the result is the window afterwards and the exit codes passed to
`OApplication::Quit`.  The label `case KeyCode::F11` stands inside the block of
`if (Event.Alt)` under `case KeyCode::Enter`, and that block ends in `break`: F11
and Enter with Alt run the block; Enter without Alt skips it and, there being no
`break` after it, runs on into `case KeyCode::V`. -/
def OTextureWaves.OnKeyPressed (Event : KeyEventArgs) (Window : Option OWindow) :
    Option (Option OWindow × List Int) :=
  match Event.Key with
  | KeyCode.Escape => some (Window, [0])
  | KeyCode.Enter =>
    if Event.Alt then
      match Window with
      | none => none
      | some window => some (some window.ToggleFullscreen, [])
    else
      match Window with
      | none => none
      | some window => some (some window.ToggleVSync, [])
  | KeyCode.F11 =>
    match Window with
    | none => none
    | some window => some (some window.ToggleFullscreen, [])
  | KeyCode.V =>
    match Window with
    | none => none
    | some window => some (some window.ToggleVSync, [])
  | KeyCode.Other _ => some (Window, [])

/-! ## Construction of a frame resource (`FrameResource.h`) -/

/-- Modelled from the spec: the constructor
`OUploadBuffer<T>(Device, ElementCount, IsConstantBuffer)` (§4.2; `UploadBuffer.h` is
not part of the sources).  `ElementByteSize` is `sizeof(T)`; the elements of a
constant buffer are 256-byte aligned; the buffer is created on the upload heap with
its capacity fixed, and a refused creation throws. -/
def OUploadBuffer.Constructor (device : ID3D12Device) (ElementByteSize ElementCount : Nat)
    (IsConstantBuffer : Bool) : Option (OUploadBuffer × ID3D12Device) :=
  let elementByteSize :=
    if IsConstantBuffer then (ElementByteSize + 255) / 256 * 256 else ElementByteSize
  match device.CreateCommittedResource
      { HeapType := D3D12_HEAP_TYPE.UPLOAD, IsTexture2D := false,
        Width := elementByteSize * ElementCount, Height := 1,
        InitialState := some D3D12_RESOURCE_STATES.GENERIC_READ } with
  | none => none
  | some (resource, device1) =>
    some
      ({ GPUVirtualAddress := device1.GPUVirtualAddress resource, ElementCount := ElementCount,
         IsConstantBuffer := IsConstantBuffer },
        device1)

/-- The sizes in bytes of the four element types of a frame resource's buffers. -/
structure ElementSizes where
  SPassConstants : Nat
  SObjectConstants : Nat
  SVertex : Nat
  SMaterialConstants : Nat
  deriving DecidableEq, Repr

/-- The constructor `SFrameResource::SFrameResource(Device, PassCount, ObjectCount,
WaveVertexCount, MaterialCount)`; the four counts are `UINT`.  A refused command
allocator throws.  The allocator itself is not kept in the embedding. -/
def SFrameResource.Constructor (sizes : ElementSizes) (device : ID3D12Device)
    (PassCount ObjectCount WaveVertexCount MaterialCount : Nat) :
    Option (SFrameResource × ID3D12Device) :=
  if device.CreatesCommandAllocator then
    match OUploadBuffer.Constructor device sizes.SPassConstants PassCount true with
    | none => none
    | some (PassCB, device1) =>
      match OUploadBuffer.Constructor device1 sizes.SObjectConstants ObjectCount true with
      | none => none
      | some (ObjectCB, device2) =>
        match OUploadBuffer.Constructor device2 sizes.SVertex WaveVertexCount false with
        | none => none
        | some (WavesVB, device3) =>
          if MaterialCount > 0 then
            match OUploadBuffer.Constructor device3 sizes.SMaterialConstants MaterialCount
                true with
            | none => none
            | some (MaterialCB, device4) =>
              some
                ({ PassCB := PassCB, ObjectCB := ObjectCB, MaterialCB := some MaterialCB,
                   WavesVB := WavesVB, Fence := 0 },
                  device4)
          else
            some
              ({ PassCB := PassCB, ObjectCB := ObjectCB, MaterialCB := none,
                 WavesVB := WavesVB, Fence := 0 },
                device3)
  else none

/-- The upload-heap buffer request of `Count` elements of `ElementByteSize` bytes. -/
def UploadRequest (ElementByteSize Count : Nat) (IsConstantBuffer : Bool) : ResourceRequest :=
  { HeapType := D3D12_HEAP_TYPE.UPLOAD, IsTexture2D := false,
    Width :=
      (if IsConstantBuffer then (ElementByteSize + 255) / 256 * 256 else ElementByteSize) * Count,
    Height := 1, InitialState := some D3D12_RESOURCE_STATES.GENERIC_READ }

/-- The conditions under which the constructor of a frame resource completes: the
device creates the command allocator and the three buffers allocated always, and the
material buffer when there are materials. -/
def CanConstructFrameResource (sizes : ElementSizes) (device : ID3D12Device)
    (PassCount ObjectCount WaveVertexCount MaterialCount : Nat) : Prop :=
  device.CreatesCommandAllocator = true ∧
  device.Accepts (UploadRequest sizes.SPassConstants PassCount true) = true ∧
  device.Accepts (UploadRequest sizes.SObjectConstants ObjectCount true) = true ∧
  device.Accepts (UploadRequest sizes.SVertex WaveVertexCount false) = true ∧
  (MaterialCount = 0 ∨
    device.Accepts (UploadRequest sizes.SMaterialConstants MaterialCount true) = true)

instance (sizes : ElementSizes) (device : ID3D12Device)
    (PassCount ObjectCount WaveVertexCount MaterialCount : Nat) :
    Decidable (CanConstructFrameResource sizes device PassCount ObjectCount WaveVertexCount
      MaterialCount) := by
  unfold CanConstructFrameResource
  infer_instance

/-- Element sizes for the demo: 32 bytes a vertex (eight floats), the three constant
structs below 256 bytes or a few times that. -/
def demoSizes : ElementSizes :=
  { SPassConstants := 928, SObjectConstants := 144, SVertex := 32, SMaterialConstants := 96 }

/-- The demo application with no material registered, on a ring of three copies of
the frame resource `F`. -/
def zeroMaterialApp (F : SFrameResource) : OTextureWaves :=
  { demoApp with
    Engine := { demoEngine with FrameResources := [F, F, F], Materials := [] } }

/-! ## Frames of the wave simulator -/

/-- The random values `UpdateWave` draws in one frame in which the disturbance is due,
with the timer reading of the frame. -/
structure WaveFrame where
  Timer : STimer
  I : Nat
  J : Nat
  R : ℚ

/-- A sequence of `UpdateWave` calls, one a frame: the application after them and the
commands recorded. -/
def RunUpdateWave : List WaveFrame → OTextureWaves → OTextureWaves × List Command
  | [], self => (self, [])
  | frame :: rest, self =>
    let waved := self.UpdateWave frame.Timer frame.I frame.J frame.R
    let r := RunUpdateWave rest waved.1
    (r.1, waved.2 ++ r.2)

/-- The demo application around the wave simulator `w`, once `BuildDescriptors` has
given it the six slots of `demoDescriptor`. -/
def demoBuiltApp (w : OGPUWave) (device : ID3D12Device) : OTextureWaves :=
  { demoApp with Waves := (w.BuildDescriptors (some demoDescriptor) device).1 }

/-- A frame of 1/60 s at time 0.25 s: the disturbance is due, the simulator does not
step. -/
def demoDisturbEvent : UpdateEventArgs :=
  { Timer := { DeltaTime := 1 / 60, Time := 1 / 4 }, IsWidgetInFocus := false }

/-- The frame `k` (from 1) of a run at 0.03 s a frame, with the disturbance not due. -/
def demoStepFrame (k : Nat) : WaveFrame :=
  { Timer := { DeltaTime := 3 / 100, Time := 3 * k / 100 }, I := 128, J := 128, R := 1 }

/-! ## Operations on a render target (`RenderTarget.cpp`) -/

def Command.isClearRenderTargetView : Command → Bool
  | Command.ClearRenderTargetView _ _ => true
  | _ => false

/-- The method `ORenderTargetBase::CopyTo`: it hands `Dest` and `this` to
`OCommandQueue::CopyResourceTo`, which is not part of the sources; in
`RenderTarget.cpp` it writes no member. -/
def ORenderTargetBase.CopyTo (_Dest : Nat) (self : ORenderTargetBase) : ORenderTargetBase :=
  self

/-- The method `ORenderTargetBase::InitRenderObject`, which is empty. -/
def ORenderTargetBase.InitRenderObject (self : ORenderTargetBase) : ORenderTargetBase := self

/-- The method `OOffscreenTexture::InitRenderObject`. -/
def OOffscreenTexture.InitRenderObject (device : ID3D12Device) (self : OOffscreenTexture) :
    Option (OOffscreenTexture × ID3D12Device) :=
  let self1 : OOffscreenTexture :=
    { self with toORenderTargetBase := self.toORenderTargetBase.InitRenderObject }
  self1.BuildResource device

/-- The method `OOffscreenTexture::BuildDescriptors(IDescriptor*)`.  `Descriptor` is
the outcome of the cast: `none` when it fails, otherwise the three descriptor pairs
the calls `SRVHandle.Offset(SRVHandle)`, `RTVHandle.Offset(RTVHandle)` and
`DSVHandle.Offset(DSVHandle)` of the descriptor (not part of the sources) store in
the members passed to them. -/
def OOffscreenTexture.BuildDescriptorsFrom
    (Descriptor : Option (SDescriptorPair × SDescriptorPair × SDescriptorPair))
    (device : ID3D12Device) (self : OOffscreenTexture) :
    Option (OOffscreenTexture × ID3D12Device) :=
  match Descriptor with
  | none => some (self, device)
  | some (srv, rtv, dsv) =>
    let self1 : OOffscreenTexture :=
      { self with SRVHandle := srv, RTVHandle := rtv, DSVHandle := dsv }
    match self1.BuildDescriptors device with
    | none => none
    | some device1 => some (self1, device1)

/-- One call on an offscreen texture, with its arguments; for `PrepareRenderTarget`
also what `GetRTV`, `GetResource` and the depth-stencil view of the window return. -/
inductive RenderTargetCall
  | SetViewport
  | CopyTo (Dest : Nat)
  | OnResize (NewWidth NewHeight : Nat)
  | BuildDescriptors (Descriptor : Option (SDescriptorPair × SDescriptorPair × SDescriptorPair))
  | InitRenderObject
  | SetID (Other : Nat)
  | PrepareRenderTarget (RTV : SDescriptorPair) (Resource DepthStencilView : Nat)

def RenderTargetCall.isPrepareRenderTarget : RenderTargetCall → Bool
  | RenderTargetCall.PrepareRenderTarget _ _ _ => true
  | _ => false

/-- One call on an offscreen texture: the texture and the device afterwards and the
commands recorded; `none` when the call throws. -/
def CallRenderTarget (call : RenderTargetCall) (device : ID3D12Device)
    (self : OOffscreenTexture) : Option (OOffscreenTexture × ID3D12Device × List Command) :=
  match call with
  | RenderTargetCall.SetViewport =>
    some (self, device, self.toORenderTargetBase.SetViewport)
  | RenderTargetCall.CopyTo Dest =>
    some ({ self with toORenderTargetBase := self.toORenderTargetBase.CopyTo Dest }, device, [])
  | RenderTargetCall.OnResize NewWidth NewHeight =>
    (self.OnResize NewWidth NewHeight device).map (fun r => (r.1, r.2, []))
  | RenderTargetCall.BuildDescriptors Descriptor =>
    (self.BuildDescriptorsFrom Descriptor device).map (fun r => (r.1, r.2, []))
  | RenderTargetCall.InitRenderObject =>
    (self.InitRenderObject device).map (fun r => (r.1, r.2, []))
  | RenderTargetCall.SetID Other =>
    some ({ self with toORenderTargetBase := self.toORenderTargetBase.SetID Other }, device, [])
  | RenderTargetCall.PrepareRenderTarget RTV Resource DepthStencilView =>
    let prepared := self.toORenderTargetBase.PrepareRenderTarget RTV Resource DepthStencilView
    some ({ self with toORenderTargetBase := prepared.1 }, device, prepared.2)

/-- A sequence of calls on an offscreen texture, over any number of frames, up to the
first that throws: for each call the commands it recorded and the prepared flag
after it. -/
def RunRenderTarget : List RenderTargetCall → ID3D12Device → OOffscreenTexture →
    List (RenderTargetCall × List Command × Bool)
  | [], _, _ => []
  | call :: rest, device, self =>
    match CallRenderTarget call device self with
    | none => []
    | some (self1, device1, cmds) =>
      (call, cmds, self1.HasBeedPrepared) :: RunRenderTarget rest device1 self1

/-! ## The fence and the uploads of one `OnUpdate` -/

/-- The state a frame starts from after the frames `frames` have run from `self`: for
each of them `OnUpdate`, then the rest of the frame. -/
def StateAfter (NumFrameResources : Nat) (Wait : Nat → Nat → Nat) :
    List FrameInput → OTextureWaves → Option OTextureWaves
  | [], self => some self
  | f :: frames, self =>
    match self.OnUpdate NumFrameResources Wait f.Event with
    | none => none
    | some r => StateAfter NumFrameResources Wait frames (EndFrame f r.1)

/-- Replays the host events of one `OnUpdate` in their order against the fence.
`completed` is the completed fence value when the first event takes place; a
`WaitForFenceValue(v)` entered at completed value `c` returns at `Wait c v`, and no
other event changes the value the replay holds (the device may only have raised it).
The result is `true` when every `CopyData` in the list goes to a frame resource of
the ring whose marker `Fence` is 0 or at most the completed value held at that
point. -/
def UploadsAfterFence (Wait : Nat → Nat → Nat) (FrameResources : List SFrameResource) :
    Nat → List HostEvent → Bool
  | _, [] => true
  | completed, HostEvent.WaitForFenceValue v :: rest =>
    UploadsAfterFence Wait FrameResources (Wait completed v) rest
  | completed, HostEvent.ObjectCBCopyData f _ _ :: rest =>
    (match FrameResources[f]? with
      | some F => decide (F.Fence = 0 ∨ F.Fence ≤ completed)
      | none => false) &&
    UploadsAfterFence Wait FrameResources completed rest
  | completed, HostEvent.MaterialCBCopyData f _ _ :: rest =>
    (match FrameResources[f]? with
      | some F => decide (F.Fence = 0 ∨ F.Fence ≤ completed)
      | none => false) &&
    UploadsAfterFence Wait FrameResources completed rest

/-! ## A wave short of its time step -/

/-- The demo wave with the `float` nearest to 0.03 as its time step,
`16106127 * 2^-29`, and an accumulated time one unit in the last place below it. -/
def demoAccumulatedWaves : OGPUWave :=
  { demoWaves with t := 16106126 / 2 ^ 29, TimeStep := 16106127 / 2 ^ 29 }

/-- A frame delta of `3 * 2^-31` s, three quarters of that unit. -/
def demoShortTimer : STimer := { DeltaTime := 3 / 2 ^ 31, Time := 1 / 60 }

/-! # Theorems -/

/-! ## Binary32 rounding -/

theorem roundHalfEven_intCast (n : ℤ) : roundHalfEven (n : ℚ) = n := by
  unfold roundHalfEven
  simp

theorem floor_le_roundHalfEven (x : ℚ) : ⌊x⌋ ≤ roundHalfEven x := by
  unfold roundHalfEven
  dsimp only
  split_ifs <;> omega

theorem roundHalfEven_le_floor_add_one (x : ℚ) : roundHalfEven x ≤ ⌊x⌋ + 1 := by
  unfold roundHalfEven
  dsimp only
  split_ifs <;> omega

theorem roundHalfEven_mono {x y : ℚ} (h : x ≤ y) : roundHalfEven x ≤ roundHalfEven y := by
  have hf : ⌊x⌋ ≤ ⌊y⌋ := Int.floor_mono h
  rcases lt_or_eq_of_le hf with hlt | heq
  · calc roundHalfEven x ≤ ⌊x⌋ + 1 := roundHalfEven_le_floor_add_one x
      _ ≤ ⌊y⌋ := hlt
      _ ≤ roundHalfEven y := floor_le_roundHalfEven y
  · unfold roundHalfEven
    dsimp only
    rw [heq]
    have hxy : x - (⌊y⌋ : ℚ) ≤ y - (⌊y⌋ : ℚ) := by linarith
    split_ifs <;> first | omega | (exfalso; linarith)

theorem binade32_mono {x y : ℚ} (hx : 0 < x) (h : x ≤ y) : binade32 x ≤ binade32 y := by
  unfold binade32
  exact max_le_max (Int.log_mono_right hx h) (le_refl _)

theorem lt_zpow_binade32 (x : ℚ) : x < (2 : ℚ) ^ (binade32 x + 1) := by
  have h1 : x < (2 : ℚ) ^ (Int.log 2 x + 1) := by
    exact_mod_cast Int.lt_zpow_succ_log_self (by norm_num : 1 < 2) x
  have h2 : (2 : ℚ) ^ (Int.log 2 x + 1) ≤ (2 : ℚ) ^ (binade32 x + 1) := by
    apply zpow_le_zpow_right₀ (by norm_num)
    unfold binade32
    have := le_max_left (Int.log 2 x) (-126)
    omega
  exact lt_of_lt_of_le h1 h2

theorem zpow_binade32_le {x : ℚ} (hx : 0 < x) (h : -126 < binade32 x) :
    (2 : ℚ) ^ binade32 x ≤ x := by
  have e : binade32 x = Int.log 2 x := by
    unfold binade32 at h ⊢
    rcases max_cases (Int.log 2 x) (-126) with ⟨h1, _⟩ | ⟨h1, _⟩
    · exact h1
    · rw [h1] at h
      exact absurd h (lt_irrefl _)
  rw [e]
  exact_mod_cast Int.zpow_log_le_self (by norm_num : 1 < 2) hx

theorem roundMagnitude32_nonneg {x : ℚ} (hx : 0 ≤ x) : 0 ≤ roundMagnitude32 x := by
  unfold roundMagnitude32
  have hq : (0 : ℚ) < (2 : ℚ) ^ (binade32 x - 23) := zpow_pos (by norm_num) _
  have h0 : (0 : ℤ) ≤ roundHalfEven (x / (2 : ℚ) ^ (binade32 x - 23)) := by
    have := roundHalfEven_mono (div_nonneg hx hq.le)
    rwa [show ((0 : ℚ)) = ((0 : ℤ) : ℚ) by norm_num, roundHalfEven_intCast] at this
  exact mul_nonneg (by exact_mod_cast h0) hq.le

theorem roundMagnitude32_le (x : ℚ) :
    roundMagnitude32 x ≤ (2 : ℚ) ^ (binade32 x + 1) := by
  unfold roundMagnitude32
  have hq : (0 : ℚ) < (2 : ℚ) ^ (binade32 x - 23) := zpow_pos (by norm_num) _
  have hx := lt_zpow_binade32 x
  have e : (2 : ℚ) ^ (binade32 x + 1) = (2 : ℚ) ^ (24 : ℤ) * (2 : ℚ) ^ (binade32 x - 23) := by
    rw [← zpow_add₀ (by norm_num : (2 : ℚ) ≠ 0)]
    congr 1
    omega
  have h1 : x / (2 : ℚ) ^ (binade32 x - 23) ≤ (((2 : ℤ) ^ (24 : ℕ) : ℤ) : ℚ) := by
    rw [div_le_iff₀ hq]
    have : (((2 : ℤ) ^ (24 : ℕ) : ℤ) : ℚ) = (2 : ℚ) ^ (24 : ℤ) := by norm_num
    rw [this, ← e]
    exact hx.le
  have h2 := roundHalfEven_mono h1
  rw [roundHalfEven_intCast] at h2
  rw [e]
  apply mul_le_mul_of_nonneg_right _ hq.le
  have : (2 : ℚ) ^ (24 : ℤ) = (((2 : ℤ) ^ (24 : ℕ) : ℤ) : ℚ) := by norm_num
  rw [this]
  exact_mod_cast h2

theorem le_roundMagnitude32 {x : ℚ} (hx : 0 < x) (h : -126 < binade32 x) :
    (2 : ℚ) ^ binade32 x ≤ roundMagnitude32 x := by
  unfold roundMagnitude32
  have hq : (0 : ℚ) < (2 : ℚ) ^ (binade32 x - 23) := zpow_pos (by norm_num) _
  have hle := zpow_binade32_le hx h
  have e : (2 : ℚ) ^ (binade32 x) = (2 : ℚ) ^ (23 : ℤ) * (2 : ℚ) ^ (binade32 x - 23) := by
    rw [← zpow_add₀ (by norm_num : (2 : ℚ) ≠ 0)]
    congr 1
    omega
  have h1 : (((2 : ℤ) ^ (23 : ℕ) : ℤ) : ℚ) ≤ x / (2 : ℚ) ^ (binade32 x - 23) := by
    rw [le_div_iff₀ hq]
    have : (((2 : ℤ) ^ (23 : ℕ) : ℤ) : ℚ) = (2 : ℚ) ^ (23 : ℤ) := by norm_num
    rw [this, ← e]
    exact hle
  have h2 := roundHalfEven_mono h1
  rw [roundHalfEven_intCast] at h2
  rw [e]
  apply mul_le_mul_of_nonneg_right _ hq.le
  have : (2 : ℚ) ^ (23 : ℤ) = (((2 : ℤ) ^ (23 : ℕ) : ℤ) : ℚ) := by norm_num
  rw [this]
  exact_mod_cast h2

theorem roundMagnitude32_zero : roundMagnitude32 0 = 0 := by
  unfold roundMagnitude32
  rw [zero_div, show ((0 : ℚ)) = ((0 : ℤ) : ℚ) by norm_num, roundHalfEven_intCast]
  simp

theorem roundMagnitude32_mono {x y : ℚ} (hx : 0 ≤ x) (h : x ≤ y) :
    roundMagnitude32 x ≤ roundMagnitude32 y := by
  rcases eq_or_lt_of_le hx with h0 | hpos
  · rw [← h0, roundMagnitude32_zero]
    exact roundMagnitude32_nonneg (le_trans hx h)
  have hE := binade32_mono hpos h
  rcases eq_or_lt_of_le hE with heq | hlt
  · unfold roundMagnitude32
    rw [heq]
    have hq : (0 : ℚ) < (2 : ℚ) ^ (binade32 y - 23) := zpow_pos (by norm_num) _
    apply mul_le_mul_of_nonneg_right _ hq.le
    have := roundHalfEven_mono (div_le_div_of_nonneg_right h hq.le)
    exact_mod_cast this
  · have hy : 0 < y := lt_of_lt_of_le hpos h
    have h126 : -126 < binade32 y := by
      have : -126 ≤ binade32 x := le_max_right _ _
      omega
    calc roundMagnitude32 x ≤ (2 : ℚ) ^ (binade32 x + 1) := roundMagnitude32_le x
      _ ≤ (2 : ℚ) ^ binade32 y := zpow_le_zpow_right₀ (by norm_num) (by omega)
      _ ≤ roundMagnitude32 y := le_roundMagnitude32 hy h126

/-- Rounding to binary32 is monotone. -/
theorem roundBinary32_mono {x y : ℚ} (h : x ≤ y) : roundBinary32 x ≤ roundBinary32 y := by
  unfold roundBinary32
  by_cases hx : 0 ≤ x
  · have hy : 0 ≤ y := le_trans hx h
    rw [if_pos hx, if_pos hy]
    exact roundMagnitude32_mono hx h
  · rw [if_neg hx]
    have hx1 : 0 ≤ -x := by linarith
    by_cases hy : 0 ≤ y
    · rw [if_pos hy]
      have := roundMagnitude32_nonneg hx1
      have := roundMagnitude32_nonneg hy
      linarith
    · rw [if_neg hy]
      have hy1 : 0 ≤ -y := by linarith
      have := roundMagnitude32_mono hy1 (by linarith : -y ≤ -x)
      linarith

theorem roundMagnitude32_eq_self (m e : ℤ) (hm0 : 0 ≤ m) (hm : m < 2 ^ 24) (he : -149 ≤ e) :
    roundMagnitude32 ((m : ℚ) * (2 : ℚ) ^ e) = (m : ℚ) * (2 : ℚ) ^ e := by
  rcases eq_or_lt_of_le hm0 with h0 | hpos
  · rw [← h0]
    simp [roundMagnitude32_zero]
  have h2e : (0 : ℚ) < (2 : ℚ) ^ e := zpow_pos (by norm_num) _
  have hx : (0 : ℚ) < (m : ℚ) * (2 : ℚ) ^ e := mul_pos (by exact_mod_cast hpos) h2e
  have hE : binade32 ((m : ℚ) * (2 : ℚ) ^ e) - 23 ≤ e := by
    have hlog : Int.log 2 ((m : ℚ) * (2 : ℚ) ^ e) < e + 24 := by
      rw [← Int.lt_zpow_iff_log_lt (by norm_num : 1 < 2) hx]
      have e1 : (((2 : ℕ) : ℚ)) ^ (e + 24) = (2 : ℚ) ^ (24 : ℤ) * (2 : ℚ) ^ e := by
        rw [show (((2 : ℕ) : ℚ)) = 2 by norm_num, ← zpow_add₀ (by norm_num : (2 : ℚ) ≠ 0),
          add_comm]
      rw [e1]
      apply mul_lt_mul_of_pos_right _ h2e
      have : (2 : ℚ) ^ (24 : ℤ) = (((2 : ℤ) ^ (24 : ℕ) : ℤ) : ℚ) := by norm_num
      rw [this]
      exact_mod_cast hm
    unfold binade32
    rcases max_cases (Int.log 2 ((m : ℚ) * (2 : ℚ) ^ e)) (-126) with ⟨h1, _⟩ | ⟨h1, _⟩
    · rw [h1]; omega
    · rw [h1]; omega
  unfold roundMagnitude32
  generalize binade32 ((m : ℚ) * (2 : ℚ) ^ e) - 23 = k at hE
  obtain ⟨n, hn⟩ : ∃ n : ℕ, e = k + n := ⟨(e - k).toNat, by omega⟩
  have hdiv : (m : ℚ) * (2 : ℚ) ^ e / (2 : ℚ) ^ k = ((m * 2 ^ n : ℤ) : ℚ) := by
    rw [hn, zpow_add₀ (by norm_num : (2 : ℚ) ≠ 0)]
    have hk : (2 : ℚ) ^ k ≠ 0 := (zpow_pos (by norm_num) _).ne'
    field_simp
    ring
  rw [hdiv, roundHalfEven_intCast]
  rw [hn, zpow_add₀ (by norm_num : (2 : ℚ) ≠ 0), zpow_natCast]
  push_cast
  ring

/-- Rounding to binary32 leaves a binary32 value as it is: an integer of less than 24
bits times a power of two that is at least the smallest subnormal quantum. -/
theorem roundBinary32_eq_self (m e : ℤ) (hm : |m| < 2 ^ 24) (he : -149 ≤ e) :
    roundBinary32 ((m : ℚ) * (2 : ℚ) ^ e) = (m : ℚ) * (2 : ℚ) ^ e := by
  have h2e : (0 : ℚ) < (2 : ℚ) ^ e := zpow_pos (by norm_num) _
  unfold roundBinary32
  by_cases hx : 0 ≤ (m : ℚ) * (2 : ℚ) ^ e
  · rw [if_pos hx]
    have hm0 : 0 ≤ m := by
      by_contra hneg
      have : (m : ℚ) < 0 := by exact_mod_cast (not_le.mp hneg)
      have := mul_neg_of_neg_of_pos this h2e
      linarith
    exact roundMagnitude32_eq_self m e hm0 (lt_of_le_of_lt (le_abs_self m) hm) he
  · rw [if_neg hx]
    have hm0 : m < 0 := by
      by_contra hnn
      have : (0 : ℚ) ≤ (m : ℚ) := by exact_mod_cast (not_lt.mp hnn)
      exact hx (mul_nonneg this h2e.le)
    have e1 : -((m : ℚ) * (2 : ℚ) ^ e) = ((-m : ℤ) : ℚ) * (2 : ℚ) ^ e := by
      push_cast
      ring
    rw [e1, roundMagnitude32_eq_self (-m) e (by omega)
      (lt_of_le_of_lt (neg_le_abs m) hm) he]
    push_cast
    ring

theorem binade32_eq (x : ℚ) (k : ℤ) (hk : -126 ≤ k) (h1 : (2 : ℚ) ^ k ≤ x)
    (h2 : x < (2 : ℚ) ^ (k + 1)) : binade32 x = k := by
  have hx : 0 < x := lt_of_lt_of_le (zpow_pos (by norm_num) _) h1
  have hlog : Int.log 2 x = k := by
    apply le_antisymm
    · have : Int.log 2 x < k + 1 := by
        rw [← Int.lt_zpow_iff_log_lt (by norm_num : 1 < 2) hx]
        exact_mod_cast h2
      omega
    · rw [← Int.zpow_le_iff_le_log (by norm_num : 1 < 2) hx]
      exact_mod_cast h1
  unfold binade32
  rw [hlog]
  exact max_eq_left hk

/-- The sum of the `float` values `16106126 * 2^-29` and `3 * 2^-31` lies below the
`float` nearest to 0.03, `16106127 * 2^-29`, and is rounded up to it. -/
theorem roundBinary32_sum_example :
    (16106126 / 2 ^ 29 + 3 / 2 ^ 31 : ℚ) < 16106127 / 2 ^ 29 ∧
    roundBinary32 (16106126 / 2 ^ 29 + 3 / 2 ^ 31) = 16106127 / 2 ^ 29 ∧
    roundBinary32 (16106127 / 2 ^ 29) = 16106127 / 2 ^ 29 := by
  refine ⟨by norm_num, ?_, ?_⟩
  · have hb : binade32 (16106126 / 2 ^ 29 + 3 / 2 ^ 31 : ℚ) = -6 :=
      binade32_eq _ (-6) (by norm_num) (by norm_num) (by norm_num)
    have hpos : (0 : ℚ) ≤ 16106126 / 2 ^ 29 + 3 / 2 ^ 31 := by norm_num
    unfold roundBinary32
    rw [if_pos hpos]
    unfold roundMagnitude32
    rw [hb]
    have hdiv : (16106126 / 2 ^ 29 + 3 / 2 ^ 31 : ℚ) / (2 : ℚ) ^ ((-6 : ℤ) - 23) =
        64424507 / 4 := by norm_num
    rw [hdiv]
    have hfloor : ⌊(64424507 / 4 : ℚ)⌋ = 16106126 := by
      rw [Int.floor_eq_iff]
      constructor <;> norm_num
    have hr : roundHalfEven (64424507 / 4) = 16106127 := by
      unfold roundHalfEven
      simp only [hfloor]
      norm_num
    rw [hr]
    norm_num
  · have h := roundBinary32_eq_self 16106127 (-29) (by norm_num) (by norm_num)
    have e : ((16106127 : ℤ) : ℚ) * (2 : ℚ) ^ (-29 : ℤ) = 16106127 / 2 ^ 29 := by norm_num
    rw [e] at h
    exact h

/-! ## Material catalog -/

theorem derefMaterial_storeMaterial_self (Materials : List (String × Option SMaterial))
    (Name : String) (m : SMaterial)
    (h : (derefMaterial Materials Name).isSome = true) :
    derefMaterial (storeMaterial Materials Name m) Name = some m := by
  induction Materials with
  | nil => simp [derefMaterial] at h
  | cons p rest ih =>
    obtain ⟨key, val⟩ := p
    by_cases hk : key = Name
    · simp [derefMaterial, storeMaterial, hk]
    · simp only [derefMaterial, hk, if_false] at h
      simp [derefMaterial, storeMaterial, hk, ih h]

theorem derefMaterial_storeMaterial_ne (Materials : List (String × Option SMaterial))
    (Name Other : String) (m : SMaterial) (h : Other ≠ Name) :
    derefMaterial (storeMaterial Materials Name m) Other = derefMaterial Materials Other := by
  induction Materials with
  | nil => simp [derefMaterial, storeMaterial]
  | cons p rest ih =>
    obtain ⟨key, val⟩ := p
    by_cases hk : key = Name
    · have hk2 : ¬ Name = Other := fun e => h e.symm
      subst hk
      simp [derefMaterial, storeMaterial, hk2]
    · by_cases hk2 : key = Other
      · subst hk2
        simp [derefMaterial, storeMaterial, hk]
      · simp [derefMaterial, storeMaterial, hk, hk2, ih]

theorem derefMaterial_mem (Materials : List (String × Option SMaterial)) (Name : String)
    (m : SMaterial) (h : derefMaterial Materials Name = some m) :
    (Name, some m) ∈ Materials := by
  induction Materials with
  | nil => simp [derefMaterial] at h
  | cons p rest ih =>
    obtain ⟨key, val⟩ := p
    by_cases hk : key = Name
    · simp only [derefMaterial, hk, if_true] at h
      subst hk
      subst h
      exact List.mem_cons_self _ _
    · simp only [derefMaterial, hk, if_false] at h
      exact List.mem_cons_of_mem _ (ih h)

theorem storeMaterial_mem (Materials : List (String × Option SMaterial)) (Name : String)
    (m : SMaterial) (p : String × Option SMaterial) (h : p ∈ storeMaterial Materials Name m) :
    p ∈ Materials ∨ p.2 = some m := by
  induction Materials with
  | nil => simp [storeMaterial] at h
  | cons q rest ih =>
    obtain ⟨key, val⟩ := q
    by_cases hk : key = Name
    · simp only [storeMaterial, hk, if_true] at h
      rcases List.mem_cons.mp h with rfl | h
      · exact Or.inr rfl
      · exact Or.inl (List.mem_cons_of_mem _ h)
    · simp only [storeMaterial, hk, if_false] at h
      rcases List.mem_cons.mp h with rfl | h
      · exact Or.inl (List.mem_cons_self _ _)
      · rcases ih h with h1 | h1
        · exact Or.inl (List.mem_cons_of_mem _ h1)
        · exact Or.inr h1

/-! ## The two constant-buffer loops -/

/-- The loop of `UpdateObjectCBs` in closed form: it runs to its end exactly when
every dirty item has its slot in the buffer. -/
theorem UpdateObjectCBsLoop_eq (cur : Nat) (cb : OUploadBuffer)
    (items : List (SRenderLayer × SRenderItem)) :
    UpdateObjectCBsLoop cur cb items =
      if ∀ q ∈ items, 0 < q.2.NumFramesDirty → q.2.ObjectCBIndex < cb.ElementCount then
        some (ObjectCBsUpdated cur items)
      else none := by
  induction items with
  | nil => simp [UpdateObjectCBsLoop, ObjectCBsUpdated]
  | cons q rest ih =>
    obtain ⟨layer, item⟩ := q
    by_cases hd : 0 < item.NumFramesDirty
    · by_cases hb : item.ObjectCBIndex < cb.ElementCount
      · by_cases hrest : ∀ q ∈ rest, 0 < q.2.NumFramesDirty → q.2.ObjectCBIndex < cb.ElementCount
        · have hall : ∀ q ∈ (layer, item) :: rest,
              0 < q.2.NumFramesDirty → q.2.ObjectCBIndex < cb.ElementCount := by
            intro q hq
            rcases List.mem_cons.mp hq with rfl | hq
            · exact fun _ => hb
            · exact hrest q hq
          rw [if_pos hall]
          rw [if_pos hrest] at ih
          simp [UpdateObjectCBsLoop, UpdateObjectCBsItem, ih, hd, hb, ObjectCBsUpdated]
        · have hall : ¬ ∀ q ∈ (layer, item) :: rest,
              0 < q.2.NumFramesDirty → q.2.ObjectCBIndex < cb.ElementCount :=
            fun h => hrest (fun q hq => h q (List.mem_cons_of_mem _ hq))
          rw [if_neg hall]
          rw [if_neg hrest] at ih
          simp [UpdateObjectCBsLoop, UpdateObjectCBsItem, ih, hd, hb]
      · have hall : ¬ ∀ q ∈ (layer, item) :: rest,
            0 < q.2.NumFramesDirty → q.2.ObjectCBIndex < cb.ElementCount :=
          fun h => hb (h _ (List.mem_cons_self _ _) hd)
        rw [if_neg hall]
        simp [UpdateObjectCBsLoop, UpdateObjectCBsItem, hd, hb]
    · by_cases hrest : ∀ q ∈ rest, 0 < q.2.NumFramesDirty → q.2.ObjectCBIndex < cb.ElementCount
      · have hall : ∀ q ∈ (layer, item) :: rest,
            0 < q.2.NumFramesDirty → q.2.ObjectCBIndex < cb.ElementCount := by
          intro q hq
          rcases List.mem_cons.mp hq with rfl | hq
          · exact fun h => absurd h hd
          · exact hrest q hq
        rw [if_pos hall]
        rw [if_pos hrest] at ih
        simp [UpdateObjectCBsLoop, UpdateObjectCBsItem, ih, hd, ObjectCBsUpdated]
      · have hall : ¬ ∀ q ∈ (layer, item) :: rest,
            0 < q.2.NumFramesDirty → q.2.ObjectCBIndex < cb.ElementCount :=
          fun h => hrest (fun q hq => h q (List.mem_cons_of_mem _ hq))
        rw [if_neg hall]
        rw [if_neg hrest] at ih
        simp [UpdateObjectCBsLoop, UpdateObjectCBsItem, ih, hd]

theorem UpdateObjectCBsLoop_eq_some {cur : Nat} {cb : OUploadBuffer}
    {items : List (SRenderLayer × SRenderItem)}
    {r : List (SRenderLayer × SRenderItem) × List HostEvent}
    (h : UpdateObjectCBsLoop cur cb items = some r) :
    r = ObjectCBsUpdated cur items ∧
      ∀ q ∈ items, 0 < q.2.NumFramesDirty → q.2.ObjectCBIndex < cb.ElementCount := by
  rw [UpdateObjectCBsLoop_eq] at h
  by_cases hall : ∀ q ∈ items, 0 < q.2.NumFramesDirty → q.2.ObjectCBIndex < cb.ElementCount
  · rw [if_pos hall] at h
    exact ⟨(Option.some.inj h).symm, hall⟩
  · rw [if_neg hall] at h
    cases h

theorem ObjectCBsUpdated_writtenFrame (cur : Nat) (items : List (SRenderLayer × SRenderItem))
    (ev : HostEvent) (h : ev ∈ (ObjectCBsUpdated cur items).2) :
    ev.writtenFrame = some cur := by
  obtain ⟨q, _, rfl⟩ := List.mem_map.mp h
  rfl

theorem ObjectCBsUpdated_index (cur : Nat) (items : List (SRenderLayer × SRenderItem))
    (q : SRenderLayer × SRenderItem) (h : q ∈ (ObjectCBsUpdated cur items).1) :
    ∃ q0 ∈ items, q.2.ObjectCBIndex = q0.2.ObjectCBIndex := by
  obtain ⟨q0, hq0, rfl⟩ := List.mem_map.mp h
  refine ⟨q0, hq0, ?_⟩
  dsimp only
  split <;> rfl

theorem waits_append (a b : List HostEvent) :
    HostEvent.waits (a ++ b) = HostEvent.waits a ++ HostEvent.waits b := by
  induction a with
  | nil => rfl
  | cons ev rest ih => cases ev <;> simp [HostEvent.waits, ih]

theorem waits_eq_nil_of_writtenFrame (evs : List HostEvent) (cur : Nat)
    (h : ∀ ev ∈ evs, ev.writtenFrame = some cur) : HostEvent.waits evs = [] := by
  induction evs with
  | nil => rfl
  | cons ev rest ih =>
    have h1 := h ev (List.mem_cons_self _ _)
    have h2 := ih (fun e he => h e (List.mem_cons_of_mem _ he))
    cases ev <;> simp_all [HostEvent.waits, HostEvent.writtenFrame]

theorem UpdateMaterialCBLoop_isSome (cur : Nat) (b : OUploadBuffer)
    (Materials : List (String × Option SMaterial))
    (hb : ∀ p ∈ Materials, ∀ material ∈ p.2, material.MaterialCBIndex < b.ElementCount) :
    (UpdateMaterialCBLoop cur (some b) Materials).isSome = true := by
  induction Materials with
  | nil => rfl
  | cons p rest ih =>
    obtain ⟨name, val⟩ := p
    obtain ⟨r, hr⟩ := Option.isSome_iff_exists.mp
      (ih (fun p hp => hb p (List.mem_cons_of_mem _ hp)))
    cases val with
    | none => simp [UpdateMaterialCBLoop, hr]
    | some material =>
      have hm : material.MaterialCBIndex < b.ElementCount :=
        hb (name, some material) (List.mem_cons_self _ _) material rfl
      by_cases hd : 0 < material.NumFramesDirty <;> simp [UpdateMaterialCBLoop, hr, hd, hm]

/-- What a completed loop of `UpdateMaterialCB` did to one entry of the catalog. -/
theorem UpdateMaterialCBLoop_cons {cur : Nat} {cb : Option OUploadBuffer} {name : String}
    {val : Option SMaterial} {rest : List (String × Option SMaterial)}
    {r : List (String × Option SMaterial) × List HostEvent}
    (h : UpdateMaterialCBLoop cur cb ((name, val) :: rest) = some r) :
    ∃ rr, UpdateMaterialCBLoop cur cb rest = some rr ∧
      ((val = none ∧ r = ((name, none) :: rr.1, rr.2)) ∨
       (∃ material, val = some material ∧ ¬ 0 < material.NumFramesDirty ∧
          r = ((name, some material) :: rr.1, rr.2)) ∨
       (∃ material b, val = some material ∧ 0 < material.NumFramesDirty ∧ cb = some b ∧
          material.MaterialCBIndex < b.ElementCount ∧
          r = ((name, some { material with NumFramesDirty := material.NumFramesDirty - 1 }) :: rr.1,
            HostEvent.MaterialCBCopyData cur material.MaterialCBIndex
              (MaterialConstantsOf material) :: rr.2))) := by
  cases hrest : UpdateMaterialCBLoop cur cb rest with
  | none =>
    cases val with
    | none => simp [UpdateMaterialCBLoop, hrest] at h
    | some material =>
      by_cases hd : 0 < material.NumFramesDirty
      · cases cb with
        | none => simp [UpdateMaterialCBLoop, hd] at h
        | some b =>
          by_cases hb : material.MaterialCBIndex < b.ElementCount <;>
            simp [UpdateMaterialCBLoop, hrest, hd, hb] at h
      · simp [UpdateMaterialCBLoop, hrest, hd] at h
  | some rr =>
    refine ⟨rr, rfl, ?_⟩
    cases val with
    | none =>
      simp only [UpdateMaterialCBLoop, hrest, Option.map_some', Option.some.injEq] at h
      exact Or.inl ⟨rfl, h.symm⟩
    | some material =>
      by_cases hd : 0 < material.NumFramesDirty
      · cases cb with
        | none => simp [UpdateMaterialCBLoop, hd] at h
        | some b =>
          by_cases hb : material.MaterialCBIndex < b.ElementCount
          · simp only [UpdateMaterialCBLoop, hrest, hd, hb, gt_iff_lt, if_true, Option.map_some',
              Option.some.injEq] at h
            exact Or.inr (Or.inr ⟨material, b, rfl, hd, rfl, hb, h.symm⟩)
          · simp [UpdateMaterialCBLoop, hrest, hd, hb] at h
      · simp only [UpdateMaterialCBLoop, hrest, hd, gt_iff_lt, if_false, Option.map_some',
          Option.some.injEq] at h
        exact Or.inr (Or.inl ⟨material, rfl, hd, h.symm⟩)

theorem UpdateMaterialCBLoop_deref (cur : Nat) (cb : Option OUploadBuffer)
    (Materials : List (String × Option SMaterial))
    (r : List (String × Option SMaterial) × List HostEvent)
    (h : UpdateMaterialCBLoop cur cb Materials = some r) (Name : String) (m : SMaterial)
    (hm : derefMaterial Materials Name = some m) :
    derefMaterial r.1 Name =
        some (if 0 < m.NumFramesDirty then { m with NumFramesDirty := m.NumFramesDirty - 1 } else m) ∧
      (0 < m.NumFramesDirty →
        HostEvent.MaterialCBCopyData cur m.MaterialCBIndex (MaterialConstantsOf m) ∈ r.2) := by
  induction Materials generalizing r with
  | nil => simp [derefMaterial] at hm
  | cons p rest ih =>
    obtain ⟨name, val⟩ := p
    obtain ⟨rr, hrest, hcase⟩ := UpdateMaterialCBLoop_cons h
    by_cases hk : name = Name
    · subst hk
      simp only [derefMaterial, if_true] at hm
      subst hm
      rcases hcase with ⟨hv, _⟩ | ⟨material, hv, hd, rfl⟩ | ⟨material, b, hv, hd, _, _, rfl⟩
      · cases hv
      · cases hv
        simp [derefMaterial, hd]
      · cases hv
        simp [derefMaterial, hd]
    · simp only [derefMaterial, hk, if_false] at hm
      have ih1 := ih rr hrest hm
      rcases hcase with ⟨_, rfl⟩ | ⟨material, _, _, rfl⟩ | ⟨material, b, _, _, _, _, rfl⟩
      · simpa [derefMaterial, hk] using ih1
      · simpa [derefMaterial, hk] using ih1
      · exact ⟨by simpa [derefMaterial, hk] using ih1.1,
          fun hpos => List.mem_cons_of_mem _ (ih1.2 hpos)⟩

theorem UpdateMaterialCBLoop_writtenFrame (cur : Nat) (cb : Option OUploadBuffer)
    (Materials : List (String × Option SMaterial))
    (r : List (String × Option SMaterial) × List HostEvent)
    (h : UpdateMaterialCBLoop cur cb Materials = some r) (ev : HostEvent) (hev : ev ∈ r.2) :
    ev.writtenFrame = some cur := by
  induction Materials generalizing r with
  | nil =>
    simp only [UpdateMaterialCBLoop, Option.some.injEq] at h
    subst h
    simp at hev
  | cons p rest ih =>
    obtain ⟨name, val⟩ := p
    obtain ⟨rr, hrest, hcase⟩ := UpdateMaterialCBLoop_cons h
    rcases hcase with ⟨_, rfl⟩ | ⟨material, _, _, rfl⟩ | ⟨material, b, _, _, _, _, rfl⟩
    · exact ih rr hrest hev
    · exact ih rr hrest hev
    · rcases List.mem_cons.mp hev with rfl | hev
      · rfl
      · exact ih rr hrest hev

/-- A completed loop of `UpdateMaterialCB` keeps the slot of every material. -/
theorem UpdateMaterialCBLoop_index (cur : Nat) (cb : Option OUploadBuffer)
    (Materials : List (String × Option SMaterial))
    (r : List (String × Option SMaterial) × List HostEvent)
    (h : UpdateMaterialCBLoop cur cb Materials = some r)
    (p : String × Option SMaterial) (hp : p ∈ r.1) (material : SMaterial)
    (hmat : material ∈ p.2) :
    ∃ p0 ∈ Materials, ∃ material0 ∈ p0.2,
      material.MaterialCBIndex = material0.MaterialCBIndex := by
  induction Materials generalizing r with
  | nil =>
    simp only [UpdateMaterialCBLoop, Option.some.injEq] at h
    subst h
    simp at hp
  | cons q rest ih =>
    obtain ⟨name, val⟩ := q
    obtain ⟨rr, hrest, hcase⟩ := UpdateMaterialCBLoop_cons h
    have htail : p ∈ rr.1 → ∃ p0 ∈ (name, val) :: rest, ∃ material0 ∈ p0.2,
        material.MaterialCBIndex = material0.MaterialCBIndex := by
      intro hp1
      obtain ⟨p0, hp0, m0, hm0, e⟩ := ih rr hrest hp1
      exact ⟨p0, List.mem_cons_of_mem _ hp0, m0, hm0, e⟩
    rcases hcase with ⟨_, rfl⟩ | ⟨m1, hv, _, rfl⟩ | ⟨m1, b, hv, _, _, _, rfl⟩
    · rcases List.mem_cons.mp hp with rfl | hp1
      · cases hmat
      · exact htail hp1
    · rcases List.mem_cons.mp hp with rfl | hp1
      · subst hv
        exact ⟨_, List.mem_cons_self _ _, material, hmat, rfl⟩
      · exact htail hp1
    · rcases List.mem_cons.mp hp with rfl | hp1
      · subst hv
        have e : material = { m1 with NumFramesDirty := m1.NumFramesDirty - 1 } :=
          (Option.some.inj hmat).symm
        exact ⟨_, List.mem_cons_self _ _, m1, rfl, by rw [e]⟩
      · exact htail hp1

/-! ## `OnUpdate`, one call -/

theorem OnUpdate_eq_some {N : Nat} {Wait : Nat → Nat → Nat} {Event : UpdateEventArgs}
    {self : OTextureWaves} {r : OTextureWaves × List HostEvent}
    (h : self.OnUpdate N Wait Event = some r) :
    ∃ F water mats,
      N ≠ 0 ∧
      self.Engine.FrameResources[(self.Engine.CurrentFrameResourceIndex + 1) % N]? = some F ∧
      derefMaterial self.Engine.Materials "Water" = some water ∧
      UpdateMaterialCBLoop ((self.Engine.CurrentFrameResourceIndex + 1) % N) F.MaterialCB
        (storeMaterial self.Engine.Materials "Water" (AnimateWater N Event.Timer water)) =
          some mats ∧
      r.1.Engine.CurrentFrameResourceIndex = (self.Engine.CurrentFrameResourceIndex + 1) % N ∧
      r.1.Engine.CurrentFrameResources = (self.Engine.CurrentFrameResourceIndex + 1) % N ∧
      r.1.Engine.FrameResources = self.Engine.FrameResources ∧
      r.1.Engine.CompletedValue =
        (if F.Fence ≠ 0 ∧ self.Engine.CompletedValue < F.Fence then
          Wait self.Engine.CompletedValue F.Fence else self.Engine.CompletedValue) ∧
      r.1.Engine.AllRenderItems =
        (ObjectCBsUpdated ((self.Engine.CurrentFrameResourceIndex + 1) % N)
          self.Engine.AllRenderItems).1 ∧
      r.1.Engine.Materials = mats.1 ∧
      r.2 =
        (if F.Fence ≠ 0 ∧ self.Engine.CompletedValue < F.Fence then
          [HostEvent.WaitForFenceValue F.Fence] else []) ++
        (ObjectCBsUpdated ((self.Engine.CurrentFrameResourceIndex + 1) % N)
          self.Engine.AllRenderItems).2 ++ mats.2 := by
  unfold OTextureWaves.OnUpdate at h
  by_cases hN : N = 0
  · simp [hN] at h
  simp only [hN, if_false] at h
  cases hF : self.Engine.FrameResources[(self.Engine.CurrentFrameResourceIndex + 1) % N]? with
  | none => simp [hF] at h
  | some F =>
    simp only [hF] at h
    cases hw : derefMaterial self.Engine.Materials "Water" with
    | none =>
      by_cases hc : F.Fence ≠ 0 ∧ self.Engine.CompletedValue < F.Fence <;>
        simp [OTextureWaves.AnimateMaterials, OEngine.FindMaterial, hw, hc] at h
    | some water =>
      cases ho : UpdateObjectCBsLoop ((self.Engine.CurrentFrameResourceIndex + 1) % N)
          F.ObjectCB self.Engine.AllRenderItems with
      | none =>
        by_cases hc : F.Fence ≠ 0 ∧ self.Engine.CompletedValue < F.Fence <;>
          simp [OTextureWaves.AnimateMaterials, OEngine.FindMaterial, hw, hc,
            OTextureWaves.UpdateObjectCBs, hF, ho] at h
      | some objs =>
        obtain ⟨hobjs, _⟩ := UpdateObjectCBsLoop_eq_some ho
        subst hobjs
        by_cases hc : F.Fence ≠ 0 ∧ self.Engine.CompletedValue < F.Fence
        · rw [if_pos hc] at h
          simp only [OTextureWaves.AnimateMaterials, OEngine.FindMaterial, hw,
            Option.bind, OTextureWaves.UpdateObjectCBs, OTextureWaves.UpdateMaterialCB, hF,
            ho] at h
          cases hm : UpdateMaterialCBLoop ((self.Engine.CurrentFrameResourceIndex + 1) % N)
              F.MaterialCB
              (storeMaterial self.Engine.Materials "Water" (AnimateWater N Event.Timer water)) with
          | none => simp [hm] at h
          | some mats =>
            simp only [hm, Option.some.injEq] at h
            subst h
            exact ⟨F, water, mats, hN, rfl, rfl, hm, rfl, rfl, rfl, by rw [if_pos hc], rfl, rfl,
              by rw [if_pos hc]⟩
        · rw [if_neg hc] at h
          simp only [OTextureWaves.AnimateMaterials, OEngine.FindMaterial, hw,
            Option.bind, OTextureWaves.UpdateObjectCBs, OTextureWaves.UpdateMaterialCB, hF,
            ho] at h
          cases hm : UpdateMaterialCBLoop ((self.Engine.CurrentFrameResourceIndex + 1) % N)
              F.MaterialCB
              (storeMaterial self.Engine.Materials "Water" (AnimateWater N Event.Timer water)) with
          | none => simp [hm] at h
          | some mats =>
            simp only [hm, Option.some.injEq] at h
            subst h
            exact ⟨F, water, mats, hN, rfl, rfl, hm, rfl, rfl, rfl, by rw [if_neg hc], rfl, rfl,
              by rw [if_neg hc]⟩

/-- The slots `OnUpdate` uploads to are slots of the buffers of the frame resource it
selected. -/
theorem OnUpdate_slots {N : Nat} {Wait : Nat → Nat → Nat} {Event : UpdateEventArgs}
    {self : OTextureWaves} {r : OTextureWaves × List HostEvent}
    (h : self.OnUpdate N Wait Event = some r) :
    ∃ F, self.Engine.FrameResources[(self.Engine.CurrentFrameResourceIndex + 1) % N]? = some F ∧
      ∀ q ∈ self.Engine.AllRenderItems, 0 < q.2.NumFramesDirty →
        q.2.ObjectCBIndex < F.ObjectCB.ElementCount := by
  unfold OTextureWaves.OnUpdate at h
  by_cases hN : N = 0
  · simp [hN] at h
  simp only [hN, if_false] at h
  cases hF : self.Engine.FrameResources[(self.Engine.CurrentFrameResourceIndex + 1) % N]? with
  | none => simp [hF] at h
  | some F =>
    refine ⟨F, rfl, ?_⟩
    simp only [hF] at h
    cases hw : derefMaterial self.Engine.Materials "Water" with
    | none =>
      by_cases hc : F.Fence ≠ 0 ∧ self.Engine.CompletedValue < F.Fence <;>
        simp [OTextureWaves.AnimateMaterials, OEngine.FindMaterial, hw, hc] at h
    | some water =>
      cases ho : UpdateObjectCBsLoop ((self.Engine.CurrentFrameResourceIndex + 1) % N)
          F.ObjectCB self.Engine.AllRenderItems with
      | none =>
        by_cases hc : F.Fence ≠ 0 ∧ self.Engine.CompletedValue < F.Fence <;>
          simp [OTextureWaves.AnimateMaterials, OEngine.FindMaterial, hw, hc,
            OTextureWaves.UpdateObjectCBs, hF, ho] at h
      | some objs => exact (UpdateObjectCBsLoop_eq_some ho).2

theorem OnUpdate_isSome {N : Nat} (Wait : Nat → Nat → Nat) (Event : UpdateEventArgs)
    {self : OTextureWaves} (hready : Ready N self) :
    (self.OnUpdate N Wait Event).isSome = true := by
  obtain ⟨hN, hlen, hcb, hwater, hobj, hmat⟩ := hready
  have hidx : (self.Engine.CurrentFrameResourceIndex + 1) % N < self.Engine.FrameResources.length := by
    rw [hlen]; exact Nat.mod_lt _ hN
  obtain ⟨water, hw⟩ := Option.isSome_iff_exists.mp hwater
  have hF := List.getElem?_eq_getElem hidx
  have hmem : self.Engine.FrameResources[(self.Engine.CurrentFrameResourceIndex + 1) % N] ∈
      self.Engine.FrameResources := List.getElem_mem _
  generalize self.Engine.FrameResources[(self.Engine.CurrentFrameResourceIndex + 1) % N] = F
    at hF hmem
  obtain ⟨b, hb⟩ := Option.isSome_iff_exists.mp (hcb _ hmem)
  have hwidx : water.MaterialCBIndex < b.ElementCount :=
    hmat F hmem b hb _ (derefMaterial_mem _ _ _ hw) water rfl
  have hstore : ∀ p ∈ storeMaterial self.Engine.Materials "Water" (AnimateWater N Event.Timer water),
      ∀ material ∈ p.2, material.MaterialCBIndex < b.ElementCount := by
    intro p hp material hmaterial
    rcases storeMaterial_mem _ _ _ p hp with hp1 | hp1
    · exact hmat F hmem b hb p hp1 material hmaterial
    · rw [hp1] at hmaterial
      have e : material = AnimateWater N Event.Timer water := (Option.some.inj hmaterial).symm
      rw [e]
      exact hwidx
  obtain ⟨mats, hm⟩ := Option.isSome_iff_exists.mp
    (UpdateMaterialCBLoop_isSome ((self.Engine.CurrentFrameResourceIndex + 1) % N) b
      (storeMaterial self.Engine.Materials "Water" (AnimateWater N Event.Timer water)) hstore)
  have ho : UpdateObjectCBsLoop ((self.Engine.CurrentFrameResourceIndex + 1) % N) F.ObjectCB
      self.Engine.AllRenderItems =
        some (ObjectCBsUpdated ((self.Engine.CurrentFrameResourceIndex + 1) % N)
          self.Engine.AllRenderItems) := by
    rw [UpdateObjectCBsLoop_eq, if_pos (fun q hq _ => hobj F hmem q hq)]
  have hN0 : N ≠ 0 := Nat.pos_iff_ne_zero.mp hN
  unfold OTextureWaves.OnUpdate
  simp only [hN0, if_false, hF]
  by_cases hc : F.Fence ≠ 0 ∧ self.Engine.CompletedValue < F.Fence
  · rw [if_pos hc]
    simp [OTextureWaves.AnimateMaterials, OEngine.FindMaterial, hw,
      OTextureWaves.UpdateObjectCBs, OTextureWaves.UpdateMaterialCB, hF, hm, ho, hb]
  · rw [if_neg hc]
    simp [OTextureWaves.AnimateMaterials, OEngine.FindMaterial, hw,
      OTextureWaves.UpdateObjectCBs, OTextureWaves.UpdateMaterialCB, hF, hm, ho, hb]

theorem OnUpdate_ready {N : Nat} {Wait : Nat → Nat → Nat} {Event : UpdateEventArgs}
    {self : OTextureWaves} {r : OTextureWaves × List HostEvent} (hready : Ready N self)
    (h : self.OnUpdate N Wait Event = some r) : Ready N r.1 := by
  obtain ⟨F, water, mats, _, _, hw, hm, _, _, hfr, _, hitems, hmat, _⟩ := OnUpdate_eq_some h
  obtain ⟨hN, hlen, hcb, hwater, hobj, hmats⟩ := hready
  have h1 := derefMaterial_storeMaterial_self self.Engine.Materials "Water"
    (AnimateWater N Event.Timer water) hwater
  have h2 := (UpdateMaterialCBLoop_deref _ _ _ mats hm "Water" _ h1).1
  refine ⟨hN, by rw [hfr]; exact hlen, by rw [hfr]; exact hcb, by rw [hmat, h2]; rfl, ?_, ?_⟩
  · intro G hG q hq
    rw [hfr] at hG
    rw [hitems] at hq
    obtain ⟨q0, hq0, e⟩ := ObjectCBsUpdated_index _ _ q hq
    rw [e]
    exact hobj G hG q0 hq0
  · intro G hG b hb p hp material hmaterial
    rw [hfr] at hG
    rw [hmat] at hp
    obtain ⟨p0, hp0, m0, hm0, e⟩ := UpdateMaterialCBLoop_index _ _ _ mats hm p hp material hmaterial
    rw [e]
    rcases storeMaterial_mem _ _ _ p0 hp0 with hp1 | hp1
    · exact hmats G hG b hb p0 hp1 m0 hm0
    · rw [hp1] at hm0
      have e0 : m0 = AnimateWater N Event.Timer water := (Option.some.inj hm0).symm
      rw [e0]
      exact hmats G hG b hb _ (derefMaterial_mem _ _ _ hw) water rfl

theorem EndFrame_ready {N : Nat} (f : FrameInput) {self : OTextureWaves}
    (hready : Ready N self) : Ready N (EndFrame f self) := by
  obtain ⟨hN, hlen, hcb, hwater, hobj, hmats⟩ := hready
  have hmem : ∀ F ∈ (EndFrame f self).Engine.FrameResources,
      ∃ G ∈ self.Engine.FrameResources, F.MaterialCB = G.MaterialCB ∧ F.ObjectCB = G.ObjectCB := by
    intro F hF
    obtain ⟨m, hm⟩ := List.getElem?_of_mem hF
    simp only [EndFrame, List.getElem?_modify] at hm
    cases hG : self.Engine.FrameResources[m]? with
    | none => simp [hG] at hm
    | some G =>
      have hGmem : G ∈ self.Engine.FrameResources := List.getElem?_mem hG
      simp only [hG, Option.map_eq_map, Option.map_some', Option.some.injEq] at hm
      subst hm
      refine ⟨G, hGmem, ?_⟩
      split <;> exact ⟨rfl, rfl⟩
  refine ⟨hN, by simp [EndFrame, hlen], ?_, hwater, ?_, ?_⟩
  · intro F hF
    obtain ⟨G, hG, e1, _⟩ := hmem F hF
    rw [e1]
    exact hcb G hG
  · intro F hF q hq
    obtain ⟨G, hG, _, e2⟩ := hmem F hF
    rw [e2]
    exact hobj G hG q hq
  · intro F hF b hb p hp material hmaterial
    obtain ⟨G, hG, e1, _⟩ := hmem F hF
    rw [e1] at hb
    exact hmats G hG b hb p hp material hmaterial

theorem RunFrames_eq_some {N : Nat} (Wait : Nat → Nat → Nat) (frames : List FrameInput)
    {self : OTextureWaves} (hready : Ready N self) :
    ∃ results, RunFrames N Wait frames self = some results ∧
      results.length = frames.length := by
  induction frames generalizing self with
  | nil => exact ⟨[], rfl, rfl⟩
  | cons f rest ih =>
    obtain ⟨r, hr⟩ := Option.isSome_iff_exists.mp (OnUpdate_isSome Wait f.Event hready)
    obtain ⟨rs, hrs, hlen⟩ := ih (EndFrame_ready f (OnUpdate_ready hready hr))
    exact ⟨r :: rs, by simp [RunFrames, hr, hrs], by simp [hlen]⟩

theorem mem_waits_of_mem (evs : List HostEvent) (v : Nat)
    (h : HostEvent.WaitForFenceValue v ∈ evs) : v ∈ HostEvent.waits evs := by
  induction evs with
  | nil => simp at h
  | cons ev rest ih =>
    rcases List.mem_cons.mp h with heq | hin
    · subst heq
      simp [HostEvent.waits]
    · have h1 := ih hin
      cases ev <;> simp [HostEvent.waits, h1]

/-! ## C1 – C3: the frame-resource ring -/

theorem StateAfter_ready {N : Nat} (Wait : Nat → Nat → Nat) (frames : List FrameInput)
    {self : OTextureWaves} (hready : Ready N self) :
    ∃ s, StateAfter N Wait frames self = some s ∧ Ready N s := by
  induction frames generalizing self with
  | nil => exact ⟨self, rfl, hready⟩
  | cons f rest ih =>
    obtain ⟨r, hr⟩ := Option.isSome_iff_exists.mp (OnUpdate_isSome Wait f.Event hready)
    obtain ⟨s, hs, hsready⟩ := ih (EndFrame_ready f (OnUpdate_ready hready hr))
    exact ⟨s, by simp [StateAfter, hr, hs], hsready⟩

/-- A run of frames followed by one more frame: the results of the run, then the
result of `OnUpdate` in the state the run leaves. -/
theorem RunFrames_append_singleton {N : Nat} (Wait : Nat → Nat → Nat)
    (frames : List FrameInput) (f : FrameInput) (self s : OTextureWaves)
    (results : List (OTextureWaves × List HostEvent)) (r : OTextureWaves × List HostEvent)
    (hrun : RunFrames N Wait frames self = some results)
    (hs : StateAfter N Wait frames self = some s)
    (hr : s.OnUpdate N Wait f.Event = some r) :
    RunFrames N Wait (frames ++ [f]) self = some (results ++ [r]) := by
  induction frames generalizing self results with
  | nil =>
    simp only [StateAfter, Option.some.injEq] at hs
    subst hs
    simp only [RunFrames, Option.some.injEq] at hrun
    subst hrun
    simp [RunFrames, hr]
  | cons g rest ih =>
    cases hg : self.OnUpdate N Wait g.Event with
    | none => simp [StateAfter, hg] at hs
    | some x =>
      simp only [StateAfter, hg] at hs
      cases hrs : RunFrames N Wait rest (EndFrame g x.1) with
      | none => simp [RunFrames, hg, hrs] at hrun
      | some rs =>
        simp only [RunFrames, hg, hrs, Option.map_some', Option.some.injEq] at hrun
        subst hrun
        have h1 := ih (EndFrame g x.1) rs hrs hs
        simp [RunFrames, hg, h1]

/-- Uploads into a frame resource whose marker the fence has reached replay as
admitted. -/
theorem UploadsAfterFence_uploads (Wait : Nat → Nat → Nat)
    (FrameResources : List SFrameResource) (completed cur : Nat) (F : SFrameResource)
    (evs : List HostEvent) (hF : FrameResources[cur]? = some F)
    (hsafe : F.Fence = 0 ∨ F.Fence ≤ completed)
    (h : ∀ ev ∈ evs, ev.writtenFrame = some cur) :
    UploadsAfterFence Wait FrameResources completed evs = true := by
  induction evs with
  | nil => rfl
  | cons ev rest ih =>
    have h1 := h ev (List.mem_cons_self _ _)
    have h2 := ih (fun e he => h e (List.mem_cons_of_mem _ he))
    cases ev with
    | WaitForFenceValue v => simp [HostEvent.writtenFrame] at h1
    | ObjectCBCopyData g i d =>
      simp only [HostEvent.writtenFrame, Option.some.injEq] at h1
      subst h1
      simp [UploadsAfterFence, hF, h2, hsafe]
    | MaterialCBCopyData g i d =>
      simp only [HostEvent.writtenFrame, Option.some.injEq] at h1
      subst h1
      simp [UploadsAfterFence, hF, h2, hsafe]

/-- C1 (P1 ring safety).  Take a state in which `OnUpdate` can run, any run of frames
`frames` from it and one more frame `f`, and a `WaitForFenceValue` that returns only
once the completed value has reached the value waited for.  Then the run reaches the
state `s` that `f` starts from, `OnUpdate` runs in it and selects a frame resource
`F`, and its host events are, in this order, the wait on `F.Fence` (present exactly
when `F.Fence ≠ 0` and the completed value is below it) and then uploads only, all of
them into `F`.  Replayed in this order from the completed value of `s`, every upload
takes place at a completed value `c` with `F.Fence = 0` or `F.Fence ≤ c`, and the
same holds for every value the fence shows from then on. -/
theorem C1_ring_safety (N : Nat) (Wait : Nat → Nat → Nat) (frames : List FrameInput)
    (f : FrameInput) (self : OTextureWaves) (hready : Ready N self)
    (hwait : ∀ c v, v ≤ Wait c v) :
    ∃ results s r F uploads,
      RunFrames N Wait (frames ++ [f]) self = some (results ++ [r]) ∧
      results.length = frames.length ∧
      StateAfter N Wait frames self = some s ∧
      s.OnUpdate N Wait f.Event = some r ∧
      s.Engine.FrameResources[r.1.Engine.CurrentFrameResources]? = some F ∧
      r.2 =
        (if F.Fence ≠ 0 ∧ s.Engine.CompletedValue < F.Fence then
          [HostEvent.WaitForFenceValue F.Fence] else []) ++ uploads ∧
      (∀ ev ∈ uploads, ev.writtenFrame = some r.1.Engine.CurrentFrameResources) ∧
      UploadsAfterFence Wait s.Engine.FrameResources s.Engine.CompletedValue r.2 = true ∧
      ∀ completed, r.1.Engine.CompletedValue ≤ completed →
        F.Fence = 0 ∨ F.Fence ≤ completed := by
  obtain ⟨results, hrun, hlen⟩ := RunFrames_eq_some Wait frames hready
  obtain ⟨s, hs, hsready⟩ := StateAfter_ready Wait frames hready
  obtain ⟨r, hr⟩ := Option.isSome_iff_exists.mp (OnUpdate_isSome Wait f.Event hsready)
  obtain ⟨F, water, mats, _, hF, _, hm, _, hcur, hfr, hcv, _, _, htr⟩ := OnUpdate_eq_some hr
  have hup : ∀ ev ∈ (ObjectCBsUpdated ((s.Engine.CurrentFrameResourceIndex + 1) % N)
      s.Engine.AllRenderItems).2 ++ mats.2,
      ev.writtenFrame = some r.1.Engine.CurrentFrameResources := by
    intro ev hev
    rw [hcur]
    rcases List.mem_append.mp hev with hev | hev
    · exact ObjectCBsUpdated_writtenFrame _ _ ev hev
    · exact UpdateMaterialCBLoop_writtenFrame _ _ _ mats hm ev hev
  have hF1 : s.Engine.FrameResources[r.1.Engine.CurrentFrameResources]? = some F := by
    rw [hcur]; exact hF
  refine ⟨results, s, r, F, _, RunFrames_append_singleton Wait frames f self s results r hrun hs hr,
    hlen, hs, hr, hF1, by rw [htr, List.append_assoc], hup, ?_, ?_⟩
  · rw [htr, List.append_assoc]
    by_cases hc : F.Fence ≠ 0 ∧ s.Engine.CompletedValue < F.Fence
    · rw [if_pos hc]
      show UploadsAfterFence Wait s.Engine.FrameResources
        (Wait s.Engine.CompletedValue F.Fence) _ = true
      exact UploadsAfterFence_uploads Wait _ _ _ F _ hF1 (Or.inr (hwait _ _)) hup
    · rw [if_neg hc]
      refine UploadsAfterFence_uploads Wait _ _ _ F _ hF1 ?_ hup
      by_cases h0 : F.Fence = 0
      · exact Or.inl h0
      · exact Or.inr (Nat.le_of_not_lt (fun hlt => hc ⟨h0, hlt⟩))
  · intro completed hcompleted
    rw [hcv] at hcompleted
    by_cases hc : F.Fence ≠ 0 ∧ s.Engine.CompletedValue < F.Fence
    · rw [if_pos hc] at hcompleted
      exact Or.inr (Nat.le_trans (hwait _ _) hcompleted)
    · rw [if_neg hc] at hcompleted
      by_cases h0 : F.Fence = 0
      · exact Or.inl h0
      · have : ¬ s.Engine.CompletedValue < F.Fence := fun hlt => hc ⟨h0, hlt⟩
        exact Or.inr (Nat.le_trans (Nat.le_of_not_lt this) hcompleted)

theorem C1_ring_safety_witness :
    Ready 3 demoApp ∧ (∀ c v : Nat, v ≤ max c v) ∧
    ∃ results s r F uploads,
      RunFrames 3 max ([demoFrame 1, demoFrame 2, demoFrame 3] ++ [demoFrame 4]) demoApp =
        some (results ++ [r]) ∧
      results.length = [demoFrame 1, demoFrame 2, demoFrame 3].length ∧
      StateAfter 3 max [demoFrame 1, demoFrame 2, demoFrame 3] demoApp = some s ∧
      s.OnUpdate 3 max (demoFrame 4).Event = some r ∧
      s.Engine.FrameResources[r.1.Engine.CurrentFrameResources]? = some F ∧
      r.2 =
        (if F.Fence ≠ 0 ∧ s.Engine.CompletedValue < F.Fence then
          [HostEvent.WaitForFenceValue F.Fence] else []) ++ uploads ∧
      (∀ ev ∈ uploads, ev.writtenFrame = some r.1.Engine.CurrentFrameResources) ∧
      UploadsAfterFence max s.Engine.FrameResources s.Engine.CompletedValue r.2 = true ∧
      ∀ completed, r.1.Engine.CompletedValue ≤ completed →
        F.Fence = 0 ∨ F.Fence ≤ completed :=
  ⟨by decide, fun c v => le_max_right c v,
    C1_ring_safety 3 max [demoFrame 1, demoFrame 2, demoFrame 3] (demoFrame 4) demoApp
      (by decide) (fun c v => le_max_right c v)⟩

/-- C2.  From every state in which `OnUpdate` can run (a ring of `N ≥ 1` frame
resources), one call of `OnUpdate` leaves `CurrentFrameResourceIndex` at
`(i + 1) mod N` for the index `i` it found, that index is below `N`, and
`CurrentFrameResources` points to the ring element at that index. -/
theorem C2_ring_index_advance (N : Nat) (Wait : Nat → Nat → Nat) (Event : UpdateEventArgs)
    (self : OTextureWaves) (hready : Ready N self) :
    ∃ r F, self.OnUpdate N Wait Event = some r ∧
      r.1.Engine.CurrentFrameResourceIndex =
        (self.Engine.CurrentFrameResourceIndex + 1) % N ∧
      r.1.Engine.CurrentFrameResourceIndex < N ∧
      r.1.Engine.CurrentFrameResources = r.1.Engine.CurrentFrameResourceIndex ∧
      r.1.Engine.FrameResources = self.Engine.FrameResources ∧
      r.1.Engine.FrameResources[r.1.Engine.CurrentFrameResourceIndex]? = some F ∧
      r.1.Engine.FrameResources[r.1.Engine.CurrentFrameResources]? = some F := by
  obtain ⟨r, hr⟩ := Option.isSome_iff_exists.mp (OnUpdate_isSome Wait Event hready)
  obtain ⟨F, _, _, _, hF, _, _, hidx, hcur, hfr, _⟩ := OnUpdate_eq_some hr
  refine ⟨r, F, hr, hidx, ?_, by rw [hcur, hidx], hfr, by rw [hidx, hfr]; exact hF,
    by rw [hcur, hfr]; exact hF⟩
  rw [hidx]
  exact Nat.mod_lt _ hready.1

theorem C2_ring_index_advance_witness :
    Ready 3 demoApp ∧
    ∃ r F, demoApp.OnUpdate 3 max (demoFrame 1).Event = some r ∧
      r.1.Engine.CurrentFrameResourceIndex =
        (demoApp.Engine.CurrentFrameResourceIndex + 1) % 3 ∧
      r.1.Engine.CurrentFrameResourceIndex < 3 ∧
      r.1.Engine.CurrentFrameResources = r.1.Engine.CurrentFrameResourceIndex ∧
      r.1.Engine.FrameResources = demoApp.Engine.FrameResources ∧
      r.1.Engine.FrameResources[r.1.Engine.CurrentFrameResourceIndex]? = some F ∧
      r.1.Engine.FrameResources[r.1.Engine.CurrentFrameResources]? = some F :=
  ⟨by decide, C2_ring_index_advance 3 max (demoFrame 1).Event demoApp (by decide)⟩

/-- C3.  From every state in which `OnUpdate` can run, one call of `OnUpdate` on the
frame resource `F` it selects waits exactly once, on `F.Fence`, when `F.Fence ≠ 0`
and the completed fence value is below `F.Fence`, and does not wait at all
otherwise. -/
theorem C3_wait_iff_in_flight (N : Nat) (Wait : Nat → Nat → Nat) (Event : UpdateEventArgs)
    (self : OTextureWaves) (hready : Ready N self) :
    ∃ r F, self.OnUpdate N Wait Event = some r ∧
      self.Engine.FrameResources[(self.Engine.CurrentFrameResourceIndex + 1) % N]? = some F ∧
      r.1.Engine.FrameResources[r.1.Engine.CurrentFrameResources]? = some F ∧
      HostEvent.waits r.2 =
        (if F.Fence ≠ 0 ∧ self.Engine.CompletedValue < F.Fence then [F.Fence] else []) ∧
      (HostEvent.WaitForFenceValue F.Fence ∈ r.2 ↔
        (F.Fence ≠ 0 ∧ self.Engine.CompletedValue < F.Fence)) := by
  obtain ⟨r, hr⟩ := Option.isSome_iff_exists.mp (OnUpdate_isSome Wait Event hready)
  obtain ⟨F, water, mats, _, hF, _, hm, _, hcur, hfr, _, _, _, htr⟩ := OnUpdate_eq_some hr
  have hobj : HostEvent.waits (ObjectCBsUpdated
      ((self.Engine.CurrentFrameResourceIndex + 1) % N) self.Engine.AllRenderItems).2 = [] :=
    waits_eq_nil_of_writtenFrame _ _ (ObjectCBsUpdated_writtenFrame _ _)
  have hmat : HostEvent.waits mats.2 = [] :=
    waits_eq_nil_of_writtenFrame _ _ (UpdateMaterialCBLoop_writtenFrame _ _ _ mats hm)
  have hwaits : HostEvent.waits r.2 =
      (if F.Fence ≠ 0 ∧ self.Engine.CompletedValue < F.Fence then [F.Fence] else []) := by
    rw [htr, waits_append, waits_append, hobj, hmat]
    by_cases hc : F.Fence ≠ 0 ∧ self.Engine.CompletedValue < F.Fence
    · rw [if_pos hc, if_pos hc]; rfl
    · rw [if_neg hc, if_neg hc]; rfl
  refine ⟨r, F, hr, hF, by rw [hcur, hfr]; exact hF, hwaits, ?_⟩
  constructor
  · intro hmem
    by_contra hc
    rw [if_neg hc] at hwaits
    have : F.Fence ∈ HostEvent.waits r.2 := mem_waits_of_mem _ _ hmem
    rw [hwaits] at this
    simp at this
  · intro hc
    rw [htr, if_pos hc]
    simp

theorem C3_wait_iff_in_flight_witness :
    Ready 3 demoApp ∧
    ∃ r F, demoApp.OnUpdate 3 max (demoFrame 1).Event = some r ∧
      demoApp.Engine.FrameResources[(demoApp.Engine.CurrentFrameResourceIndex + 1) % 3]? =
        some F ∧
      r.1.Engine.FrameResources[r.1.Engine.CurrentFrameResources]? = some F ∧
      HostEvent.waits r.2 =
        (if F.Fence ≠ 0 ∧ demoApp.Engine.CompletedValue < F.Fence then [F.Fence] else []) ∧
      (HostEvent.WaitForFenceValue F.Fence ∈ r.2 ↔
        (F.Fence ≠ 0 ∧ demoApp.Engine.CompletedValue < F.Fence)) :=
  ⟨by decide, C3_wait_iff_in_flight 3 max (demoFrame 1).Event demoApp (by decide)⟩

/-! ## C4 – C5: the dirty counter of a render item -/

theorem decUInt32_of_pos (n : Nat) (hpos : 0 < n) (hn : n < 2 ^ 32) : decUInt32 n = n - 1 := by
  unfold decUInt32
  omega

theorem ObjectCBsUpdated_items (cur : Nat) (items : List (SRenderLayer × SRenderItem))
    (hrep : ∀ q ∈ items, q.2.NumFramesDirty < 2 ^ 32) :
    (ObjectCBsUpdated cur items).1 =
      items.map (fun q =>
        (q.1,
          if 0 < q.2.NumFramesDirty then
            { q.2 with NumFramesDirty := q.2.NumFramesDirty - 1 }
          else q.2)) := by
  unfold ObjectCBsUpdated
  apply List.map_congr_left
  intro q hq
  by_cases hd : 0 < q.2.NumFramesDirty
  · simp only [gt_iff_lt, hd, if_true]
    rw [decUInt32_of_pos _ hd (hrep q hq)]
  · simp only [gt_iff_lt, hd, if_false]

theorem ObjectCBsUpdated_getElem? (cur : Nat) (items : List (SRenderLayer × SRenderItem))
    (p : Nat) (layer : SRenderLayer) (item : SRenderItem)
    (hitem : items[p]? = some (layer, item))
    (hpos : 0 < item.NumFramesDirty) (hrep : item.NumFramesDirty < 2 ^ 32) :
    (ObjectCBsUpdated cur items).1[p]? =
      some (layer, { item with NumFramesDirty := item.NumFramesDirty - 1 }) := by
  unfold ObjectCBsUpdated
  rw [List.getElem?_map, hitem]
  simp only [Option.map_some', gt_iff_lt, hpos, if_true]
  rw [decUInt32_of_pos _ hpos hrep]

/-- C5.  Take render items whose counters are `uint32_t` values and a valid current
frame resource `F`.  If every item with `NumFramesDirty > 0` has its slot
`ObjectCBIndex` in the object CB of `F`, then `UpdateObjectCBs` uploads, in list order,
the object constants of exactly the items with `NumFramesDirty > 0`, each to slot
`ObjectCBIndex` of the object CB of `F`; it takes exactly one off `NumFramesDirty` of
each of these items and leaves an item with `NumFramesDirty = 0` as it is, so the
unsigned counter does not wrap below zero.  If some dirty item has its slot outside
the buffer, the call does not complete: its `CopyData` is out of range. -/
theorem C5_UpdateObjectCBs (Timer : STimer) (self : OTextureWaves) (F : SFrameResource)
    (hF : self.Engine.FrameResources[self.Engine.CurrentFrameResources]? = some F)
    (hrep : ∀ q ∈ self.Engine.AllRenderItems, q.2.NumFramesDirty < 2 ^ 32) :
    if ∀ q ∈ self.Engine.AllRenderItems,
        0 < q.2.NumFramesDirty → q.2.ObjectCBIndex < F.ObjectCB.ElementCount then
      ∃ r, self.UpdateObjectCBs Timer = some r ∧
        r.2 =
          (self.Engine.AllRenderItems.filter (fun q => decide (0 < q.2.NumFramesDirty))).map
            (fun q => HostEvent.ObjectCBCopyData self.Engine.CurrentFrameResources
              q.2.ObjectCBIndex (ObjectConstantsOf q.2)) ∧
        r.1.Engine.AllRenderItems =
          self.Engine.AllRenderItems.map
            (fun q =>
              (q.1,
                if 0 < q.2.NumFramesDirty then
                  { q.2 with NumFramesDirty := q.2.NumFramesDirty - 1 }
                else q.2))
    else self.UpdateObjectCBs Timer = none := by
  by_cases hslot : ∀ q ∈ self.Engine.AllRenderItems,
      0 < q.2.NumFramesDirty → q.2.ObjectCBIndex < F.ObjectCB.ElementCount
  · rw [if_pos hslot]
    have hr : self.UpdateObjectCBs Timer =
        some ({ self with Engine := { self.Engine with AllRenderItems :=
            (ObjectCBsUpdated self.Engine.CurrentFrameResources self.Engine.AllRenderItems).1 } },
          (ObjectCBsUpdated self.Engine.CurrentFrameResources self.Engine.AllRenderItems).2) := by
      simp only [OTextureWaves.UpdateObjectCBs, hF, UpdateObjectCBsLoop_eq, if_pos hslot]
    exact ⟨_, hr, rfl, ObjectCBsUpdated_items self.Engine.CurrentFrameResources _ hrep⟩
  · rw [if_neg hslot]
    simp only [OTextureWaves.UpdateObjectCBs, hF, UpdateObjectCBsLoop_eq, if_neg hslot]

theorem C5_UpdateObjectCBs_witness :
    demoApp.Engine.FrameResources[demoApp.Engine.CurrentFrameResources]? =
      some (demoFrameResource 65536) ∧
    (∀ q ∈ demoApp.Engine.AllRenderItems, q.2.NumFramesDirty < 2 ^ 32) ∧
    (if ∀ q ∈ demoApp.Engine.AllRenderItems,
        0 < q.2.NumFramesDirty →
          q.2.ObjectCBIndex < (demoFrameResource 65536).ObjectCB.ElementCount then
      ∃ r, demoApp.UpdateObjectCBs (demoFrame 1).Event.Timer = some r ∧
        r.2 =
          (demoApp.Engine.AllRenderItems.filter (fun q => decide (0 < q.2.NumFramesDirty))).map
            (fun q => HostEvent.ObjectCBCopyData demoApp.Engine.CurrentFrameResources
              q.2.ObjectCBIndex (ObjectConstantsOf q.2)) ∧
        r.1.Engine.AllRenderItems =
          demoApp.Engine.AllRenderItems.map
            (fun q =>
              (q.1,
                if 0 < q.2.NumFramesDirty then
                  { q.2 with NumFramesDirty := q.2.NumFramesDirty - 1 }
                else q.2))
    else demoApp.UpdateObjectCBs (demoFrame 1).Event.Timer = none) :=
  ⟨rfl, by decide,
    C5_UpdateObjectCBs (demoFrame 1).Event.Timer demoApp (demoFrameResource 65536) rfl
      (by decide)⟩

/-- A render item left at the default slot of `RenderItem.h` (`ObjectCBIndex = -1`, as
`UINT` 4294967295) and dirty: `UpdateObjectCBs` on the six-element object CB of the
demo scene does not complete. -/
theorem UpdateObjectCBs_default_slot :
    OTextureWaves.UpdateObjectCBs (demoFrame 1).Event.Timer
      { demoApp with
        Engine :=
          { demoApp.Engine with
            AllRenderItems :=
              [(SRenderLayer.Opaque, demoItem 4294967295 "Grass" 4 14406)] } } = none := by
  simp only [OTextureWaves.UpdateObjectCBs, UpdateObjectCBsLoop_eq]
  rfl

theorem EndFrame_AllRenderItems (f : FrameInput) (self : OTextureWaves) :
    (EndFrame f self).Engine.AllRenderItems = self.Engine.AllRenderItems := rfl

theorem EndFrame_CurrentFrameResourceIndex (f : FrameInput) (self : OTextureWaves) :
    (EndFrame f self).Engine.CurrentFrameResourceIndex =
      self.Engine.CurrentFrameResourceIndex := rfl

theorem OnUpdate_item {N : Nat} {Wait : Nat → Nat → Nat} {Event : UpdateEventArgs}
    {self : OTextureWaves} {r : OTextureWaves × List HostEvent}
    (h : self.OnUpdate N Wait Event = some r) (p : Nat) (layer : SRenderLayer)
    (item : SRenderItem) (hitem : self.Engine.AllRenderItems[p]? = some (layer, item))
    (hpos : 0 < item.NumFramesDirty) (hrep : item.NumFramesDirty < 2 ^ 32) :
    r.1.Engine.AllRenderItems[p]? =
        some (layer, { item with NumFramesDirty := item.NumFramesDirty - 1 }) ∧
      HostEvent.ObjectCBCopyData ((self.Engine.CurrentFrameResourceIndex + 1) % N)
        item.ObjectCBIndex (ObjectConstantsOf item) ∈ r.2 ∧
      ∃ F, r.1.Engine.FrameResources[r.1.Engine.CurrentFrameResources]? = some F ∧
        item.ObjectCBIndex < F.ObjectCB.ElementCount := by
  obtain ⟨F, water, mats, _, hF, _, _, _, hcur, hfr, _, hitems, _, htr⟩ := OnUpdate_eq_some h
  obtain ⟨F1, hF1, hslots⟩ := OnUpdate_slots h
  rw [hF] at hF1
  injection hF1 with hF1
  subst hF1
  refine ⟨?_, ?_, F, by rw [hcur, hfr]; exact hF,
    hslots (layer, item) (List.getElem?_mem hitem) hpos⟩
  · rw [hitems]
    exact ObjectCBsUpdated_getElem? _ _ p layer item hitem hpos hrep
  · rw [htr]
    apply List.mem_append_left
    apply List.mem_append_right
    apply List.mem_map.mpr
    refine ⟨(layer, item), List.mem_filter.mpr ⟨List.getElem?_mem hitem, by simpa using hpos⟩, rfl⟩

/-- A dirty item over a run of frames no longer than its counter: every frame uploads
it into the frame resource of that frame and takes one off the counter. -/
theorem RunFrames_item {N : Nat} {Wait : Nat → Nat → Nat} (frames : List FrameInput)
    (self : OTextureWaves) (results : List (OTextureWaves × List HostEvent))
    (h : RunFrames N Wait frames self = some results) (p : Nat) (layer : SRenderLayer)
    (item : SRenderItem) (hitem : self.Engine.AllRenderItems[p]? = some (layer, item))
    (hlen : frames.length ≤ item.NumFramesDirty) (hrep : item.NumFramesDirty < 2 ^ 32)
    (j : Nat) (hj : j < frames.length) :
    ∃ r, results[j]? = some r ∧
      r.1.Engine.CurrentFrameResources =
        (self.Engine.CurrentFrameResourceIndex + 1 + j) % N ∧
      HostEvent.ObjectCBCopyData ((self.Engine.CurrentFrameResourceIndex + 1 + j) % N)
        item.ObjectCBIndex (ObjectConstantsOf item) ∈ r.2 ∧
      r.1.Engine.AllRenderItems[p]? =
        some (layer, { item with NumFramesDirty := item.NumFramesDirty - (j + 1) }) ∧
      ∃ F, r.1.Engine.FrameResources[r.1.Engine.CurrentFrameResources]? = some F ∧
        item.ObjectCBIndex < F.ObjectCB.ElementCount := by
  induction frames generalizing self results item j with
  | nil => simp at hj
  | cons f rest ih =>
    cases hr : self.OnUpdate N Wait f.Event with
    | none => simp [RunFrames, hr] at h
    | some r =>
      cases hrs : RunFrames N Wait rest (EndFrame f r.1) with
      | none => simp [RunFrames, hr, hrs] at h
      | some rs =>
        simp only [RunFrames, hr, hrs, Option.map_some', Option.some.injEq] at h
        subst h
        have hpos : 0 < item.NumFramesDirty := by
          simp only [List.length_cons] at hlen
          omega
        obtain ⟨hitem1, hev, hslot⟩ := OnUpdate_item hr p layer item hitem hpos hrep
        obtain ⟨_, _, _, _, _, _, _, hidx, hcur, _⟩ := OnUpdate_eq_some hr
        cases j with
        | zero =>
          exact ⟨r, by simp, hcur, hev, hitem1, hslot⟩
        | succ j =>
          have hj1 : j < rest.length := by
            simp only [List.length_cons] at hj
            omega
          have hlen1 : rest.length ≤
              ({ item with NumFramesDirty := item.NumFramesDirty - 1 } : SRenderItem).NumFramesDirty := by
            simp only [List.length_cons] at hlen
            show rest.length ≤ item.NumFramesDirty - 1
            omega
          have hrep1 :
              ({ item with NumFramesDirty := item.NumFramesDirty - 1 } : SRenderItem).NumFramesDirty
                < 2 ^ 32 := by
            show item.NumFramesDirty - 1 < 2 ^ 32
            omega
          obtain ⟨x, hx, hxcur, hxev, hxitem, hxslot⟩ :=
            ih (EndFrame f r.1) rs hrs _ (by rw [EndFrame_AllRenderItems]; exact hitem1)
              hlen1 hrep1 j hj1
          rw [EndFrame_CurrentFrameResourceIndex, hidx] at hxcur hxev
          have hmod : ((self.Engine.CurrentFrameResourceIndex + 1) % N + 1 + j) % N =
              (self.Engine.CurrentFrameResourceIndex + 1 + (j + 1)) % N := by
            rw [Nat.add_assoc ((self.Engine.CurrentFrameResourceIndex + 1) % N), Nat.mod_add_mod]
            congr 1
            omega
          rw [hmod] at hxcur hxev
          refine ⟨x, by simpa using hx, hxcur, hxev, ?_, hxslot⟩
          rw [hxitem]
          have e : item.NumFramesDirty - 1 - (j + 1) = item.NumFramesDirty - (j + 1 + 1) := by omega
          show some (layer, ({ item with NumFramesDirty := item.NumFramesDirty - 1 - (j + 1) } : SRenderItem)) = _
          rw [e]

theorem ring_slot_injective (N a j k : Nat) (hj : j < N) (hk : k < N)
    (h : (a + j) % N = (a + k) % N) : j = k := by
  have h1 : j % N = k % N := Nat.ModEq.add_left_cancel' a h
  rwa [Nat.mod_eq_of_lt hj, Nat.mod_eq_of_lt hk] at h1

theorem ring_slot_surjective (N a s : Nat) (hs : s < N) :
    ∃ j, j < N ∧ (a + j) % N = s := by
  have hN : 0 < N := by omega
  have ha : a % N < N := Nat.mod_lt _ hN
  refine ⟨(s + (N - a % N)) % N, Nat.mod_lt _ hN, ?_⟩
  rw [Nat.add_mod_mod, ← Nat.mod_add_mod]
  have e : a % N + (s + (N - a % N)) = s + N := by omega
  rw [e, Nat.add_mod_right, Nat.mod_eq_of_lt hs]

/-- C4 (P2 dirty ring consistency).  Take a state in which `OnUpdate` can run on a ring
of `N` frame resources (so every render item has its slot in the object CB of every
frame resource), and in it a render item with `NumFramesDirty = N` that nothing but
`OnUpdate` touches.  Then the next `N` calls of `OnUpdate` all run, the call number
`j` (from 0) uploads the item's object constants to slot `ObjectCBIndex` of the object
CB of the frame resource it selected, which has ring index `(i + 1 + j) mod N` and has
that slot, and leaves the counter at `N - (j + 1)`; these `N` ring indices are
pairwise distinct and are all the ring indices, and after the last call the counter
is 0. -/
theorem C4_dirty_ring_consistency (N : Nat) (Wait : Nat → Nat → Nat)
    (frames : List FrameInput) (self : OTextureWaves) (p : Nat) (layer : SRenderLayer)
    (item : SRenderItem) (hready : Ready N self) (hN : N < 2 ^ 32)
    (hframes : frames.length = N)
    (hitem : self.Engine.AllRenderItems[p]? = some (layer, item))
    (hdirty : item.NumFramesDirty = N) :
    ∃ results, RunFrames N Wait frames self = some results ∧ results.length = N ∧
      (∀ j, j < N → ∃ r, results[j]? = some r ∧
        r.1.Engine.CurrentFrameResources =
          (self.Engine.CurrentFrameResourceIndex + 1 + j) % N ∧
        HostEvent.ObjectCBCopyData r.1.Engine.CurrentFrameResources item.ObjectCBIndex
          (ObjectConstantsOf item) ∈ r.2 ∧
        r.1.Engine.AllRenderItems[p]? =
          some (layer, { item with NumFramesDirty := N - (j + 1) }) ∧
        ∃ F, r.1.Engine.FrameResources[r.1.Engine.CurrentFrameResources]? = some F ∧
          item.ObjectCBIndex < F.ObjectCB.ElementCount) ∧
      (∀ j k, j < N → k < N →
        (self.Engine.CurrentFrameResourceIndex + 1 + j) % N =
          (self.Engine.CurrentFrameResourceIndex + 1 + k) % N → j = k) ∧
      (∀ s, s < N → ∃ j, j < N ∧ (self.Engine.CurrentFrameResourceIndex + 1 + j) % N = s) ∧
      (∃ r, results[N - 1]? = some r ∧
        r.1.Engine.AllRenderItems[p]? = some (layer, { item with NumFramesDirty := 0 })) := by
  obtain ⟨results, hrun, hlen⟩ := RunFrames_eq_some Wait frames hready
  have hstep : ∀ j, j < N → ∃ r, results[j]? = some r ∧
      r.1.Engine.CurrentFrameResources =
        (self.Engine.CurrentFrameResourceIndex + 1 + j) % N ∧
      HostEvent.ObjectCBCopyData r.1.Engine.CurrentFrameResources item.ObjectCBIndex
        (ObjectConstantsOf item) ∈ r.2 ∧
      r.1.Engine.AllRenderItems[p]? =
        some (layer, { item with NumFramesDirty := N - (j + 1) }) ∧
      ∃ F, r.1.Engine.FrameResources[r.1.Engine.CurrentFrameResources]? = some F ∧
        item.ObjectCBIndex < F.ObjectCB.ElementCount := by
    intro j hj
    obtain ⟨r, hr, hcur, hev, hit, hslot⟩ :=
      RunFrames_item frames self results hrun p layer item hitem
        (by rw [hframes, hdirty]) (by rw [hdirty]; exact hN) j (by rw [hframes]; exact hj)
    rw [hdirty] at hit
    exact ⟨r, hr, hcur, by rw [hcur]; exact hev, hit, hslot⟩
  refine ⟨results, hrun, by rw [hlen, hframes], hstep,
    fun j k hj hk h => ring_slot_injective N _ j k hj hk h,
    fun s hs => ring_slot_surjective N _ s hs, ?_⟩
  have hpos : 0 < N := hready.1
  obtain ⟨r, hr, _, _, hit, _⟩ := hstep (N - 1) (by omega)
  have e : N - (N - 1 + 1) = 0 := by omega
  rw [e] at hit
  exact ⟨r, hr, hit⟩

theorem C4_dirty_ring_consistency_witness :
    Ready 3 demoApp ∧ 3 < 2 ^ 32 ∧ [demoFrame 1, demoFrame 2, demoFrame 3].length = 3 ∧
    demoApp.Engine.AllRenderItems[0]? = some (SRenderLayer.Waves, demoItem 0 "Water" 4 390150) ∧
    (demoItem 0 "Water" 4 390150).NumFramesDirty = 3 ∧
    ∃ results,
      RunFrames 3 max [demoFrame 1, demoFrame 2, demoFrame 3] demoApp = some results ∧
      results.length = 3 ∧
      (∀ j, j < 3 → ∃ r, results[j]? = some r ∧
        r.1.Engine.CurrentFrameResources =
          (demoApp.Engine.CurrentFrameResourceIndex + 1 + j) % 3 ∧
        HostEvent.ObjectCBCopyData r.1.Engine.CurrentFrameResources
          (demoItem 0 "Water" 4 390150).ObjectCBIndex
          (ObjectConstantsOf (demoItem 0 "Water" 4 390150)) ∈ r.2 ∧
        r.1.Engine.AllRenderItems[0]? =
          some (SRenderLayer.Waves,
            { demoItem 0 "Water" 4 390150 with NumFramesDirty := 3 - (j + 1) }) ∧
        ∃ F, r.1.Engine.FrameResources[r.1.Engine.CurrentFrameResources]? = some F ∧
          (demoItem 0 "Water" 4 390150).ObjectCBIndex < F.ObjectCB.ElementCount) ∧
      (∀ j k, j < 3 → k < 3 →
        (demoApp.Engine.CurrentFrameResourceIndex + 1 + j) % 3 =
          (demoApp.Engine.CurrentFrameResourceIndex + 1 + k) % 3 → j = k) ∧
      (∀ s, s < 3 → ∃ j, j < 3 ∧ (demoApp.Engine.CurrentFrameResourceIndex + 1 + j) % 3 = s) ∧
      (∃ r, results[3 - 1]? = some r ∧
        r.1.Engine.AllRenderItems[0]? =
          some (SRenderLayer.Waves,
            { demoItem 0 "Water" 4 390150 with NumFramesDirty := 0 })) :=
  ⟨by decide, by decide, rfl, rfl, rfl,
    C4_dirty_ring_consistency 3 max [demoFrame 1, demoFrame 2, demoFrame 3] demoApp 0
      SRenderLayer.Waves (demoItem 0 "Water" 4 390150) (by decide) (by decide) rfl rfl rfl⟩

/-! ## C6: the water material -/

theorem OnUpdate_water {N : Nat} {Wait : Nat → Nat → Nat} {Event : UpdateEventArgs}
    {self : OTextureWaves} {r : OTextureWaves × List HostEvent}
    (h : self.OnUpdate N Wait Event = some r) (water0 : SMaterial)
    (h0 : derefMaterial self.Engine.Materials "Water" = some water0) :
    ∃ water, derefMaterial r.1.Engine.Materials "Water" = some water ∧
      water.NumFramesDirty = N - 1 ∧
      water.MaterialCBIndex = water0.MaterialCBIndex ∧
      water.MaterialConsatnts = (AnimateWater N Event.Timer water0).MaterialConsatnts ∧
      HostEvent.MaterialCBCopyData r.1.Engine.CurrentFrameResources water.MaterialCBIndex
        (MaterialConstantsOf water) ∈ r.2 := by
  obtain ⟨F, water, mats, hN, _, hw, hm, _, hcur, _, _, _, hmat, htr⟩ := OnUpdate_eq_some h
  rw [h0] at hw
  injection hw with hw
  subst hw
  have hsome : (derefMaterial self.Engine.Materials "Water").isSome = true := by rw [h0]; rfl
  have h1 := derefMaterial_storeMaterial_self self.Engine.Materials "Water"
    (AnimateWater N Event.Timer water0) hsome
  obtain ⟨h2, h3⟩ := UpdateMaterialCBLoop_deref _ _ _ mats hm "Water" _ h1
  have hpos : 0 < (AnimateWater N Event.Timer water0).NumFramesDirty := by
    show 0 < N
    omega
  rw [if_pos hpos] at h2
  refine ⟨{ AnimateWater N Event.Timer water0 with
      NumFramesDirty := (AnimateWater N Event.Timer water0).NumFramesDirty - 1 },
    by rw [hmat]; exact h2, rfl, rfl, rfl, ?_⟩
  rw [htr, hcur]
  exact List.mem_append_right _ (h3 hpos)

/-- The material CB of the frame resource `OnUpdate` selects has a slot for every
registered material. -/
theorem OnUpdate_materialCB {N : Nat} {Wait : Nat → Nat → Nat} {Event : UpdateEventArgs}
    {self : OTextureWaves} {r : OTextureWaves × List HostEvent} (hready : Ready N self)
    (h : self.OnUpdate N Wait Event = some r) (Name : String) (material : SMaterial)
    (hm : derefMaterial self.Engine.Materials Name = some material) :
    ∃ F materialCB, r.1.Engine.FrameResources[r.1.Engine.CurrentFrameResources]? = some F ∧
      F.MaterialCB = some materialCB ∧
      material.MaterialCBIndex < materialCB.ElementCount := by
  obtain ⟨F, _, _, _, hF, _, _, _, hcur, hfr, _⟩ := OnUpdate_eq_some h
  obtain ⟨_, _, hcb, _, _, hmats⟩ := hready
  have hmem : F ∈ self.Engine.FrameResources := List.getElem?_mem hF
  obtain ⟨b, hb⟩ := Option.isSome_iff_exists.mp (hcb F hmem)
  exact ⟨F, b, by rw [hcur, hfr]; exact hF, hb,
    hmats F hmem b hb _ (derefMaterial_mem _ _ _ hm) material rfl⟩

/-- C6, as the code has it.  For every run of frames from a state in which `OnUpdate`
can run, every call of `OnUpdate` (the first `N` after a change of the water
material and all later ones alike) uploads the water material as the host holds it
after the call to the slot `MaterialCBIndex` of the material CB of the frame resource
it selected, a slot that buffer has, and leaves `Water.NumFramesDirty` at `N - 1`:
`AnimateMaterials` marks the material dirty again in every call. -/
theorem C6_water_rewritten_every_frame (N : Nat) (Wait : Nat → Nat → Nat)
    (frames : List FrameInput) (self : OTextureWaves) (water0 : SMaterial)
    (hready : Ready N self)
    (h0 : derefMaterial self.Engine.Materials "Water" = some water0) :
    ∃ results, RunFrames N Wait frames self = some results ∧
      results.length = frames.length ∧
      ∀ r ∈ results, ∃ water,
        derefMaterial r.1.Engine.Materials "Water" = some water ∧
        water.MaterialCBIndex = water0.MaterialCBIndex ∧
        water.NumFramesDirty = N - 1 ∧
        HostEvent.MaterialCBCopyData r.1.Engine.CurrentFrameResources water0.MaterialCBIndex
          (MaterialConstantsOf water) ∈ r.2 ∧
        ∃ F materialCB,
          r.1.Engine.FrameResources[r.1.Engine.CurrentFrameResources]? = some F ∧
          F.MaterialCB = some materialCB ∧
          water0.MaterialCBIndex < materialCB.ElementCount := by
  induction frames generalizing self water0 with
  | nil => exact ⟨[], rfl, rfl, by simp⟩
  | cons f rest ih =>
    obtain ⟨r, hr⟩ := Option.isSome_iff_exists.mp (OnUpdate_isSome Wait f.Event hready)
    obtain ⟨water, hw, hdirty, hidx, _, hev⟩ := OnUpdate_water hr water0 h0
    obtain ⟨rs, hrs, hlen, hall⟩ :=
      ih (EndFrame f r.1) water (EndFrame_ready f (OnUpdate_ready hready hr)) hw
    refine ⟨r :: rs, by simp [RunFrames, hr, hrs], by simp [hlen], ?_⟩
    intro x hx
    rcases List.mem_cons.mp hx with rfl | hx
    · exact ⟨water, hw, hidx, hdirty, by rw [← hidx]; exact hev,
        OnUpdate_materialCB hready hr "Water" water0 h0⟩
    · obtain ⟨w, hw1, hw2, hw3, hw4, F, b, hF, hb, hslot⟩ := hall x hx
      exact ⟨w, hw1, by rw [hw2, hidx], hw3, by rw [← hidx]; exact hw4,
        F, b, hF, hb, by rw [← hidx]; exact hslot⟩

theorem C6_water_rewritten_every_frame_witness :
    Ready 3 demoApp ∧
    derefMaterial demoApp.Engine.Materials "Water" =
      some (demoMaterial 1 (1, 1, 1, 1 / 2) (1 / 10, 1 / 10, 1 / 10) 0) ∧
    ∃ results,
      RunFrames 3 max [demoFrame 1, demoFrame 2, demoFrame 3, demoFrame 4] demoApp =
        some results ∧
      results.length = [demoFrame 1, demoFrame 2, demoFrame 3, demoFrame 4].length ∧
      ∀ r ∈ results, ∃ water,
        derefMaterial r.1.Engine.Materials "Water" = some water ∧
        water.MaterialCBIndex =
          (demoMaterial 1 (1, 1, 1, 1 / 2) (1 / 10, 1 / 10, 1 / 10) 0).MaterialCBIndex ∧
        water.NumFramesDirty = 3 - 1 ∧
        HostEvent.MaterialCBCopyData r.1.Engine.CurrentFrameResources
          (demoMaterial 1 (1, 1, 1, 1 / 2) (1 / 10, 1 / 10, 1 / 10) 0).MaterialCBIndex
          (MaterialConstantsOf water) ∈ r.2 ∧
        ∃ F materialCB,
          r.1.Engine.FrameResources[r.1.Engine.CurrentFrameResources]? = some F ∧
          F.MaterialCB = some materialCB ∧
          (demoMaterial 1 (1, 1, 1, 1 / 2) (1 / 10, 1 / 10, 1 / 10) 0).MaterialCBIndex <
            materialCB.ElementCount :=
  ⟨by decide, rfl,
    C6_water_rewritten_every_frame 3 max [demoFrame 1, demoFrame 2, demoFrame 3, demoFrame 4]
      demoApp _ (by decide) rfl⟩

/-- C6, counterexample.  In the demo scene on a ring of three frame resources the
water material starts with `NumFramesDirty = 3` and `MaterialCBIndex = 1`.  After
each of the first three calls of `OnUpdate` its `NumFramesDirty` is 2, not 0, and
the fourth call uploads slot 1 once more (to the frame resource with ring index
1). -/
theorem C6_counterexample :
    (RunFrames 3 max [demoFrame 1, demoFrame 2, demoFrame 3, demoFrame 4] demoApp).map
      (fun results => results.map (fun r =>
        ((derefMaterial r.1.Engine.Materials "Water").map (fun m => m.NumFramesDirty),
          HostEvent.materialWrites r.2))) =
    some
      [(some 2, [(1, 0), (1, 1), (1, 2), (1, 3), (1, 4), (1, 5)]),
       (some 2, [(2, 0), (2, 1), (2, 2), (2, 3), (2, 4), (2, 5)]),
       (some 2, [(0, 0), (0, 1), (0, 2), (0, 3), (0, 4), (0, 5)]),
       (some 2, [(1, 1)])] := by
  decide

/-! ## C7: the first four frames -/

theorem OnUpdate_waits {N : Nat} {Wait : Nat → Nat → Nat} {Event : UpdateEventArgs}
    {self : OTextureWaves} {r : OTextureWaves × List HostEvent}
    (h : self.OnUpdate N Wait Event = some r) :
    ∃ F, self.Engine.FrameResources[(self.Engine.CurrentFrameResourceIndex + 1) % N]? = some F ∧
      HostEvent.waits r.2 =
        (if F.Fence ≠ 0 ∧ self.Engine.CompletedValue < F.Fence then [F.Fence] else []) := by
  obtain ⟨F, water, mats, _, hF, _, hm, _, _, _, _, _, _, htr⟩ := OnUpdate_eq_some h
  have hobj : HostEvent.waits (ObjectCBsUpdated
      ((self.Engine.CurrentFrameResourceIndex + 1) % N) self.Engine.AllRenderItems).2 = [] :=
    waits_eq_nil_of_writtenFrame _ _ (ObjectCBsUpdated_writtenFrame _ _)
  have hmat : HostEvent.waits mats.2 = [] :=
    waits_eq_nil_of_writtenFrame _ _ (UpdateMaterialCBLoop_writtenFrame _ _ _ mats hm)
  refine ⟨F, hF, ?_⟩
  rw [htr, waits_append, waits_append, hobj, hmat]
  by_cases hc : F.Fence ≠ 0 ∧ self.Engine.CompletedValue < F.Fence
  · rw [if_pos hc, if_pos hc]; rfl
  · rw [if_neg hc, if_neg hc]; rfl

/-- One frame from a state whose selected frame resource has the marker `fence`: the
state the next frame starts from. -/
theorem frame_step {N : Nat} {Wait : Nat → Nat → Nat} (f : FrameInput)
    {self : OTextureWaves} {r : OTextureWaves × List HostEvent}
    (h : self.OnUpdate N Wait f.Event = some r) :
    ∃ F, self.Engine.FrameResources[(self.Engine.CurrentFrameResourceIndex + 1) % N]? = some F ∧
      r.1.Engine.CurrentFrameResources = (self.Engine.CurrentFrameResourceIndex + 1) % N ∧
      HostEvent.waits r.2 =
        (if F.Fence ≠ 0 ∧ self.Engine.CompletedValue < F.Fence then [F.Fence] else []) ∧
      (EndFrame f r.1).Engine.CurrentFrameResourceIndex =
        (self.Engine.CurrentFrameResourceIndex + 1) % N ∧
      (EndFrame f r.1).Engine.CompletedValue =
        (if F.Fence ≠ 0 ∧ self.Engine.CompletedValue < F.Fence then
          Wait self.Engine.CompletedValue F.Fence else self.Engine.CompletedValue) + f.Progress ∧
      ∀ m, (EndFrame f r.1).Engine.FrameResources[m]? =
        (self.Engine.FrameResources[m]?).map (fun G =>
          if (self.Engine.CurrentFrameResourceIndex + 1) % N = m then
            { G with Fence := f.Signal } else G) := by
  obtain ⟨F, hF, hw⟩ := OnUpdate_waits h
  obtain ⟨F1, _, _, _, hF1, _, _, hidx, hcur, hfr, hcv, _⟩ := OnUpdate_eq_some h
  rw [hF] at hF1
  injection hF1 with hF1
  subst hF1
  refine ⟨F, hF, hcur, hw, hidx, by simp only [EndFrame, hcv], ?_⟩
  intro m
  simp only [EndFrame, List.getElem?_modify, hcur, hfr, Option.map_eq_map]

/-- C7 (boot, `N = 3`).  Start from a state in which `OnUpdate` can run on a ring of
three frame resources whose fence markers are all 0, and let the frame resource of
each frame receive its marker (`Signal`, non-zero for a real queue) after the
submission.  Then the first three calls of `OnUpdate` select three pairwise distinct
frame resources and wait on nothing; the fourth call selects the frame resource of
the first frame, whose marker is the one recorded for frame 1, and waits on exactly
that marker if the completed fence value is still below it (and on nothing
otherwise). -/
theorem C7_boot_three_frames (Wait : Nat → Nat → Nat) (f1 f2 f3 f4 : FrameInput)
    (self : OTextureWaves) (hready : Ready 3 self)
    (hzero : ∀ F ∈ self.Engine.FrameResources, F.Fence = 0) :
    ∃ r1 r2 r3 r4,
      RunFrames 3 Wait [f1, f2, f3, f4] self = some [r1, r2, r3, r4] ∧
      HostEvent.waits r1.2 = [] ∧ HostEvent.waits r2.2 = [] ∧ HostEvent.waits r3.2 = [] ∧
      r1.1.Engine.CurrentFrameResources ≠ r2.1.Engine.CurrentFrameResources ∧
      r1.1.Engine.CurrentFrameResources ≠ r3.1.Engine.CurrentFrameResources ∧
      r2.1.Engine.CurrentFrameResources ≠ r3.1.Engine.CurrentFrameResources ∧
      r4.1.Engine.CurrentFrameResources = r1.1.Engine.CurrentFrameResources ∧
      (∃ F, r4.1.Engine.FrameResources[r4.1.Engine.CurrentFrameResources]? = some F ∧
        F.Fence = f1.Signal) ∧
      HostEvent.waits r4.2 =
        (if self.Engine.CompletedValue + f1.Progress + f2.Progress + f3.Progress < f1.Signal
          then [f1.Signal] else []) := by
  have hready1 := hready
  obtain ⟨r1, hr1⟩ := Option.isSome_iff_exists.mp (OnUpdate_isSome Wait f1.Event hready)
  have hready2 := EndFrame_ready f1 (OnUpdate_ready hready hr1)
  obtain ⟨r2, hr2⟩ := Option.isSome_iff_exists.mp (OnUpdate_isSome Wait f2.Event hready2)
  have hready3 := EndFrame_ready f2 (OnUpdate_ready hready2 hr2)
  obtain ⟨r3, hr3⟩ := Option.isSome_iff_exists.mp (OnUpdate_isSome Wait f3.Event hready3)
  have hready4 := EndFrame_ready f3 (OnUpdate_ready hready3 hr3)
  obtain ⟨r4, hr4⟩ := Option.isSome_iff_exists.mp (OnUpdate_isSome Wait f4.Event hready4)
  obtain ⟨F1, hF1, hcur1, hw1, hi1, hc1, hfr1⟩ := frame_step f1 hr1
  obtain ⟨F2, hF2, hcur2, hw2, hi2, hc2, hfr2⟩ := frame_step f2 hr2
  obtain ⟨F3, hF3, hcur3, hw3, hi3, hc3, hfr3⟩ := frame_step f3 hr3
  obtain ⟨F4, hF4, hcur4, hw4, _, _, _⟩ := frame_step f4 hr4
  obtain ⟨_, _, _, _, _, _, _, _, _, hfr4, _⟩ := OnUpdate_eq_some hr4
  -- the four ring indices
  generalize hx0 : self.Engine.CurrentFrameResourceIndex = i0 at *
  rw [hi1] at hF2 hcur2 hi2 hfr2
  rw [hi2] at hF3 hcur3 hi3 hfr3
  rw [hi3] at hF4 hcur4
  have e12 : (i0 + 1) % 3 ≠ ((i0 + 1) % 3 + 1) % 3 := by omega
  have e13 : (i0 + 1) % 3 ≠ (((i0 + 1) % 3 + 1) % 3 + 1) % 3 := by omega
  have e23 : ((i0 + 1) % 3 + 1) % 3 ≠ (((i0 + 1) % 3 + 1) % 3 + 1) % 3 := by omega
  have e41 : ((((i0 + 1) % 3 + 1) % 3 + 1) % 3 + 1) % 3 = (i0 + 1) % 3 := by omega
  -- the markers read by the four calls
  have hz1 : F1.Fence = 0 := hzero F1 (List.getElem?_mem hF1)
  have hz2 : F2.Fence = 0 := by
    rw [hfr1] at hF2
    cases hG : self.Engine.FrameResources[((i0 + 1) % 3 + 1) % 3]? with
    | none =>
      rw [hG] at hF2
      cases hF2
    | some G =>
      simp only [hG, Option.map_some', e12, if_false, Option.some.injEq] at hF2
      rw [← hF2]
      exact hzero G (List.getElem?_mem hG)
  have hz3 : F3.Fence = 0 := by
    rw [hfr2, hfr1] at hF3
    cases hG : self.Engine.FrameResources[(((i0 + 1) % 3 + 1) % 3 + 1) % 3]? with
    | none =>
      rw [hG] at hF3
      cases hF3
    | some G =>
      simp only [hG, Option.map_some', e13, e23, if_false, Option.some.injEq] at hF3
      rw [← hF3]
      exact hzero G (List.getElem?_mem hG)
  have hz4 : F4.Fence = f1.Signal := by
    rw [hfr3, hfr2, hfr1, e41] at hF4
    cases hG : self.Engine.FrameResources[(i0 + 1) % 3]? with
    | none =>
      rw [hG] at hF4
      cases hF4
    | some G =>
      simp only [hG, Option.map_some', e12.symm, e13.symm, if_false, if_true,
        Option.some.injEq] at hF4
      rw [← hF4]
  -- the completed value the fourth call compares with
  rw [if_neg (by rw [hz1]; simp)] at hw1 hc1
  rw [if_neg (by rw [hz2]; simp)] at hw2 hc2
  rw [if_neg (by rw [hz3]; simp)] at hw3 hc3
  rw [hc3, hc2, hc1, hz4] at hw4
  refine ⟨r1, r2, r3, r4, by simp [RunFrames, hr1, hr2, hr3, hr4], hw1, hw2, hw3,
    by rw [hcur1, hcur2]; exact e12, by rw [hcur1, hcur3]; exact e13,
    by rw [hcur2, hcur3]; exact e23, by rw [hcur4, hcur1]; exact e41,
    ⟨F4, by rw [hcur4, hfr4]; exact hF4, hz4⟩, ?_⟩
  rw [hw4]
  by_cases hlt : self.Engine.CompletedValue + f1.Progress + f2.Progress + f3.Progress < f1.Signal
  · rw [if_pos hlt, if_pos ⟨by omega, hlt⟩]
  · rw [if_neg hlt, if_neg (fun hc => hlt hc.2)]

theorem C7_boot_three_frames_witness :
    Ready 3 demoApp ∧ (∀ F ∈ demoApp.Engine.FrameResources, F.Fence = 0) ∧
    ∃ r1 r2 r3 r4,
      RunFrames 3 max [demoFrame 1, demoFrame 2, demoFrame 3, demoFrame 4] demoApp =
        some [r1, r2, r3, r4] ∧
      HostEvent.waits r1.2 = [] ∧ HostEvent.waits r2.2 = [] ∧ HostEvent.waits r3.2 = [] ∧
      r1.1.Engine.CurrentFrameResources ≠ r2.1.Engine.CurrentFrameResources ∧
      r1.1.Engine.CurrentFrameResources ≠ r3.1.Engine.CurrentFrameResources ∧
      r2.1.Engine.CurrentFrameResources ≠ r3.1.Engine.CurrentFrameResources ∧
      r4.1.Engine.CurrentFrameResources = r1.1.Engine.CurrentFrameResources ∧
      (∃ F, r4.1.Engine.FrameResources[r4.1.Engine.CurrentFrameResources]? = some F ∧
        F.Fence = (demoFrame 1).Signal) ∧
      HostEvent.waits r4.2 =
        (if demoApp.Engine.CompletedValue + (demoFrame 1).Progress + (demoFrame 2).Progress +
            (demoFrame 3).Progress < (demoFrame 1).Signal
          then [(demoFrame 1).Signal] else []) :=
  ⟨by decide, by decide,
    C7_boot_three_frames max (demoFrame 1) (demoFrame 2) (demoFrame 3) (demoFrame 4) demoApp
      (by decide) (by decide)⟩

/-! ## C9: `DrawRenderItems` -/

theorem DrawRenderItemCommands_eq (engine : OEngine) (objectCBByteSize matCBByteSize : Nat)
    (objectCB materialCB : OUploadBuffer) (renderItem : SRenderItem) (geometry : Nat)
    (material : SMaterial)
    (h1 : renderItem.ObjectCBIndex * objectCBByteSize < 2 ^ 32)
    (h2 : objectCB.GPUVirtualAddress + renderItem.ObjectCBIndex * objectCBByteSize < 2 ^ 64)
    (h3 : material.MaterialCBIndex * matCBByteSize < 2 ^ 32)
    (h4 : materialCB.GPUVirtualAddress + material.MaterialCBIndex * matCBByteSize < 2 ^ 64)
    (h5 : engine.SRVHeapStart + material.DiffuseSRVHeapIndex * engine.CBVSRVUAVDescriptorSize
      < 2 ^ 64) :
    DrawRenderItemCommands engine objectCBByteSize matCBByteSize objectCB materialCB renderItem
        geometry material =
      ExpectedDraw engine objectCBByteSize matCBByteSize objectCB materialCB renderItem
        geometry material := by
  unfold DrawRenderItemCommands ExpectedDraw OffsetHandle
  rw [Nat.mod_eq_of_lt h1, Nat.mod_eq_of_lt h2, Nat.mod_eq_of_lt h3, Nat.mod_eq_of_lt h4,
    Nat.mod_eq_of_lt h5]

theorem DrawRenderItemsLoop_spec (engine : OEngine) (objectCBByteSize matCBByteSize : Nat)
    (objectCB materialCB : OUploadBuffer) (RenderItems : List SRenderItem)
    (h : ∀ it ∈ RenderItems,
      CanDraw engine objectCBByteSize matCBByteSize objectCB materialCB it) :
    ∃ chunks : List (List Command),
      DrawRenderItemsLoop engine objectCBByteSize matCBByteSize objectCB materialCB RenderItems =
        some chunks.flatten ∧
      List.Forall₂
        (fun it chunk => ∃ geometry material,
          it.Geometry = some geometry ∧
          it.Material.bind (derefMaterial engine.Materials) = some material ∧
          chunk = ExpectedDraw engine objectCBByteSize matCBByteSize objectCB materialCB it
            geometry material)
        RenderItems chunks := by
  induction RenderItems with
  | nil => exact ⟨[], rfl, List.Forall₂.nil⟩
  | cons it rest ih =>
    obtain ⟨chunks, hloop, hall⟩ := ih (fun x hx => h x (List.mem_cons_of_mem _ hx))
    have hit := h it (List.mem_cons_self _ _)
    unfold CanDraw at hit
    cases hg : it.Geometry with
    | none => simp [hg] at hit
    | some geometry =>
      cases hm : it.Material.bind (derefMaterial engine.Materials) with
      | none => simp [hg, hm] at hit
      | some material =>
        simp only [hg, hm] at hit
        obtain ⟨h1, h2, h3, h4, h5⟩ := hit
        refine ⟨ExpectedDraw engine objectCBByteSize matCBByteSize objectCB materialCB it
          geometry material :: chunks, ?_, List.Forall₂.cons ⟨geometry, material, hg, hm, rfl⟩ hall⟩
        simp only [DrawRenderItemsLoop, hg, hm, hloop, Option.map_some', List.flatten_cons,
          DrawRenderItemCommands_eq engine objectCBByteSize matCBByteSize objectCB materialCB it
            geometry material h1 h2 h3 h4 h5]

theorem countP_isDraw_flatten (RenderItems : List SRenderItem) (chunks : List (List Command))
    (P : SRenderItem → List Command → Prop)
    (hP : ∀ it chunk, P it chunk → chunk.countP Command.isDraw = 1)
    (h : List.Forall₂ P RenderItems chunks) :
    chunks.flatten.countP Command.isDraw = RenderItems.length := by
  induction h with
  | nil => rfl
  | cons hhead _ ih =>
    simp only [List.flatten_cons, List.countP_append, List.length_cons, hP _ _ hhead, ih]
    omega

/-- C9.  For every list of render items that `DrawRenderItems` can draw (valid mesh
and material pointers, a current frame resource with its `MaterialCB`, no wrap-around
in the address arithmetic), the recorded commands are, item by item in list order,
the three input-assembler bindings, root parameter 0 = SRV heap start +
`DiffuseSRVHeapIndex` x descriptor size, root parameter 1 = object CB address +
`ObjectCBIndex` x object stride, root parameter 3 = material CB address +
`MaterialCBIndex` x material stride, and then one
`DrawIndexedInstanced(IndexCount, 1, StartIndexLocation, BaseVertexLocation, 0)`; the
number of draw calls is the length of the list. -/
theorem C9_DrawRenderItems (objectCBByteSize matCBByteSize : Nat)
    (RenderItems : List SRenderItem) (self : OTextureWaves) (F : SFrameResource)
    (materialCB : OUploadBuffer)
    (hF : self.Engine.FrameResources[self.Engine.CurrentFrameResources]? = some F)
    (hcb : F.MaterialCB = some materialCB)
    (hitems : ∀ it ∈ RenderItems,
      CanDraw self.Engine objectCBByteSize matCBByteSize F.ObjectCB materialCB it) :
    ∃ chunks : List (List Command),
      self.DrawRenderItems objectCBByteSize matCBByteSize RenderItems = some chunks.flatten ∧
      List.Forall₂
        (fun it chunk => ∃ geometry material,
          it.Geometry = some geometry ∧
          it.Material.bind (derefMaterial self.Engine.Materials) = some material ∧
          chunk =
            [Command.IASetVertexBuffers 0 1 geometry,
             Command.IASetIndexBuffer geometry,
             Command.IASetPrimitiveTopology it.PrimitiveType,
             Command.SetGraphicsRootDescriptorTable 0
               (self.Engine.SRVHeapStart +
                 material.DiffuseSRVHeapIndex * self.Engine.CBVSRVUAVDescriptorSize),
             Command.SetGraphicsRootConstantBufferView 1
               (F.ObjectCB.GPUVirtualAddress + it.ObjectCBIndex * objectCBByteSize),
             Command.SetGraphicsRootConstantBufferView 3
               (materialCB.GPUVirtualAddress + material.MaterialCBIndex * matCBByteSize),
             Command.DrawIndexedInstanced it.IndexCount 1 it.StartIndexLocation
               it.BaseVertexLocation 0])
        RenderItems chunks ∧
      chunks.flatten.countP Command.isDraw = RenderItems.length := by
  obtain ⟨chunks, hloop, hall⟩ := DrawRenderItemsLoop_spec self.Engine objectCBByteSize
    matCBByteSize F.ObjectCB materialCB RenderItems hitems
  refine ⟨chunks, ?_, hall, ?_⟩
  · simp only [OTextureWaves.DrawRenderItems, hF, hcb, hloop]
  · apply countP_isDraw_flatten RenderItems chunks _ _ hall
    rintro it chunk ⟨geometry, material, _, _, rfl⟩
    rfl

theorem C9_DrawRenderItems_witness :
    demoApp.Engine.FrameResources[demoApp.Engine.CurrentFrameResources]? =
      some (demoFrameResource 65536) ∧
    (demoFrameResource 65536).MaterialCB = some (demoBuffer (65536 + 8192) 6 true) ∧
    (∀ it ∈ demoApp.Engine.GetAllRenderItems,
      CanDraw demoApp.Engine 256 256 (demoFrameResource 65536).ObjectCB
        (demoBuffer (65536 + 8192) 6 true) it) ∧
    ∃ chunks : List (List Command),
      demoApp.DrawRenderItems 256 256 demoApp.Engine.GetAllRenderItems = some chunks.flatten ∧
      List.Forall₂
        (fun it chunk => ∃ geometry material,
          it.Geometry = some geometry ∧
          it.Material.bind (derefMaterial demoApp.Engine.Materials) = some material ∧
          chunk =
            [Command.IASetVertexBuffers 0 1 geometry,
             Command.IASetIndexBuffer geometry,
             Command.IASetPrimitiveTopology it.PrimitiveType,
             Command.SetGraphicsRootDescriptorTable 0
               (demoApp.Engine.SRVHeapStart +
                 material.DiffuseSRVHeapIndex * demoApp.Engine.CBVSRVUAVDescriptorSize),
             Command.SetGraphicsRootConstantBufferView 1
               ((demoFrameResource 65536).ObjectCB.GPUVirtualAddress + it.ObjectCBIndex * 256),
             Command.SetGraphicsRootConstantBufferView 3
               ((demoBuffer (65536 + 8192) 6 true).GPUVirtualAddress +
                 material.MaterialCBIndex * 256),
             Command.DrawIndexedInstanced it.IndexCount 1 it.StartIndexLocation
               it.BaseVertexLocation 0])
        demoApp.Engine.GetAllRenderItems chunks ∧
      chunks.flatten.countP Command.isDraw = demoApp.Engine.GetAllRenderItems.length :=
  ⟨rfl, rfl, by decide,
    C9_DrawRenderItems 256 256 demoApp.Engine.GetAllRenderItems demoApp
      (demoFrameResource 65536) (demoBuffer (65536 + 8192) 6 true) rfl rfl (by decide)⟩

/-! ## C8: the order of the layers in `OnRender` -/

theorem DrawRenderItemsLoop_isSome (engine : OEngine) (objectCBByteSize matCBByteSize : Nat)
    (objectCB materialCB : OUploadBuffer) (RenderItems : List SRenderItem)
    (h : ∀ it ∈ RenderItems, PointersValid engine it) :
    ∃ cmds,
      DrawRenderItemsLoop engine objectCBByteSize matCBByteSize objectCB materialCB RenderItems =
        some cmds ∧
      ∀ c ∈ cmds, c.isSetPipelineState = false := by
  induction RenderItems with
  | nil => exact ⟨[], rfl, by simp⟩
  | cons it rest ih =>
    obtain ⟨cmds, hloop, hno⟩ := ih (fun x hx => h x (List.mem_cons_of_mem _ hx))
    obtain ⟨hg, hm⟩ := h it (List.mem_cons_self _ _)
    obtain ⟨geometry, hg⟩ := Option.isSome_iff_exists.mp hg
    obtain ⟨material, hm⟩ := Option.isSome_iff_exists.mp hm
    refine ⟨DrawRenderItemCommands engine objectCBByteSize matCBByteSize objectCB materialCB it
      geometry material ++ cmds, by simp only [DrawRenderItemsLoop, hg, hm, hloop, Option.map_some'],
      ?_⟩
    intro c hc
    rcases List.mem_append.mp hc with hc | hc
    · simp only [DrawRenderItemCommands, List.mem_cons, List.mem_singleton, List.not_mem_nil,
        or_false] at hc
      rcases hc with rfl | rfl | rfl | rfl | rfl | rfl | rfl <;> rfl
    · exact hno c hc

theorem Update_no_draw (Gt : STimer) (RootSignature : SRootSignature) (PSO : SPSOType)
    (w : OGPUWave) : (w.Update Gt RootSignature PSO).2.all (fun c => !c.isDraw) = true := by
  by_cases hstep : roundBinary32 (w.t + Gt.DeltaTime) ≥ roundBinary32 w.TimeStep
  · simp only [OGPUWave.Update, hstep, if_true]
    rfl
  · simp only [OGPUWave.Update, hstep, if_false]
    rfl

theorem UpdateWave_no_draw (Timer : STimer) (I J : Nat) (R : ℚ) (self : OTextureWaves) :
    ∀ c ∈ (self.UpdateWave Timer I J R).2, c.isDraw = false := by
  intro c hc
  simp only [OTextureWaves.UpdateWave] at hc
  rcases List.mem_append.mp hc with hc | hc
  · split at hc
    · have hall : (self.Waves.Disturb SRootSignature.Waves SPSOType.WavesDisturb I J R).all
          (fun c => !c.isDraw) = true := rfl
      simpa using List.all_eq_true.mp hall c hc
    · simp at hc
  · simpa using List.all_eq_true.mp (Update_no_draw _ _ _ _) c hc

theorem GetRenderItems_valid (engine : OEngine) (Layer : SRenderLayer)
    (hLayer : Layer ∈ DrawnLayers)
    (h : ∀ q ∈ engine.AllRenderItems, q.1 ∈ DrawnLayers → PointersValid engine q.2) :
    ∀ it ∈ engine.GetRenderItems Layer, PointersValid engine it := by
  intro it hit
  obtain ⟨q, hq, rfl⟩ := List.mem_map.mp hit
  obtain ⟨hq1, hq2⟩ := List.mem_filter.mp hq
  have hl : q.1 = Layer := by simpa using hq2
  exact h q hq1 (by rw [hl]; exact hLayer)

theorem DrawRenderItems_layer (objectCBByteSize matCBByteSize : Nat) (self : OTextureWaves)
    (F : SFrameResource) (materialCB : OUploadBuffer)
    (hF : self.Engine.FrameResources[self.Engine.CurrentFrameResources]? = some F)
    (hcb : F.MaterialCB = some materialCB)
    (hptr : ∀ q ∈ self.Engine.AllRenderItems, q.1 ∈ DrawnLayers → PointersValid self.Engine q.2)
    (Layer : SRenderLayer) (hLayer : Layer ∈ DrawnLayers) :
    ∃ cmds,
      self.DrawRenderItems objectCBByteSize matCBByteSize (self.Engine.GetRenderItems Layer) =
        some cmds ∧
      ∀ c ∈ cmds, c.isSetPipelineState = false := by
  obtain ⟨cmds, hloop, hno⟩ := DrawRenderItemsLoop_isSome self.Engine objectCBByteSize
    matCBByteSize F.ObjectCB materialCB (self.Engine.GetRenderItems Layer)
    (GetRenderItems_valid self.Engine Layer hLayer hptr)
  exact ⟨cmds, by simp only [OTextureWaves.DrawRenderItems, hF, hcb, hloop], hno⟩

/-- C8 (P4 draw ordering).  In every call of `OnRender` that can draw (a current frame
resource with its `MaterialCB`, valid pointers in the items of the five drawn
layers) the recorded commands are: a prefix without any draw call (pass constants,
wave update, displacement map); then `SetPipelineState(Opaque)` directly followed by
the commands `DrawRenderItems` records for the Opaque layer; then the same for
Tesselation, AlphaTested, Transparent, and for the Waves layer under the
`WavesRender` pipeline state, in this order.  No command of a layer's draws changes
the pipeline state. -/
theorem C8_draw_order (objectCBByteSize matCBByteSize : Nat) (Event : UpdateEventArgs)
    (I J : Nat) (R : ℚ) (self : OTextureWaves) (F : SFrameResource)
    (materialCB : OUploadBuffer)
    (hF : self.Engine.FrameResources[self.Engine.CurrentFrameResources]? = some F)
    (hcb : F.MaterialCB = some materialCB)
    (hptr : ∀ q ∈ self.Engine.AllRenderItems,
      q.1 ∈ DrawnLayers → PointersValid self.Engine q.2) :
    ∃ r pre opaque_ tesselation alphaTested transparent waves,
      self.OnRender objectCBByteSize matCBByteSize Event I J R = some r ∧
      r.2 =
        pre ++
        [Command.SetPipelineState SPSOType.Opaque] ++ opaque_ ++
        [Command.SetPipelineState SPSOType.Tesselation] ++ tesselation ++
        [Command.SetPipelineState SPSOType.AlphaTested] ++ alphaTested ++
        [Command.SetPipelineState SPSOType.Transparent] ++ transparent ++
        [Command.SetPipelineState SPSOType.WavesRender] ++ waves ∧
      self.DrawRenderItems objectCBByteSize matCBByteSize
        (self.Engine.GetRenderItems SRenderLayer.Opaque) = some opaque_ ∧
      self.DrawRenderItems objectCBByteSize matCBByteSize
        (self.Engine.GetRenderItems SRenderLayer.Tesselation) = some tesselation ∧
      self.DrawRenderItems objectCBByteSize matCBByteSize
        (self.Engine.GetRenderItems SRenderLayer.AlphaTested) = some alphaTested ∧
      self.DrawRenderItems objectCBByteSize matCBByteSize
        (self.Engine.GetRenderItems SRenderLayer.Transparent) = some transparent ∧
      self.DrawRenderItems objectCBByteSize matCBByteSize
        (self.Engine.GetRenderItems SRenderLayer.Waves) = some waves ∧
      (∀ c ∈ pre, c.isDraw = false) ∧
      (∀ c ∈ opaque_ ++ tesselation ++ alphaTested ++ transparent ++ waves,
        c.isSetPipelineState = false) := by
  obtain ⟨dO, hO, nO⟩ := DrawRenderItems_layer objectCBByteSize matCBByteSize self F materialCB
    hF hcb hptr SRenderLayer.Opaque (by decide)
  obtain ⟨dT, hT, nT⟩ := DrawRenderItems_layer objectCBByteSize matCBByteSize self F materialCB
    hF hcb hptr SRenderLayer.Tesselation (by decide)
  obtain ⟨dA, hA, nA⟩ := DrawRenderItems_layer objectCBByteSize matCBByteSize self F materialCB
    hF hcb hptr SRenderLayer.AlphaTested (by decide)
  obtain ⟨dR, hR, nR⟩ := DrawRenderItems_layer objectCBByteSize matCBByteSize self F materialCB
    hF hcb hptr SRenderLayer.Transparent (by decide)
  obtain ⟨dW, hW, nW⟩ := DrawRenderItems_layer objectCBByteSize matCBByteSize self F materialCB
    hF hcb hptr SRenderLayer.Waves (by decide)
  have hsame : ∀ items, (self.UpdateWave Event.Timer I J R).1.DrawRenderItems objectCBByteSize
      matCBByteSize items = self.DrawRenderItems objectCBByteSize matCBByteSize items :=
    fun _ => rfl
  refine ⟨((self.UpdateWave Event.Timer I J R).1,
      [Command.SetGraphicsRootConstantBufferView 2 F.PassCB.GPUVirtualAddress] ++
        (self.UpdateWave Event.Timer I J R).2 ++
        [Command.SetGraphicsRootDescriptorTable 4
          (self.UpdateWave Event.Timer I J R).1.Waves.GetDisplacementMap] ++
        [Command.SetPipelineState SPSOType.Opaque] ++ dO ++
        [Command.SetPipelineState SPSOType.Tesselation] ++ dT ++
        [Command.SetPipelineState SPSOType.AlphaTested] ++ dA ++
        [Command.SetPipelineState SPSOType.Transparent] ++ dR ++
        [Command.SetPipelineState SPSOType.WavesRender] ++ dW),
    [Command.SetGraphicsRootConstantBufferView 2 F.PassCB.GPUVirtualAddress] ++
      (self.UpdateWave Event.Timer I J R).2 ++
      [Command.SetGraphicsRootDescriptorTable 4
        (self.UpdateWave Event.Timer I J R).1.Waves.GetDisplacementMap],
    dO, dT, dA, dR, dW, ?_, rfl, hO, hT, hA, hR, hW, ?_, ?_⟩
  · simp only [OTextureWaves.OnRender, hF, hsame, hO, hT, hA, hR, hW]
  · intro c hc
    simp only [List.mem_append, List.mem_singleton] at hc
    rcases hc with (rfl | hc) | rfl
    · rfl
    · exact UpdateWave_no_draw _ _ _ _ _ c hc
    · rfl
  · intro c hc
    simp only [List.mem_append] at hc
    rcases hc with (((hc | hc) | hc) | hc) | hc
    · exact nO c hc
    · exact nT c hc
    · exact nA c hc
    · exact nR c hc
    · exact nW c hc

theorem C8_draw_order_witness :
    demoApp.Engine.FrameResources[demoApp.Engine.CurrentFrameResources]? =
      some (demoFrameResource 65536) ∧
    (demoFrameResource 65536).MaterialCB = some (demoBuffer (65536 + 8192) 6 true) ∧
    (∀ q ∈ demoApp.Engine.AllRenderItems,
      q.1 ∈ DrawnLayers → PointersValid demoApp.Engine q.2) ∧
    ∃ r pre opaque_ tesselation alphaTested transparent waves,
      demoApp.OnRender 256 256 (demoFrame 1).Event 128 128 1 = some r ∧
      r.2 =
        pre ++
        [Command.SetPipelineState SPSOType.Opaque] ++ opaque_ ++
        [Command.SetPipelineState SPSOType.Tesselation] ++ tesselation ++
        [Command.SetPipelineState SPSOType.AlphaTested] ++ alphaTested ++
        [Command.SetPipelineState SPSOType.Transparent] ++ transparent ++
        [Command.SetPipelineState SPSOType.WavesRender] ++ waves ∧
      demoApp.DrawRenderItems 256 256
        (demoApp.Engine.GetRenderItems SRenderLayer.Opaque) = some opaque_ ∧
      demoApp.DrawRenderItems 256 256
        (demoApp.Engine.GetRenderItems SRenderLayer.Tesselation) = some tesselation ∧
      demoApp.DrawRenderItems 256 256
        (demoApp.Engine.GetRenderItems SRenderLayer.AlphaTested) = some alphaTested ∧
      demoApp.DrawRenderItems 256 256
        (demoApp.Engine.GetRenderItems SRenderLayer.Transparent) = some transparent ∧
      demoApp.DrawRenderItems 256 256
        (demoApp.Engine.GetRenderItems SRenderLayer.Waves) = some waves ∧
      (∀ c ∈ pre, c.isDraw = false) ∧
      (∀ c ∈ opaque_ ++ tesselation ++ alphaTested ++ transparent ++ waves,
        c.isSetPipelineState = false) :=
  ⟨rfl, rfl, by decide,
    C8_draw_order 256 256 (demoFrame 1).Event 128 128 1 demoApp (demoFrameResource 65536)
      (demoBuffer (65536 + 8192) 6 true) rfl rfl (by decide)⟩

/-! ## C10: the ping-pong rotation of `OGPUWave::Update` -/

/-- A stepping `Update` in closed form. -/
theorem Update_step_rounded (Gt : STimer) (RootSignature : SRootSignature) (PSO : SPSOType)
    (w : OGPUWave) (h : roundBinary32 (w.t + Gt.DeltaTime) ≥ roundBinary32 w.TimeStep) :
    w.Update Gt RootSignature PSO =
      ({ w with
          PrevSol := w.CurrSol, CurrSol := w.NextSol, NextSol := w.PrevSol,
          PrevSolSrv := w.CurrSolSrv, CurrSolSrv := w.NextSolSrv, NextSolSrv := w.PrevSolSrv,
          PrevSolUav := w.CurrSolUav, CurrSolUav := w.NextSolUav, NextSolUav := w.PrevSolUav,
          t := 0 },
        [Command.SetPipelineState PSO, Command.SetComputeRootSignature RootSignature,
         Command.SetComputeRoot32BitConstants 0 3
           [Const32.F32 (w.mK 0), Const32.F32 (w.mK 1), Const32.F32 (w.mK 2)] 0,
         Command.SetComputeRootDescriptorTable 1 w.PrevSolSrv,
         Command.SetComputeRootDescriptorTable 2 w.CurrSolUav,
         Command.SetComputeRootDescriptorTable 3 w.NextSolUav,
         Command.Dispatch (w.NumCols / 16) (w.NumRows / 16) 1,
         Command.ResourceBarrier w.NextSol D3D12_RESOURCE_STATES.UNORDERED_ACCESS
           D3D12_RESOURCE_STATES.GENERIC_READ]) := by
  simp only [OGPUWave.Update, h, if_true]
  rfl

/-- A sum that reaches the time step before it is rounded reaches it afterwards:
the `Update` steps. -/
theorem Update_step (Gt : STimer) (RootSignature : SRootSignature) (PSO : SPSOType)
    (w : OGPUWave) (h : w.t + Gt.DeltaTime ≥ w.TimeStep) :
    w.Update Gt RootSignature PSO =
      ({ w with
          PrevSol := w.CurrSol, CurrSol := w.NextSol, NextSol := w.PrevSol,
          PrevSolSrv := w.CurrSolSrv, CurrSolSrv := w.NextSolSrv, NextSolSrv := w.PrevSolSrv,
          PrevSolUav := w.CurrSolUav, CurrSolUav := w.NextSolUav, NextSolUav := w.PrevSolUav,
          t := 0 },
        [Command.SetPipelineState PSO, Command.SetComputeRootSignature RootSignature,
         Command.SetComputeRoot32BitConstants 0 3
           [Const32.F32 (w.mK 0), Const32.F32 (w.mK 1), Const32.F32 (w.mK 2)] 0,
         Command.SetComputeRootDescriptorTable 1 w.PrevSolSrv,
         Command.SetComputeRootDescriptorTable 2 w.CurrSolUav,
         Command.SetComputeRootDescriptorTable 3 w.NextSolUav,
         Command.Dispatch (w.NumCols / 16) (w.NumRows / 16) 1,
         Command.ResourceBarrier w.NextSol D3D12_RESOURCE_STATES.UNORDERED_ACCESS
           D3D12_RESOURCE_STATES.GENERIC_READ]) :=
  Update_step_rounded Gt RootSignature PSO w (roundBinary32_mono h)

/-- An `Update` that only accumulates time, in closed form. -/
theorem Update_idle (Gt : STimer) (RootSignature : SRootSignature) (PSO : SPSOType)
    (w : OGPUWave) (h : ¬ roundBinary32 (w.t + Gt.DeltaTime) ≥ roundBinary32 w.TimeStep) :
    w.Update Gt RootSignature PSO =
      ({ w with t := roundBinary32 (w.t + Gt.DeltaTime) },
        [Command.SetPipelineState PSO, Command.SetComputeRootSignature RootSignature]) := by
  simp only [OGPUWave.Update, h, if_false]

/-- The constructor completes exactly under `Constructible`, with the result in closed
form. -/
theorem Constructor_eq (device : ID3D12Device) (M N : Int) (dx dt speed damping : ℚ)
    (h : Constructible device M N) :
    OGPUWave.Constructor device M N dx dt speed damping =
      some
        ({ NumRows := toUInt32 M
           NumCols := toUInt32 N
           VertexCount := toUInt32 (M * N)
           TriangleCount := toUInt32 ((M - 1) * (N - 1) * 2)
           mK := ![(damping * dt - 2) / (damping * dt + 2),
                   (4 - 8 * ((speed * speed) * (dt * dt) / (dx * dx))) / (damping * dt + 2),
                   (2 * ((speed * speed) * (dt * dt) / (dx * dx))) / (damping * dt + 2)]
           TimeStep := dt
           SpatialStep := dx
           PrevSolSrv := 0, CurrSolSrv := 0, NextSolSrv := 0
           PrevSolUav := 0, CurrSolUav := 0, NextSolUav := 0
           PrevSol := device.NextResource
           CurrSol := device.NextResource + 1
           NextSol := device.NextResource + 2
           t := 0
           PrevUploadBuffer := device.NextResource + 3
           CurrUploadBuffer := device.NextResource + 4 },
         { device with NextResource := device.NextResource + 5 },
         [Command.ResourceBarrier device.NextResource D3D12_RESOURCE_STATES.COMMON
            D3D12_RESOURCE_STATES.COPY_DEST,
          Command.UpdateSubresources device.NextResource (device.NextResource + 3) 0 0 1
            (toUInt32 N * 4) (toUInt32 N * 4 * toUInt32 M),
          Command.ResourceBarrier device.NextResource D3D12_RESOURCE_STATES.COPY_DEST
            D3D12_RESOURCE_STATES.UNORDERED_ACCESS,
          Command.ResourceBarrier (device.NextResource + 1) D3D12_RESOURCE_STATES.COMMON
            D3D12_RESOURCE_STATES.COPY_DEST,
          Command.UpdateSubresources (device.NextResource + 1) (device.NextResource + 4) 0 0 1
            (toUInt32 N * 4) (toUInt32 N * 4 * toUInt32 M),
          Command.ResourceBarrier (device.NextResource + 1) D3D12_RESOURCE_STATES.COPY_DEST
            D3D12_RESOURCE_STATES.GENERIC_READ,
          Command.ResourceBarrier (device.NextResource + 2) D3D12_RESOURCE_STATES.COMMON
            D3D12_RESOURCE_STATES.UNORDERED_ACCESS]) := by
  obtain ⟨hint, htex, hbuf, hdata⟩ := h
  have hdata2 : ¬ toUInt32 M * toUInt32 N ≥ 2 ^ 32 := by omega
  simp only [OGPUWave.Constructor, if_pos hint, OGPUWave.BuildResources,
    ID3D12Device.CreateCommittedResource, htex, hbuf, if_true, if_neg hdata2]

theorem demoDevice_constructible : Constructible demoDevice 256 256 := by decide

/-- C11, the code at the failing input.  The wave simulator of `Initialize` is built
on a device that accepts every creation; `BuildResources` leaves Prev in
UNORDERED_ACCESS, Curr in GENERIC_READ and Next in UNORDERED_ACCESS.  One `Update`
of 0.03 s, not preceded by a `Disturb`, steps (it rotates and resets `t`), and the
logical states given by the recorded transitions are then Prev: GENERIC_READ,
Curr: GENERIC_READ, Next: UNORDERED_ACCESS: the old Curr became Prev without a
transition.  Every transition of the build names the state its resource is in; over
three such updates one does not (the third names UNORDERED_ACCESS for a texture
left in GENERIC_READ). -/
theorem C11_first_step_leaves_prev_generic_read :
    ∃ w device cmds,
      InitializeWaves demoDevice = some (w, device, cmds) ∧
      (trackStates createdStates cmds w.PrevSol,
        trackStates createdStates cmds w.CurrSol,
        trackStates createdStates cmds w.NextSol) =
        (D3D12_RESOURCE_STATES.UNORDERED_ACCESS, D3D12_RESOURCE_STATES.GENERIC_READ,
          D3D12_RESOURCE_STATES.UNORDERED_ACCESS) ∧
      (RunWave [WaveCall.Update demoTimer] w).1.t = 0 ∧
      (RunWave [WaveCall.Update demoTimer] w).1.PrevSol = w.CurrSol ∧
      (RunWave [WaveCall.Update demoTimer] w).1.CurrSol = w.NextSol ∧
      (RunWave [WaveCall.Update demoTimer] w).1.NextSol = w.PrevSol ∧
      (trackStates (trackStates createdStates cmds) (RunWave [WaveCall.Update demoTimer] w).2
          (RunWave [WaveCall.Update demoTimer] w).1.PrevSol,
        trackStates (trackStates createdStates cmds) (RunWave [WaveCall.Update demoTimer] w).2
          (RunWave [WaveCall.Update demoTimer] w).1.CurrSol,
        trackStates (trackStates createdStates cmds) (RunWave [WaveCall.Update demoTimer] w).2
          (RunWave [WaveCall.Update demoTimer] w).1.NextSol) =
        (D3D12_RESOURCE_STATES.GENERIC_READ, D3D12_RESOURCE_STATES.GENERIC_READ,
          D3D12_RESOURCE_STATES.UNORDERED_ACCESS) ∧
      barriersMatch createdStates cmds = true ∧
      barriersMatch (trackStates createdStates cmds)
        (RunWave [WaveCall.Update demoTimer, WaveCall.Update demoTimer,
          WaveCall.Update demoTimer] w).2 = false := by
  refine ⟨_, _, _, Constructor_eq demoDevice 256 256 _ _ _ _ demoDevice_constructible, ?_⟩
  have hstep : ∀ w : OGPUWave, w.t = 0 → w.TimeStep = 3 / 100 →
      w.t + demoTimer.DeltaTime ≥ w.TimeStep := by
    intro w h0 h1
    rw [h0, h1]
    simp [demoTimer]
  simp only [RunWave]
  rw [Update_step _ _ _ _ (hstep _ rfl rfl)]
  rw [Update_step _ _ _ _ (hstep _ rfl rfl), Update_step _ _ _ _ (hstep _ rfl rfl)]
  simp [trackStates, createdStates, demoDevice, barriersMatch]

/-! ## C12: the descriptor handles follow the textures -/

theorem ViewAt_append_singleton (views : List ViewRecord) (v : ViewRecord) (Handle : Nat) :
    ViewAt (views ++ [v]) Handle =
      if v.Handle = Handle then some v else ViewAt views Handle := by
  induction views with
  | nil => simp [ViewAt]
  | cons x xs ih =>
    rw [List.cons_append, ViewAt, ih]
    by_cases h : v.Handle = Handle
    · simp [h]
    · simp [h, ViewAt]

/-- A stepping or idle `Update` keeps the handles aligned with the textures. -/
theorem Update_aligned (descriptor : SRenderObjectDescriptor) (device : ID3D12Device)
    (Gt : STimer) (RootSignature : SRootSignature) (PSO : SPSOType) (w : OGPUWave)
    (h : HandlesAligned descriptor device w) :
    HandlesAligned descriptor device (w.Update Gt RootSignature PSO).1 := by
  obtain ⟨h1, h2, h3, h4, h5, h6⟩ := h
  by_cases hstep : roundBinary32 (w.t + Gt.DeltaTime) ≥ roundBinary32 w.TimeStep
  · rw [Update_step_rounded _ _ _ _ hstep]
    exact ⟨h2, h3, h1, h5, h6, h4⟩
  · rw [Update_idle _ _ _ _ hstep]
    exact ⟨h1, h2, h3, h4, h5, h6⟩

theorem RunWave_aligned (descriptor : SRenderObjectDescriptor) (device : ID3D12Device)
    (calls : List WaveCall) (w : OGPUWave) (h : HandlesAligned descriptor device w) :
    HandlesAligned descriptor device (RunWave calls w).1 := by
  induction calls generalizing w with
  | nil => exact h
  | cons c rest ih =>
    cases c with
    | Disturb I J Magnitude => exact ih w h
    | Update Gt => exact ih _ (Update_aligned descriptor device Gt _ _ w h)

theorem BuildDescriptors_eq (descriptor : SRenderObjectDescriptor) (device : ID3D12Device)
    (w : OGPUWave) (h : SixSlots descriptor) :
    w.BuildDescriptors (some descriptor) device =
      ({ w with
          PrevSolSrv := descriptor.GPUSRVDescriptor + 0 * descriptor.DSVSRVUAVDescriptorSize
          CurrSolSrv := descriptor.GPUSRVDescriptor + 1 * descriptor.DSVSRVUAVDescriptorSize
          NextSolSrv := descriptor.GPUSRVDescriptor + 2 * descriptor.DSVSRVUAVDescriptorSize
          PrevSolUav := descriptor.GPUSRVDescriptor + 3 * descriptor.DSVSRVUAVDescriptorSize
          CurrSolUav := descriptor.GPUSRVDescriptor + 4 * descriptor.DSVSRVUAVDescriptorSize
          NextSolUav := descriptor.GPUSRVDescriptor + 5 * descriptor.DSVSRVUAVDescriptorSize },
        { device with
          Views := device.Views ++
            [{ Handle := descriptor.CPUSRVescriptor + 0 * descriptor.DSVSRVUAVDescriptorSize
               Kind := ViewKind.SRV, Resource := w.PrevSol },
             { Handle := descriptor.CPUSRVescriptor + 1 * descriptor.DSVSRVUAVDescriptorSize
               Kind := ViewKind.SRV, Resource := w.CurrSol },
             { Handle := descriptor.CPUSRVescriptor + 2 * descriptor.DSVSRVUAVDescriptorSize
               Kind := ViewKind.SRV, Resource := w.NextSol },
             { Handle := descriptor.CPUSRVescriptor + 3 * descriptor.DSVSRVUAVDescriptorSize
               Kind := ViewKind.UAV, Resource := w.PrevSol },
             { Handle := descriptor.CPUSRVescriptor + 4 * descriptor.DSVSRVUAVDescriptorSize
               Kind := ViewKind.UAV, Resource := w.CurrSol },
             { Handle := descriptor.CPUSRVescriptor + 5 * descriptor.DSVSRVUAVDescriptorSize
               Kind := ViewKind.UAV, Resource := w.NextSol }] }) := by
  obtain ⟨hs, hc, hg⟩ := h
  have e : ∀ (p k : Nat), p + 5 * descriptor.DSVSRVUAVDescriptorSize < 2 ^ 64 → k < 5 →
      OffsetHandle (p + k * descriptor.DSVSRVUAVDescriptorSize) 1
          descriptor.DSVSRVUAVDescriptorSize =
        p + (k + 1) * descriptor.DSVSRVUAVDescriptorSize := by
    intro p k hp hk
    unfold OffsetHandle
    have h1 : (k + 1) * descriptor.DSVSRVUAVDescriptorSize ≤
        5 * descriptor.DSVSRVUAVDescriptorSize := Nat.mul_le_mul_right _ (by omega)
    have h2 : (k + 1) * descriptor.DSVSRVUAVDescriptorSize =
        k * descriptor.DSVSRVUAVDescriptorSize + descriptor.DSVSRVUAVDescriptorSize := by ring
    rw [Nat.one_mul, Nat.mod_eq_of_lt (by omega)]
    omega
  have e0 : ∀ p : Nat, p + 5 * descriptor.DSVSRVUAVDescriptorSize < 2 ^ 64 →
      OffsetHandle p 1 descriptor.DSVSRVUAVDescriptorSize =
        p + 1 * descriptor.DSVSRVUAVDescriptorSize := by
    intro p hp
    have := e p 0 hp (by omega)
    simpa using this
  simp only [OGPUWave.BuildDescriptors, ID3D12Device.CreateView, e0 _ hc, e0 _ hg,
    e _ 1 hc (by omega), e _ 2 hc (by omega), e _ 3 hc (by omega), e _ 4 hc (by omega),
    e _ 1 hg (by omega), e _ 2 hg (by omega), e _ 3 hg (by omega), e _ 4 hg (by omega),
    List.append_assoc, List.singleton_append, List.cons_append, List.nil_append, Nat.zero_mul,
    Nat.add_zero]

theorem ViewAt_append (xs ys : List ViewRecord) (Handle : Nat) :
    ViewAt (xs ++ ys) Handle =
      match ViewAt ys Handle with
      | some v => some v
      | none => ViewAt xs Handle := by
  induction xs with
  | nil =>
    simp only [List.nil_append, ViewAt]
    cases ViewAt ys Handle <;> rfl
  | cons x rest ih =>
    rw [List.cons_append, ViewAt, ih]
    cases hy : ViewAt ys Handle with
    | some v => rfl
    | none => simp [ViewAt]

/-- The six views `BuildDescriptors` writes are the contents of their slots. -/
theorem ViewAt_six (views : List ViewRecord) (c s : Nat) (hs : 0 < s)
    (v0 v1 v2 v3 v4 v5 : ViewRecord)
    (h0 : v0.Handle = c + 0 * s) (h1 : v1.Handle = c + 1 * s) (h2 : v2.Handle = c + 2 * s)
    (h3 : v3.Handle = c + 3 * s) (h4 : v4.Handle = c + 4 * s) (h5 : v5.Handle = c + 5 * s) :
    ViewAt (views ++ [v0, v1, v2, v3, v4, v5]) (c + 0 * s) = some v0 ∧
    ViewAt (views ++ [v0, v1, v2, v3, v4, v5]) (c + 1 * s) = some v1 ∧
    ViewAt (views ++ [v0, v1, v2, v3, v4, v5]) (c + 2 * s) = some v2 ∧
    ViewAt (views ++ [v0, v1, v2, v3, v4, v5]) (c + 3 * s) = some v3 ∧
    ViewAt (views ++ [v0, v1, v2, v3, v4, v5]) (c + 4 * s) = some v4 ∧
    ViewAt (views ++ [v0, v1, v2, v3, v4, v5]) (c + 5 * s) = some v5 := by
  have n01 : c + 0 * s ≠ c + 1 * s := by omega
  have n02 : c + 0 * s ≠ c + 2 * s := by omega
  have n03 : c + 0 * s ≠ c + 3 * s := by omega
  have n04 : c + 0 * s ≠ c + 4 * s := by omega
  have n05 : c + 0 * s ≠ c + 5 * s := by omega
  have n12 : c + 1 * s ≠ c + 2 * s := by omega
  have n13 : c + 1 * s ≠ c + 3 * s := by omega
  have n14 : c + 1 * s ≠ c + 4 * s := by omega
  have n15 : c + 1 * s ≠ c + 5 * s := by omega
  have n23 : c + 2 * s ≠ c + 3 * s := by omega
  have n24 : c + 2 * s ≠ c + 4 * s := by omega
  have n25 : c + 2 * s ≠ c + 5 * s := by omega
  have n34 : c + 3 * s ≠ c + 4 * s := by omega
  have n35 : c + 3 * s ≠ c + 5 * s := by omega
  have n45 : c + 4 * s ≠ c + 5 * s := by omega
  refine ⟨?_, ?_, ?_, ?_, ?_, ?_⟩ <;>
    simp only [ViewAt_append, ViewAt, h0, h1, h2, h3, h4, h5, n01, n02, n03, n04, n05, n12, n13,
      n14, n15, n23, n24, n25, n34, n35, n45, n01.symm, n02.symm, n03.symm, n04.symm, n05.symm,
      n12.symm, n13.symm, n14.symm, n15.symm, n23.symm, n24.symm, n25.symm, n34.symm, n35.symm,
      n45.symm, if_true, if_false]

/-- C12 (wave rotation parity, handles).  When the descriptor cast succeeds and the
heap has room for six slots, `BuildDescriptors` writes the six views at the CPU
handles `base + k * stride`, k = 0..5, in the order SRV(Prev), SRV(Curr),
SRV(Next), UAV(Prev), UAV(Curr), UAV(Next), and stores in PrevSolSrv .. NextSolUav
the GPU handles of the same slots; after any sequence of `Update` and `Disturb`
calls each of the six handles is the handle of the slot holding the view of its
kind of the texture then held in the same role. -/
theorem C12_handles_follow_textures (descriptor : SRenderObjectDescriptor)
    (device : ID3D12Device) (w : OGPUWave) (calls : List WaveCall)
    (h : SixSlots descriptor) :
    (w.BuildDescriptors (some descriptor) device).2.Views =
      device.Views ++
        [{ Handle := descriptor.CPUSRVescriptor + 0 * descriptor.DSVSRVUAVDescriptorSize
           Kind := ViewKind.SRV, Resource := w.PrevSol },
         { Handle := descriptor.CPUSRVescriptor + 1 * descriptor.DSVSRVUAVDescriptorSize
           Kind := ViewKind.SRV, Resource := w.CurrSol },
         { Handle := descriptor.CPUSRVescriptor + 2 * descriptor.DSVSRVUAVDescriptorSize
           Kind := ViewKind.SRV, Resource := w.NextSol },
         { Handle := descriptor.CPUSRVescriptor + 3 * descriptor.DSVSRVUAVDescriptorSize
           Kind := ViewKind.UAV, Resource := w.PrevSol },
         { Handle := descriptor.CPUSRVescriptor + 4 * descriptor.DSVSRVUAVDescriptorSize
           Kind := ViewKind.UAV, Resource := w.CurrSol },
         { Handle := descriptor.CPUSRVescriptor + 5 * descriptor.DSVSRVUAVDescriptorSize
           Kind := ViewKind.UAV, Resource := w.NextSol }] ∧
    (w.BuildDescriptors (some descriptor) device).1.PrevSolSrv =
      descriptor.GPUSRVDescriptor + 0 * descriptor.DSVSRVUAVDescriptorSize ∧
    (w.BuildDescriptors (some descriptor) device).1.CurrSolSrv =
      descriptor.GPUSRVDescriptor + 1 * descriptor.DSVSRVUAVDescriptorSize ∧
    (w.BuildDescriptors (some descriptor) device).1.NextSolSrv =
      descriptor.GPUSRVDescriptor + 2 * descriptor.DSVSRVUAVDescriptorSize ∧
    (w.BuildDescriptors (some descriptor) device).1.PrevSolUav =
      descriptor.GPUSRVDescriptor + 3 * descriptor.DSVSRVUAVDescriptorSize ∧
    (w.BuildDescriptors (some descriptor) device).1.CurrSolUav =
      descriptor.GPUSRVDescriptor + 4 * descriptor.DSVSRVUAVDescriptorSize ∧
    (w.BuildDescriptors (some descriptor) device).1.NextSolUav =
      descriptor.GPUSRVDescriptor + 5 * descriptor.DSVSRVUAVDescriptorSize ∧
    (w.BuildDescriptors (some descriptor) device).1.PrevSol = w.PrevSol ∧
    (w.BuildDescriptors (some descriptor) device).1.CurrSol = w.CurrSol ∧
    (w.BuildDescriptors (some descriptor) device).1.NextSol = w.NextSol ∧
    HandlesAligned descriptor (w.BuildDescriptors (some descriptor) device).2
      (RunWave calls (w.BuildDescriptors (some descriptor) device).1).1 := by
  rw [BuildDescriptors_eq descriptor device w h]
  refine ⟨rfl, rfl, rfl, rfl, rfl, rfl, rfl, rfl, rfl, rfl, ?_⟩
  apply RunWave_aligned
  obtain ⟨v0, v1, v2, v3, v4, v5⟩ :=
    ViewAt_six device.Views descriptor.CPUSRVescriptor descriptor.DSVSRVUAVDescriptorSize h.1
      ⟨_, ViewKind.SRV, w.PrevSol⟩ ⟨_, ViewKind.SRV, w.CurrSol⟩ ⟨_, ViewKind.SRV, w.NextSol⟩
      ⟨_, ViewKind.UAV, w.PrevSol⟩ ⟨_, ViewKind.UAV, w.CurrSol⟩ ⟨_, ViewKind.UAV, w.NextSol⟩
      rfl rfl rfl rfl rfl rfl
  exact ⟨⟨⟨0, by omega⟩, rfl, v0⟩, ⟨⟨1, by omega⟩, rfl, v1⟩, ⟨⟨2, by omega⟩, rfl, v2⟩,
    ⟨⟨3, by omega⟩, rfl, v3⟩, ⟨⟨4, by omega⟩, rfl, v4⟩, ⟨⟨5, by omega⟩, rfl, v5⟩⟩

theorem C12_handles_follow_textures_witness :
    SixSlots demoDescriptor ∧
    HandlesAligned demoDescriptor (demoWaves.BuildDescriptors (some demoDescriptor) demoDevice).2
      (RunWave [WaveCall.Update demoTimer, WaveCall.Disturb 5 7 (1 / 2),
          WaveCall.Update demoTimer]
        (demoWaves.BuildDescriptors (some demoDescriptor) demoDevice).1).1 :=
  ⟨by decide,
    (C12_handles_follow_textures demoDescriptor demoDevice demoWaves
      [WaveCall.Update demoTimer, WaveCall.Disturb 5 7 (1 / 2), WaveCall.Update demoTimer]
      (by decide)).2.2.2.2.2.2.2.2.2.2⟩

/-! ## C13, C14: construction of the wave simulator -/

/-- C13 (wave constants).  For every damping `c`, speed `s`, `dt` and `dx` with
`dx ≠ 0` and `c * dt + 2 ≠ 0`, a constructor call that completes stores
`K[0] = (c*dt - 2)/d`, `K[1] = (4 - 8e)/d`, `K[2] = 2e/d` with `d = c*dt + 2` and
`e = s^2 * dt^2 / dx^2` over exact rationals (so `K[0] * d = c*dt - 2`,
`K[1] * d * dx^2 = 4 dx^2 - 8 s^2 dt^2`, `K[2] * d * dx^2 = 2 s^2 dt^2`), keeps `dt`
as the time step and `dx` as the spatial step; the demo calls it with
`(dx, dt, speed, damping) = (0.25, 0.03, 2.0, 0.2)` on a 256 x 256 grid. -/
theorem C13_wave_constants (device : ID3D12Device) (M N : Int) (dx dt s c : ℚ)
    (hdx : dx ≠ 0) (hd : c * dt + 2 ≠ 0) (hdev : Constructible device M N) :
    (∃ w device1 cmds,
      OGPUWave.Constructor device M N dx dt s c = some (w, device1, cmds) ∧
      w.mK 0 = (c * dt - 2) / (c * dt + 2) ∧
      w.mK 1 = (4 - 8 * (s ^ 2 * dt ^ 2 / dx ^ 2)) / (c * dt + 2) ∧
      w.mK 2 = 2 * (s ^ 2 * dt ^ 2 / dx ^ 2) / (c * dt + 2) ∧
      w.mK 0 * (c * dt + 2) = c * dt - 2 ∧
      w.mK 1 * (c * dt + 2) * dx ^ 2 = 4 * dx ^ 2 - 8 * (s ^ 2 * dt ^ 2) ∧
      w.mK 2 * (c * dt + 2) * dx ^ 2 = 2 * (s ^ 2 * dt ^ 2) ∧
      w.TimeStep = dt ∧ w.SpatialStep = dx) ∧
    InitializeWaves device = OGPUWave.Constructor device 256 256 (1 / 4) (3 / 100) 2 (1 / 5) := by
  refine ⟨⟨_, _, _, Constructor_eq device M N dx dt s c hdev, ?_⟩, rfl⟩
  have hdx2 : dx ^ 2 ≠ 0 := pow_ne_zero 2 hdx
  have k2 : ∀ a b d : ℚ, (![a, b, d] : Fin 3 → ℚ) 2 = d := fun _ _ _ => rfl
  refine ⟨?_, ?_, ?_, ?_, ?_, ?_, rfl, rfl⟩
  · simp only [Matrix.cons_val_zero]
  · simp only [Matrix.cons_val_one, Matrix.head_cons]
    ring
  · dsimp only
    rw [k2]
    ring
  · simp only [Matrix.cons_val_zero]
    field_simp
  · simp only [Matrix.cons_val_one, Matrix.head_cons]
    field_simp
    ring
  · dsimp only
    rw [k2]
    field_simp
    ring

theorem C13_wave_constants_witness :
    ((1 / 4 : ℚ) ≠ 0 ∧ (1 / 5 : ℚ) * (3 / 100) + 2 ≠ 0 ∧ Constructible demoDevice 256 256) ∧
    ∃ w device1 cmds,
      InitializeWaves demoDevice = some (w, device1, cmds) ∧
      w.mK 0 = (-997) / 1003 ∧ w.mK 1 = 8848 / 5015 ∧ w.mK 2 = 288 / 5015 ∧
      w.TimeStep = 3 / 100 ∧ w.SpatialStep = 1 / 4 := by
  have h := C13_wave_constants demoDevice 256 256 (1 / 4) (3 / 100) 2 (1 / 5)
    (by norm_num) (by norm_num) (by decide)
  refine ⟨⟨by norm_num, by norm_num, by decide⟩, ?_⟩
  obtain ⟨⟨w, device1, cmds, hw, k0, k1, k2, -, -, -, ht, hs⟩, -⟩ := h
  refine ⟨w, device1, cmds, hw, ?_, ?_, ?_, ht, hs⟩
  · rw [k0]; norm_num
  · rw [k1]; norm_num
  · rw [k2]; norm_num

/-- C14, counterexample to the claim as stated.  On a device that creates the textures,
constructing a 17 x 17 wave simulator (17 is not a multiple of 16) completes
normally, with 17 rows and 17 columns. -/
theorem C14_counterexample :
    ¬ (16 : Int) ∣ 17 ∧
    ∃ w device cmds,
      OGPUWave.Constructor demoDevice 17 17 (1 / 4) (3 / 100) 2 (1 / 5) =
        some (w, device, cmds) ∧
      w.NumRows = 17 ∧ w.NumCols = 17 := by
  refine ⟨by decide, _, _, _, Constructor_eq demoDevice 17 17 _ _ _ _ (by decide), ?_, ?_⟩
  · decide
  · decide

/-- C14, amended.  The constructor makes no divisibility check: it completes normally
whenever the `int32_t` products do not overflow and the device creates the three
textures and the two upload buffers, whatever the remainders of `M` and `N` modulo
16, and the wave then has `M` rows and `N` columns (as `UINT`).  A stepping `Update`
(the `float` sum of `t` and the frame delta reaches `TimeStep`) dispatches `N / 16` by
`M / 16` groups, rounded down. -/
theorem C14_construction_ignores_divisibility (device : ID3D12Device) (M N : Int)
    (dx dt speed damping : ℚ) (Gt : STimer) (RootSignature : SRootSignature) (PSO : SPSOType)
    (h : Constructible device M N) :
    ∃ w device1 cmds,
      OGPUWave.Constructor device M N dx dt speed damping = some (w, device1, cmds) ∧
      w.NumRows = toUInt32 M ∧ w.NumCols = toUInt32 N ∧
      (if roundBinary32 (w.t + Gt.DeltaTime) ≥ roundBinary32 w.TimeStep then
        (w.Update Gt RootSignature PSO).2.filter Command.isDispatch =
          [Command.Dispatch (toUInt32 N / 16) (toUInt32 M / 16) 1]
      else (w.Update Gt RootSignature PSO).2.filter Command.isDispatch = []) := by
  refine ⟨_, _, _, Constructor_eq device M N dx dt speed damping h, rfl, rfl, ?_⟩
  split
  · rename_i hstep
    rw [Update_step_rounded _ _ _ _ hstep]
    rfl
  · rename_i hstep
    rw [Update_idle _ _ _ _ hstep]
    rfl

theorem C14_construction_ignores_divisibility_witness :
    Constructible demoDevice 17 40 ∧
    ∃ w device1 cmds,
      OGPUWave.Constructor demoDevice 17 40 (1 / 4) (3 / 100) 2 (1 / 5) =
        some (w, device1, cmds) ∧
      w.NumRows = toUInt32 17 ∧ w.NumCols = toUInt32 40 ∧
      (if roundBinary32 (w.t + demoTimer.DeltaTime) ≥ roundBinary32 w.TimeStep then
        (w.Update demoTimer SRootSignature.Waves SPSOType.WavesUpdate).2.filter
            Command.isDispatch =
          [Command.Dispatch (toUInt32 40 / 16) (toUInt32 17 / 16) 1]
      else (w.Update demoTimer SRootSignature.Waves SPSOType.WavesUpdate).2.filter
          Command.isDispatch = []) :=
  ⟨by decide,
    C14_construction_ignores_divisibility demoDevice 17 40 (1 / 4) (3 / 100) 2 (1 / 5) demoTimer
      SRootSignature.Waves SPSOType.WavesUpdate (by decide)⟩

/-! ## C15, C16: `Disturb` and `Update` -/

/-- C15 (Disturb).  For every `I`, `J` and `Magnitude`, `Disturb` records: the
pipeline state and root signature given, `Magnitude` as one root constant at offset
3 of root parameter 0, `J` then `I` as two root constants at offsets 4 and 5 (no
other root constant, in particular none of offsets 0..2, is written), root parameter
3 bound to `CurrSolUav`, then the transition of `CurrSol` from GENERIC_READ to
UNORDERED_ACCESS and last one `Dispatch(1, 1, 1)`, the only barrier and the only
dispatch.  The wave object is left as it was: `UpdateWave` passes to `Update` the
same resources and handles whether or not it called `Disturb`. -/
theorem C15_Disturb (RootSignature : SRootSignature) (PSO : SPSOType) (I J : Nat)
    (Magnitude : ℚ) (w : OGPUWave) (consts : Nat → Nat → Option Const32)
    (tables : Nat → Option Nat) (calls : List WaveCall) (Timer : STimer) (R : ℚ)
    (self : OTextureWaves) :
    rootConstants consts (w.Disturb RootSignature PSO I J Magnitude) 0 3 =
      some (Const32.F32 Magnitude) ∧
    rootConstants consts (w.Disturb RootSignature PSO I J Magnitude) 0 4 =
      some (Const32.U32 J) ∧
    rootConstants consts (w.Disturb RootSignature PSO I J Magnitude) 0 5 =
      some (Const32.U32 I) ∧
    (∀ p o : Nat, (p = 0 ∧ 3 ≤ o ∧ o ≤ 5) ∨
      rootConstants consts (w.Disturb RootSignature PSO I J Magnitude) p o = consts p o) ∧
    computeTables tables (w.Disturb RootSignature PSO I J Magnitude) 3 = some w.CurrSolUav ∧
    (∀ p : Nat, p = 3 ∨
      computeTables tables (w.Disturb RootSignature PSO I J Magnitude) p = tables p) ∧
    (∃ pre,
      w.Disturb RootSignature PSO I J Magnitude =
        pre ++
          [Command.ResourceBarrier w.CurrSol D3D12_RESOURCE_STATES.GENERIC_READ
             D3D12_RESOURCE_STATES.UNORDERED_ACCESS,
           Command.Dispatch 1 1 1] ∧
      pre.filter (fun c => c.isDispatch || c.isResourceBarrier) = []) ∧
    (RunWave (WaveCall.Disturb I J Magnitude :: calls) w).1 = (RunWave calls w).1 ∧
    (self.UpdateWave Timer I J R).1.Waves =
      (self.Waves.Update Timer SRootSignature.Waves SPSOType.WavesUpdate).1 := by
  refine ⟨?_, ?_, ?_, ?_, ?_, ?_,
    ⟨[Command.SetPipelineState PSO, Command.SetComputeRootSignature RootSignature,
      Command.SetComputeRoot32BitConstants 0 1 [Const32.F32 Magnitude] 3,
      Command.SetComputeRoot32BitConstants 0 2 [Const32.U32 J, Const32.U32 I] 4,
      Command.SetComputeRootDescriptorTable 3 w.CurrSolUav], rfl, rfl⟩, rfl, ?_⟩
  · simp [OGPUWave.Disturb, rootConstants]
  · simp [OGPUWave.Disturb, rootConstants]
  · simp [OGPUWave.Disturb, rootConstants]
  · intro p o
    by_cases h : p = 0 ∧ 3 ≤ o ∧ o ≤ 5
    · exact Or.inl h
    · right
      have h3 : ¬ (p = 0 ∧ 3 ≤ o ∧ o < 3 + 1) := by omega
      have h4 : ¬ (p = 0 ∧ 4 ≤ o ∧ o < 4 + 2) := by omega
      simp only [OGPUWave.Disturb, rootConstants, if_neg h3, if_neg h4]
  · simp [OGPUWave.Disturb, computeTables]
  · intro p
    by_cases h : p = 3
    · exact Or.inl h
    · right
      simp only [OGPUWave.Disturb, computeTables, if_neg h]
  · unfold OTextureWaves.UpdateWave
    rfl

/-- An `Update` whose exact sum stays below `TimeStep` while the `float` sum reaches
it: `t = 16106126 * 2^-29`, a frame delta of `3 * 2^-31` and `TimeStep = 0.03f`.  The
call steps. -/
theorem Update_steps_on_rounded_sum (Gt : STimer) (RootSignature : SRootSignature)
    (PSO : SPSOType) (w : OGPUWave) (ht : w.t = 16106126 / 2 ^ 29)
    (hdt : Gt.DeltaTime = 3 / 2 ^ 31) (hts : w.TimeStep = 16106127 / 2 ^ 29) :
    w.t + Gt.DeltaTime < w.TimeStep ∧
    (w.Update Gt RootSignature PSO).2.filter Command.isDispatch =
      [Command.Dispatch (w.NumCols / 16) (w.NumRows / 16) 1] ∧
    (w.Update Gt RootSignature PSO).1.t = 0 := by
  obtain ⟨h1, h2, h3⟩ := roundBinary32_sum_example
  have hstep : roundBinary32 (w.t + Gt.DeltaTime) ≥ roundBinary32 w.TimeStep := by
    rw [ht, hdt, hts, h2, h3]
  rw [Update_step_rounded _ _ _ _ hstep]
  exact ⟨by rw [ht, hdt, hts]; exact h1, rfl, rfl⟩

/-- C16 (Update).  For a wave whose `TimeStep` holds a `float` and a sum within the
range of `float`: `Update` adds the frame delta to `t` (a `float` sum, rounded to
binary32) and always records the pipeline state and the root signature first.  When
the sum reaches `TimeStep` it steps, recording after these two, in this order and
nothing else: the three constants `mK` at offsets 0..2 of root parameter 0, tables
1, 2, 3 bound to the old `PrevSolSrv`, `CurrSolUav`, `NextSolUav`, one dispatch of
`NumCols / 16` by `NumRows / 16` groups, and one transition (the new Curr from
UNORDERED_ACCESS to GENERIC_READ); it rotates the resources and handles and leaves
`t = 0`.  Otherwise it records no dispatch and no barrier, sets no root constant or
table, leaves the resources and handles as they were and keeps the sum in `t`.  The
dispatch is recorded if and only if the sum reaches `TimeStep`. -/
theorem C16_Update (Gt : STimer) (RootSignature : SRootSignature) (PSO : SPSOType)
    (w : OGPUWave) (consts : Nat → Nat → Option Const32) (tables : Nat → Option Nat)
    (hts : roundBinary32 w.TimeStep = w.TimeStep)
    (_hrange : |w.t + Gt.DeltaTime| ≤ FLT_MAX) :
    (((w.Update Gt RootSignature PSO).2.filter Command.isDispatch).length = 1 ↔
      roundBinary32 (w.t + Gt.DeltaTime) ≥ w.TimeStep) ∧
    (w.Update Gt RootSignature PSO).2.take 2 =
      [Command.SetPipelineState PSO, Command.SetComputeRootSignature RootSignature] ∧
    if roundBinary32 (w.t + Gt.DeltaTime) ≥ w.TimeStep then
      (w.Update Gt RootSignature PSO).1 =
        { w with
          PrevSol := w.CurrSol, CurrSol := w.NextSol, NextSol := w.PrevSol,
          PrevSolSrv := w.CurrSolSrv, CurrSolSrv := w.NextSolSrv, NextSolSrv := w.PrevSolSrv,
          PrevSolUav := w.CurrSolUav, CurrSolUav := w.NextSolUav, NextSolUav := w.PrevSolUav,
          t := 0 } ∧
      (w.Update Gt RootSignature PSO).2 =
        [Command.SetPipelineState PSO, Command.SetComputeRootSignature RootSignature,
         Command.SetComputeRoot32BitConstants 0 3
           [Const32.F32 (w.mK 0), Const32.F32 (w.mK 1), Const32.F32 (w.mK 2)] 0,
         Command.SetComputeRootDescriptorTable 1 w.PrevSolSrv,
         Command.SetComputeRootDescriptorTable 2 w.CurrSolUav,
         Command.SetComputeRootDescriptorTable 3 w.NextSolUav,
         Command.Dispatch (w.NumCols / 16) (w.NumRows / 16) 1,
         Command.ResourceBarrier w.NextSol D3D12_RESOURCE_STATES.UNORDERED_ACCESS
           D3D12_RESOURCE_STATES.GENERIC_READ] ∧
      rootConstants consts (w.Update Gt RootSignature PSO).2 0 0 = some (Const32.F32 (w.mK 0)) ∧
      rootConstants consts (w.Update Gt RootSignature PSO).2 0 1 = some (Const32.F32 (w.mK 1)) ∧
      rootConstants consts (w.Update Gt RootSignature PSO).2 0 2 = some (Const32.F32 (w.mK 2)) ∧
      computeTables tables (w.Update Gt RootSignature PSO).2 1 = some w.PrevSolSrv ∧
      computeTables tables (w.Update Gt RootSignature PSO).2 2 = some w.CurrSolUav ∧
      computeTables tables (w.Update Gt RootSignature PSO).2 3 = some w.NextSolUav ∧
      (w.Update Gt RootSignature PSO).2.filter (fun c => c.isDispatch || c.isResourceBarrier) =
        [Command.Dispatch (w.NumCols / 16) (w.NumRows / 16) 1,
         Command.ResourceBarrier (w.Update Gt RootSignature PSO).1.CurrSol
           D3D12_RESOURCE_STATES.UNORDERED_ACCESS D3D12_RESOURCE_STATES.GENERIC_READ]
    else
      (w.Update Gt RootSignature PSO).1 = { w with t := roundBinary32 (w.t + Gt.DeltaTime) } ∧
      (w.Update Gt RootSignature PSO).2 =
        [Command.SetPipelineState PSO, Command.SetComputeRootSignature RootSignature] ∧
      (w.Update Gt RootSignature PSO).2.filter (fun c => c.isDispatch || c.isResourceBarrier) = [] ∧
      rootConstants consts (w.Update Gt RootSignature PSO).2 = consts ∧
      computeTables tables (w.Update Gt RootSignature PSO).2 = tables := by
  by_cases hstep : roundBinary32 (w.t + Gt.DeltaTime) ≥ w.TimeStep
  · have hstep1 : roundBinary32 (w.t + Gt.DeltaTime) ≥ roundBinary32 w.TimeStep := by
      rw [hts]; exact hstep
    rw [if_pos hstep, Update_step_rounded _ _ _ _ hstep1]
    refine ⟨⟨fun _ => hstep, fun _ => rfl⟩, rfl, rfl, rfl, ?_, ?_, ?_, ?_, ?_, ?_, rfl⟩ <;>
      simp [rootConstants, computeTables]
  · have hstep1 : ¬ roundBinary32 (w.t + Gt.DeltaTime) ≥ roundBinary32 w.TimeStep := by
      rw [hts]; exact hstep
    rw [if_neg hstep, Update_idle _ _ _ _ hstep1]
    refine ⟨⟨fun h => ?_, fun h => absurd h hstep⟩, rfl, rfl, rfl, rfl, rfl, rfl⟩
    simp [Command.isDispatch] at h

theorem C16_Update_witness :
    roundBinary32 demoAccumulatedWaves.TimeStep = demoAccumulatedWaves.TimeStep ∧
    |demoAccumulatedWaves.t + demoShortTimer.DeltaTime| ≤ FLT_MAX ∧
    (
    (((demoAccumulatedWaves.Update demoShortTimer SRootSignature.Waves SPSOType.WavesUpdate).2.filter Command.isDispatch).length = 1 ↔
      roundBinary32 (demoAccumulatedWaves.t + demoShortTimer.DeltaTime) ≥ demoAccumulatedWaves.TimeStep) ∧
    (demoAccumulatedWaves.Update demoShortTimer SRootSignature.Waves SPSOType.WavesUpdate).2.take 2 =
      [Command.SetPipelineState SPSOType.WavesUpdate, Command.SetComputeRootSignature SRootSignature.Waves] ∧
    if roundBinary32 (demoAccumulatedWaves.t + demoShortTimer.DeltaTime) ≥ demoAccumulatedWaves.TimeStep then
      (demoAccumulatedWaves.Update demoShortTimer SRootSignature.Waves SPSOType.WavesUpdate).1 =
        { demoAccumulatedWaves with
          PrevSol := demoAccumulatedWaves.CurrSol, CurrSol := demoAccumulatedWaves.NextSol, NextSol := demoAccumulatedWaves.PrevSol,
          PrevSolSrv := demoAccumulatedWaves.CurrSolSrv, CurrSolSrv := demoAccumulatedWaves.NextSolSrv, NextSolSrv := demoAccumulatedWaves.PrevSolSrv,
          PrevSolUav := demoAccumulatedWaves.CurrSolUav, CurrSolUav := demoAccumulatedWaves.NextSolUav, NextSolUav := demoAccumulatedWaves.PrevSolUav,
          t := 0 } ∧
      (demoAccumulatedWaves.Update demoShortTimer SRootSignature.Waves SPSOType.WavesUpdate).2 =
        [Command.SetPipelineState SPSOType.WavesUpdate, Command.SetComputeRootSignature SRootSignature.Waves,
         Command.SetComputeRoot32BitConstants 0 3
           [Const32.F32 (demoAccumulatedWaves.mK 0), Const32.F32 (demoAccumulatedWaves.mK 1), Const32.F32 (demoAccumulatedWaves.mK 2)] 0,
         Command.SetComputeRootDescriptorTable 1 demoAccumulatedWaves.PrevSolSrv,
         Command.SetComputeRootDescriptorTable 2 demoAccumulatedWaves.CurrSolUav,
         Command.SetComputeRootDescriptorTable 3 demoAccumulatedWaves.NextSolUav,
         Command.Dispatch (demoAccumulatedWaves.NumCols / 16) (demoAccumulatedWaves.NumRows / 16) 1,
         Command.ResourceBarrier demoAccumulatedWaves.NextSol D3D12_RESOURCE_STATES.UNORDERED_ACCESS
           D3D12_RESOURCE_STATES.GENERIC_READ] ∧
      rootConstants (fun _ _ => none) (demoAccumulatedWaves.Update demoShortTimer SRootSignature.Waves SPSOType.WavesUpdate).2 0 0 = some (Const32.F32 (demoAccumulatedWaves.mK 0)) ∧
      rootConstants (fun _ _ => none) (demoAccumulatedWaves.Update demoShortTimer SRootSignature.Waves SPSOType.WavesUpdate).2 0 1 = some (Const32.F32 (demoAccumulatedWaves.mK 1)) ∧
      rootConstants (fun _ _ => none) (demoAccumulatedWaves.Update demoShortTimer SRootSignature.Waves SPSOType.WavesUpdate).2 0 2 = some (Const32.F32 (demoAccumulatedWaves.mK 2)) ∧
      computeTables (fun _ => none) (demoAccumulatedWaves.Update demoShortTimer SRootSignature.Waves SPSOType.WavesUpdate).2 1 = some demoAccumulatedWaves.PrevSolSrv ∧
      computeTables (fun _ => none) (demoAccumulatedWaves.Update demoShortTimer SRootSignature.Waves SPSOType.WavesUpdate).2 2 = some demoAccumulatedWaves.CurrSolUav ∧
      computeTables (fun _ => none) (demoAccumulatedWaves.Update demoShortTimer SRootSignature.Waves SPSOType.WavesUpdate).2 3 = some demoAccumulatedWaves.NextSolUav ∧
      (demoAccumulatedWaves.Update demoShortTimer SRootSignature.Waves SPSOType.WavesUpdate).2.filter (fun c => c.isDispatch || c.isResourceBarrier) =
        [Command.Dispatch (demoAccumulatedWaves.NumCols / 16) (demoAccumulatedWaves.NumRows / 16) 1,
         Command.ResourceBarrier (demoAccumulatedWaves.Update demoShortTimer SRootSignature.Waves SPSOType.WavesUpdate).1.CurrSol
           D3D12_RESOURCE_STATES.UNORDERED_ACCESS D3D12_RESOURCE_STATES.GENERIC_READ]
    else
      (demoAccumulatedWaves.Update demoShortTimer SRootSignature.Waves SPSOType.WavesUpdate).1 = { demoAccumulatedWaves with t := roundBinary32 (demoAccumulatedWaves.t + demoShortTimer.DeltaTime) } ∧
      (demoAccumulatedWaves.Update demoShortTimer SRootSignature.Waves SPSOType.WavesUpdate).2 =
        [Command.SetPipelineState SPSOType.WavesUpdate, Command.SetComputeRootSignature SRootSignature.Waves] ∧
      (demoAccumulatedWaves.Update demoShortTimer SRootSignature.Waves SPSOType.WavesUpdate).2.filter (fun c => c.isDispatch || c.isResourceBarrier) = [] ∧
      rootConstants (fun _ _ => none) (demoAccumulatedWaves.Update demoShortTimer SRootSignature.Waves SPSOType.WavesUpdate).2 = (fun _ _ => none) ∧
      computeTables (fun _ => none) (demoAccumulatedWaves.Update demoShortTimer SRootSignature.Waves SPSOType.WavesUpdate).2 = (fun _ => none)) :=
  ⟨roundBinary32_sum_example.2.2,
    by norm_num [demoAccumulatedWaves, demoWaves, demoShortTimer, FLT_MAX, abs_le],
    C16_Update demoShortTimer SRootSignature.Waves SPSOType.WavesUpdate demoAccumulatedWaves
      (fun _ _ => none) (fun _ => none) roundBinary32_sum_example.2.2
      (by norm_num [demoAccumulatedWaves, demoWaves, demoShortTimer, FLT_MAX, abs_le])⟩

/-! ## C17: `PrepareRenderTarget` -/

/-- C17 (idempotent prepare).  For every render target, whatever `GetRTV`,
`GetResource` and the depth-stencil view return at either call: a second
`PrepareRenderTarget` records nothing and changes nothing, so two calls record the
same commands and leave the same state as one.  The first call, on a target not yet
prepared, records in this order the clear of the colour view to LightSteelBlue, the
clear of depth and stencil to 1.0 and 0, the binding of the colour and depth-stencil
views, and the transition of the resource from GENERIC_READ to RENDER_TARGET, and
sets the flag; on a target already prepared it records nothing either. -/
theorem C17_prepare_idempotent (self : ORenderTargetBase) (RTV RTV2 : SDescriptorPair)
    (Resource Resource2 DepthStencilView DepthStencilView2 : Nat) :
    ((self.PrepareRenderTarget RTV Resource DepthStencilView).1.PrepareRenderTarget RTV2
        Resource2 DepthStencilView2).2 = [] ∧
    ((self.PrepareRenderTarget RTV Resource DepthStencilView).1.PrepareRenderTarget RTV2
        Resource2 DepthStencilView2).1 =
      (self.PrepareRenderTarget RTV Resource DepthStencilView).1 ∧
    (self.PrepareRenderTarget RTV Resource DepthStencilView).2 ++
        ((self.PrepareRenderTarget RTV Resource DepthStencilView).1.PrepareRenderTarget RTV2
          Resource2 DepthStencilView2).2 =
      (self.PrepareRenderTarget RTV Resource DepthStencilView).2 ∧
    (self.PrepareRenderTarget RTV Resource DepthStencilView).1.HasBeedPrepared = true ∧
    if self.HasBeedPrepared then
      self.PrepareRenderTarget RTV Resource DepthStencilView = (self, [])
    else
      self.PrepareRenderTarget RTV Resource DepthStencilView =
        ({ self with HasBeedPrepared := true },
          [Command.ClearRenderTargetView RTV.CPUHandle LightSteelBlue,
           Command.ClearDepthStencilView DepthStencilView true true 1 0,
           Command.OMSetRenderTargets 1 RTV.CPUHandle true DepthStencilView,
           Command.ResourceBarrier Resource D3D12_RESOURCE_STATES.GENERIC_READ
             D3D12_RESOURCE_STATES.RENDER_TARGET]) := by
  have hflag : (self.PrepareRenderTarget RTV Resource DepthStencilView).1.HasBeedPrepared =
      true := by
    unfold ORenderTargetBase.PrepareRenderTarget
    by_cases h : self.HasBeedPrepared = true
    · simp [h]
    · simp [h]
  have hsecond : (self.PrepareRenderTarget RTV Resource DepthStencilView).1.PrepareRenderTarget
      RTV2 Resource2 DepthStencilView2 =
      ((self.PrepareRenderTarget RTV Resource DepthStencilView).1, []) := by
    generalize (self.PrepareRenderTarget RTV Resource DepthStencilView).1 = p at hflag
    simp [ORenderTargetBase.PrepareRenderTarget, hflag]
  refine ⟨by rw [hsecond], by rw [hsecond], by rw [hsecond, List.append_nil], hflag, ?_⟩
  by_cases h : self.HasBeedPrepared = true
  · simp [ORenderTargetBase.PrepareRenderTarget, h]
  · simp [ORenderTargetBase.PrepareRenderTarget, h]

/-! ## C18, C19: resize -/

theorem ResetBackBuffersLoop_eq (count i : Nat) (self : OWindow) (env : WindowEnvironment) :
    ResetBackBuffersLoop count i self env =
      ({ self with
          BackBuffers := fun j => if i ≤ j ∧ j < i + count then none else self.BackBuffers j },
        { env with
          Calls := env.Calls ++ (List.range' i count).map WindowCall.ResetBackBuffer }) := by
  induction count generalizing i self env with
  | zero =>
    simp only [ResetBackBuffersLoop, List.range'_zero, List.map_nil, List.append_nil]
    congr 1
    have : (fun j => if i ≤ j ∧ j < i + 0 then none else self.BackBuffers j) =
        self.BackBuffers := by
      funext j
      have h : ¬ (i ≤ j ∧ j < i + 0) := by omega
      rw [if_neg h]
    rw [this]
  | succ count ih =>
    rw [ResetBackBuffersLoop, ih]
    have hf : (fun j => if i + 1 ≤ j ∧ j < i + 1 + count then none
          else (if j = i then none else self.BackBuffers j)) =
        (fun j => if i ≤ j ∧ j < i + (count + 1) then none else self.BackBuffers j) := by
      funext j
      by_cases h1 : i + 1 ≤ j ∧ j < i + 1 + count
      · have h2 : i ≤ j ∧ j < i + (count + 1) := by omega
        rw [if_pos h1, if_pos h2]
      · rw [if_neg h1]
        by_cases h3 : j = i
        · have h2 : i ≤ j ∧ j < i + (count + 1) := by omega
          rw [if_pos h3, if_pos h2]
        · have h2 : ¬ (i ≤ j ∧ j < i + (count + 1)) := by omega
          rw [if_neg h3, if_neg h2]
    simp only [hf, List.range'_succ, List.map_cons, List.append_assoc, List.singleton_append]

theorem UpdateRenderTargetViewsLoop_eq (count i rtvHandle : Nat) (self : OWindow)
    (env : WindowEnvironment) (h : i + count ≤ env.SwapChain.Buffers.length) :
    UpdateRenderTargetViewsLoop count i rtvHandle self env =
      some
        ({ self with
            BackBuffers := fun j =>
              if i ≤ j ∧ j < i + count then env.SwapChain.Buffers[j]? else self.BackBuffers j },
          { env with
            Calls := env.Calls ++ (List.range' i count).map WindowCall.GetBuffer
            Device :=
              { env.Device with
                Views := env.Device.Views ++
                  RenderTargetViews count i rtvHandle self.RTVDescriptorSize
                    env.SwapChain.Buffers } }) := by
  induction count generalizing i rtvHandle self env with
  | zero =>
    simp only [UpdateRenderTargetViewsLoop, List.range'_zero, List.map_nil, List.append_nil,
      RenderTargetViews]
    congr 2
    have : (fun j => if i ≤ j ∧ j < i + 0 then env.SwapChain.Buffers[j]?
        else self.BackBuffers j) = self.BackBuffers := by
      funext j
      have h : ¬ (i ≤ j ∧ j < i + 0) := by omega
      rw [if_neg h]
    rw [this]
  | succ count ih =>
    have hi : i < env.SwapChain.Buffers.length := by omega
    have hb : env.SwapChain.Buffers[i]? = some (env.SwapChain.Buffers[i]) :=
      List.getElem?_eq_getElem hi
    rw [UpdateRenderTargetViewsLoop]
    simp only [hb, RenderTargetViews]
    rw [ih]
    · have hf : (fun j => if i + 1 ≤ j ∧ j < i + 1 + count then env.SwapChain.Buffers[j]?
            else (if j = i then some (env.SwapChain.Buffers[i]) else self.BackBuffers j)) =
          (fun j => if i ≤ j ∧ j < i + (count + 1) then env.SwapChain.Buffers[j]?
            else self.BackBuffers j) := by
        funext j
        by_cases h1 : i + 1 ≤ j ∧ j < i + 1 + count
        · have h2 : i ≤ j ∧ j < i + (count + 1) := by omega
          rw [if_pos h1, if_pos h2]
        · rw [if_neg h1]
          by_cases h3 : j = i
          · have h2 : i ≤ j ∧ j < i + (count + 1) := by omega
            rw [if_pos h3, if_pos h2, h3, hb]
          · have h2 : ¬ (i ≤ j ∧ j < i + (count + 1)) := by omega
            rw [if_neg h3, if_neg h2]
      simp only [hf, ID3D12Device.CreateView, List.range'_succ, List.map_cons, List.append_assoc,
        List.singleton_append]
    · show i + 1 + count ≤ env.SwapChain.Buffers.length
      omega

theorem toLong_of_lt (x : Nat) (h : x < 2 ^ 31) : toLong x = (x : Int) := by
  unfold toLong
  omega

/-- A resize that is allowed completes, with the window and the environment in closed
form. -/
theorem OnResize_eq (BuffersCount : Nat) (Event : ResizeEventArgs) (env : WindowEnvironment)
    (self : OWindow) (start : Nat)
    (h : CanResize BuffersCount self.WindowInfo.ClientWidth self.WindowInfo.ClientHeight env)
    (hstart : env.HeapStart env.HeapsCreated = some start) :
    self.OnResize BuffersCount Event env =
      some
        ({ self with
            BackBuffers := fun j =>
              if j < BuffersCount then some (env.Device.NextResource + j)
              else self.BackBuffers j
            DepthBuffer := some (env.Device.NextResource + BuffersCount)
            DSVDescriptorHeap :=
              some { NumDescriptors := 1, Kind := ViewKind.DSV,
                     CPUDescriptorHandleForHeapStart := start }
            CurrentBackBufferIndex := 0
            Viewport := CD3DX12_VIEWPORT 0 0 (self.WindowInfo.ClientWidth : ℚ)
              (self.WindowInfo.ClientHeight : ℚ)
            ScissorRect := CD3DX12_RECT 0 0 (toLong self.WindowInfo.ClientWidth)
              (toLong self.WindowInfo.ClientHeight) },
          { env with
            Calls := env.Calls ++
              ([WindowCall.FlushGPU, WindowCall.ResetCommandList] ++
                (List.range BuffersCount).map WindowCall.ResetBackBuffer ++
                [WindowCall.ResetDepthBuffer,
                  WindowCall.ResizeBuffers BuffersCount self.WindowInfo.ClientWidth
                    self.WindowInfo.ClientHeight] ++
                (List.range BuffersCount).map WindowCall.GetBuffer ++
                [WindowCall.FlushGPU, WindowCall.Close, WindowCall.ExecuteCommandLists,
                  WindowCall.FlushGPU])
            SwapChain :=
              { env.SwapChain with
                Buffers := (List.range BuffersCount).map (fun i => env.Device.NextResource + i)
                Width := self.WindowInfo.ClientWidth
                Height := self.WindowInfo.ClientHeight }
            Device :=
              { env.Device with
                NextResource := env.Device.NextResource + BuffersCount + 1
                Views := env.Device.Views ++
                  (RenderTargetViews BuffersCount 0
                      self.RTVDescriptorHeap.CPUDescriptorHandleForHeapStart
                      self.RTVDescriptorSize
                      ((List.range BuffersCount).map (fun i => env.Device.NextResource + i)) ++
                    [{ Handle := start, Kind := ViewKind.DSV,
                       Resource := env.Device.NextResource + BuffersCount }]) }
            HeapsCreated := env.HeapsCreated + 1 }) := by
  obtain ⟨halive, hswap, hdepth, -⟩ := h
  unfold OWindow.OnResize
  rw [if_pos halive]
  simp only [ResetBackBuffersLoop_eq, IDXGISwapChain.ResizeBuffers, hswap, if_true,
    OWindow.UpdateRenderTargetViews, halive]
  rw [UpdateRenderTargetViewsLoop_eq _ _ _ _ _ (by simp)]
  simp only [OWindow.ResizeDepthBuffer, halive, if_true, ID3D12Device.CreateCommittedResource,
    hdepth, hstart, ID3D12Device.CreateView]
  have hf : (fun j => if 0 ≤ j ∧ j < 0 + BuffersCount then
        ((List.range BuffersCount).map (fun i => env.Device.NextResource + i))[j]?
      else (if 0 ≤ j ∧ j < 0 + BuffersCount then none else self.BackBuffers j)) =
      (fun j => if j < BuffersCount then some (env.Device.NextResource + j)
        else self.BackBuffers j) := by
    funext j
    by_cases hj : j < BuffersCount
    · have h1 : 0 ≤ j ∧ j < 0 + BuffersCount := by omega
      rw [if_pos h1, if_pos hj]
      simp [List.getElem?_map, List.getElem?_range hj]
    · have h1 : ¬ (0 ≤ j ∧ j < 0 + BuffersCount) := by omega
      rw [if_neg h1, if_neg h1, if_neg hj]
  rw [List.range_eq_range'] at hf
  simp only [hf, List.range_eq_range', List.append_assoc, List.cons_append, List.nil_append]

/-- C18 (resize).  A resize event carrying `(W, H)` (both below 2^31) is delivered to
`OnUpdateWindowSize`, which stores the size, and then to `OnResize`, which reads the
stored size and not the event.  When the engine is alive and the swap chain, the
depth buffer and the descriptor heap can be created, `OnResize` completes and
afterwards: the viewport is `(0, 0, W, H)` with depth range 0..1, the scissor
rectangle is `(0, 0, W, H)`, the back-buffer index is 0; the calls made are the
flush and list reset, the reset of each of the `BuffersCount` back-buffer references
and of the depth buffer, then `ResizeBuffers(BuffersCount, W, H)`, then `GetBuffer`
for each index, and the flush, close, execute, flush; each reference `i` then holds
buffer `i` of the resized swap chain, created by this resize; and the DSV heap is a
new heap of exactly one descriptor whose slot holds the view of the new depth
buffer. -/
theorem C18_resize (BuffersCount : Nat) (Event : ResizeEventArgs) (env : WindowEnvironment)
    (self : OWindow) (hW : Event.Width < 2 ^ 31) (hH : Event.Height < 2 ^ 31)
    (h : CanResize BuffersCount Event.Width Event.Height env) :
    ∃ self1 env1 depthBuffer heap,
      (self.OnUpdateWindowSize Event).OnResize BuffersCount Event env = some (self1, env1) ∧
      self1.Viewport =
        { TopLeftX := 0, TopLeftY := 0, Width := Event.Width, Height := Event.Height,
          MinDepth := 0, MaxDepth := 1 } ∧
      self1.ScissorRect = { left := 0, top := 0, right := Event.Width, bottom := Event.Height } ∧
      self1.CurrentBackBufferIndex = 0 ∧
      env1.Calls =
        env.Calls ++
          (([WindowCall.FlushGPU, WindowCall.ResetCommandList] ++
              (List.range BuffersCount).map WindowCall.ResetBackBuffer ++
              [WindowCall.ResetDepthBuffer]) ++
            [WindowCall.ResizeBuffers BuffersCount Event.Width Event.Height] ++
            ((List.range BuffersCount).map WindowCall.GetBuffer ++
              [WindowCall.FlushGPU, WindowCall.Close, WindowCall.ExecuteCommandLists,
                WindowCall.FlushGPU])) ∧
      (∀ i, i < BuffersCount →
        self1.BackBuffers i = some (env.Device.NextResource + i) ∧
        env1.SwapChain.Buffers[i]? = some (env.Device.NextResource + i)) ∧
      env1.SwapChain.Buffers.length = BuffersCount ∧
      env1.SwapChain.Width = Event.Width ∧ env1.SwapChain.Height = Event.Height ∧
      env.Device.NextResource + BuffersCount ≤ depthBuffer ∧
      self1.DepthBuffer = some depthBuffer ∧
      self1.DSVDescriptorHeap = some heap ∧
      heap.NumDescriptors = 1 ∧ heap.Kind = ViewKind.DSV ∧
      env.HeapStart env.HeapsCreated = some heap.CPUDescriptorHandleForHeapStart ∧
      ViewAt env1.Device.Views heap.CPUDescriptorHandleForHeapStart =
        some { Handle := heap.CPUDescriptorHandleForHeapStart, Kind := ViewKind.DSV,
               Resource := depthBuffer } := by
  obtain ⟨start, hstart⟩ : ∃ start, env.HeapStart env.HeapsCreated = some start :=
    Option.isSome_iff_exists.mp h.2.2.2
  refine ⟨_, _, env.Device.NextResource + BuffersCount,
    { NumDescriptors := 1, Kind := ViewKind.DSV, CPUDescriptorHandleForHeapStart := start },
    OnResize_eq BuffersCount Event env (self.OnUpdateWindowSize Event) start h hstart,
    ?_, ?_, rfl, ?_, ?_, ?_, rfl, rfl, Nat.le_refl _, rfl, rfl, rfl, rfl, hstart, ?_⟩
  · rfl
  · show CD3DX12_RECT 0 0 (toLong Event.Width) (toLong Event.Height) = _
    rw [toLong_of_lt _ hW, toLong_of_lt _ hH]
    rfl
  · simp only [OWindow.OnUpdateWindowSize, List.append_assoc, List.singleton_append,
      List.cons_append, List.nil_append]
  · intro i hi
    refine ⟨?_, ?_⟩
    · show (if i < BuffersCount then some (env.Device.NextResource + i) else _) = _
      rw [if_pos hi]
    · show ((List.range BuffersCount).map (fun i => env.Device.NextResource + i))[i]? = _
      simp [List.getElem?_map, List.getElem?_range hi]
  · show ((List.range BuffersCount).map (fun i => env.Device.NextResource + i)).length = _
    simp
  · show ViewAt (env.Device.Views ++ (_ ++ [_])) start = _
    rw [← List.append_assoc, ViewAt_append_singleton]
    simp

theorem C18_resize_witness :
    ((1280 : Nat) < 2 ^ 31 ∧ (720 : Nat) < 2 ^ 31 ∧ CanResize 3 1280 720 demoEnvironment) ∧
    ∃ self1 env1,
      (demoWindow.OnUpdateWindowSize { Width := 1280, Height := 720 }).OnResize 3
          { Width := 1280, Height := 720 } demoEnvironment = some (self1, env1) ∧
      self1.Viewport =
        { TopLeftX := 0, TopLeftY := 0, Width := 1280, Height := 720,
          MinDepth := 0, MaxDepth := 1 } ∧
      self1.ScissorRect = { left := 0, top := 0, right := 1280, bottom := 720 } ∧
      self1.CurrentBackBufferIndex = 0 ∧
      self1.BackBuffers 0 = some 10 ∧ self1.BackBuffers 1 = some 11 ∧
      self1.BackBuffers 2 = some 12 := by
  obtain ⟨self1, env1, depthBuffer, heap, hr, hv, hs, hi, -, hb, -⟩ :=
    C18_resize 3 { Width := 1280, Height := 720 } demoEnvironment demoWindow (by decide)
      (by decide) (by decide)
  exact ⟨⟨by decide, by decide, by decide⟩, self1, env1, hr, by simpa using hv,
    by simpa using hs, hi, (hb 0 (by decide)).1, (hb 1 (by decide)).1, (hb 2 (by decide)).1⟩

/-- C19 (resize idempotence).  `OOffscreenTexture::OnResize` with the current width and
height returns the texture and the device as they were: no resource is created, no
view is written, no field changes; so after any `OnResize(W, H)` that completes, a
second `OnResize(W, H)` changes nothing.  A second `OWindow::OnResize` with the same
client size (whatever event it is handed) completes and leaves the viewport, the
scissor rectangle, the back-buffer index and the client size of the first. -/
theorem C19_resize_idempotent (t : OOffscreenTexture) (device : ID3D12Device) (W H : Nat)
    (BuffersCount : Nat) (Event Event2 : ResizeEventArgs) (env : WindowEnvironment)
    (self : OWindow)
    (hdevice : device.Accepts
      { HeapType := D3D12_HEAP_TYPE.DEFAULT, IsTexture2D := true, Width := W, Height := H,
        InitialState := none } = true)
    (h : CanResize BuffersCount self.WindowInfo.ClientWidth self.WindowInfo.ClientHeight env)
    (hsecond : (env.HeapStart (env.HeapsCreated + 1)).isSome = true) :
    t.OnResize t.Width t.Height device = some (t, device) ∧
    (∃ t1 device1,
      t.OnResize W H device = some (t1, device1) ∧
      t1.Width = W ∧ t1.Height = H ∧
      t1.OnResize W H device1 = some (t1, device1)) ∧
    ∃ self1 env1 self2 env2,
      self.OnResize BuffersCount Event env = some (self1, env1) ∧
      self1.OnResize BuffersCount Event2 env1 = some (self2, env2) ∧
      self2.Viewport = self1.Viewport ∧
      self2.ScissorRect = self1.ScissorRect ∧
      self2.CurrentBackBufferIndex = self1.CurrentBackBufferIndex ∧
      self2.WindowInfo = self1.WindowInfo := by
  have hsame : ∀ (u : OOffscreenTexture) (d : ID3D12Device),
      u.OnResize u.Width u.Height d = some (u, d) := by
    intro u d
    simp [OOffscreenTexture.OnResize]
  refine ⟨hsame t device, ?_, ?_⟩
  · by_cases hne : t.Width ≠ W ∨ t.Height ≠ H
    · refine ⟨{ t with Width := W, Height := H,
                       RenderTarget := { Resource := some device.NextResource } },
        (({ device with NextResource := device.NextResource + 1 } : ID3D12Device).CreateView
          ViewKind.SRV device.NextResource t.SRVHandle.CPUHandle).CreateView
          ViewKind.RTV device.NextResource t.RTVHandle.CPUHandle, ?_, ?_, ?_, ?_⟩
      · simp only [OOffscreenTexture.OnResize, if_pos hne, OOffscreenTexture.BuildResource,
          ID3D12Device.CreateCommittedResource, hdevice, if_true,
          OOffscreenTexture.BuildDescriptors]
      · rfl
      · rfl
      · simp [OOffscreenTexture.OnResize]
    · have hW : t.Width = W := by
        by_contra hc
        exact hne (Or.inl hc)
      have hH : t.Height = H := by
        by_contra hc
        exact hne (Or.inr hc)
      subst hW
      subst hH
      exact ⟨t, device, hsame t device, rfl, rfl, hsame t device⟩
  · obtain ⟨start, hstart⟩ : ∃ start, env.HeapStart env.HeapsCreated = some start :=
      Option.isSome_iff_exists.mp h.2.2.2
    obtain ⟨start2, hstart2⟩ : ∃ start2, env.HeapStart (env.HeapsCreated + 1) = some start2 :=
      Option.isSome_iff_exists.mp hsecond
    obtain ⟨self1, env1, hr, hinfo, hview, hrect, hindex, halive, hswap, hdev, hheap, hcount⟩ :
        ∃ self1 env1, self.OnResize BuffersCount Event env = some (self1, env1) ∧
          self1.WindowInfo = self.WindowInfo ∧
          self1.Viewport = CD3DX12_VIEWPORT 0 0 (self.WindowInfo.ClientWidth : ℚ)
            (self.WindowInfo.ClientHeight : ℚ) ∧
          self1.ScissorRect = CD3DX12_RECT 0 0 (toLong self.WindowInfo.ClientWidth)
            (toLong self.WindowInfo.ClientHeight) ∧
          self1.CurrentBackBufferIndex = 0 ∧
          env1.EngineAlive = env.EngineAlive ∧
          env1.SwapChain.Accepts = env.SwapChain.Accepts ∧
          env1.Device.Accepts = env.Device.Accepts ∧
          env1.HeapStart = env.HeapStart ∧
          env1.HeapsCreated = env.HeapsCreated + 1 :=
      ⟨_, _, OnResize_eq BuffersCount Event env self start h hstart, rfl, rfl, rfl, rfl, rfl,
        rfl, rfl, rfl, rfl⟩
    have h2 : CanResize BuffersCount self1.WindowInfo.ClientWidth
        self1.WindowInfo.ClientHeight env1 := by
      unfold CanResize
      rw [hinfo, halive, hswap, hdev, hheap, hcount]
      exact ⟨h.1, h.2.1, h.2.2.1, hsecond⟩
    have hstart1 : env1.HeapStart env1.HeapsCreated = some start2 := by
      rw [hheap, hcount]
      exact hstart2
    refine ⟨self1, env1, _, _, hr, OnResize_eq BuffersCount Event2 env1 self1 start2 h2 hstart1,
      ?_, ?_, ?_, rfl⟩
    · show CD3DX12_VIEWPORT 0 0 _ _ = _
      rw [hview, hinfo]
    · show CD3DX12_RECT 0 0 _ _ = _
      rw [hrect, hinfo]
    · exact hindex.symm

theorem C19_resize_idempotent_witness :
    (demoDevice.Accepts
        { HeapType := D3D12_HEAP_TYPE.DEFAULT, IsTexture2D := true, Width := 1280,
          Height := 720, InitialState := none } = true ∧
      CanResize 3 demoWindow.WindowInfo.ClientWidth demoWindow.WindowInfo.ClientHeight
        demoEnvironment ∧
      (demoEnvironment.HeapStart (demoEnvironment.HeapsCreated + 1)).isSome = true) ∧
    demoOffscreen.OnResize demoOffscreen.Width demoOffscreen.Height demoDevice =
      some (demoOffscreen, demoDevice) ∧
    ∃ t1 device1,
      demoOffscreen.OnResize 1280 720 demoDevice = some (t1, device1) ∧
      t1.Width = 1280 ∧ t1.Height = 720 ∧
      t1.OnResize 1280 720 device1 = some (t1, device1) := by
  have h := C19_resize_idempotent demoOffscreen demoDevice 1280 720 3
    { Width := 800, Height := 600 } { Width := 800, Height := 600 } demoEnvironment demoWindow
    (by decide) (by decide) (by decide)
  exact ⟨⟨by decide, by decide, by decide⟩, h.1, h.2.1⟩

/-! ## C20: heap indices of the texture catalog -/

/-- One `CreateTexture` call in closed form. -/
theorem CreateTexture_cases (Name FileName : String) (Loaded : Option (Nat × Nat))
    (self : OTextureManager) :
    (self.contains Name = true ∧
      self.CreateTexture Name FileName Loaded = (self, CreateTextureResult.Nullptr)) ∨
    (self.contains Name = false ∧ Loaded = none ∧
      self.CreateTexture Name FileName Loaded = (self, CreateTextureResult.Thrown)) ∨
    (self.contains Name = false ∧ ∃ resource uploadHeap, Loaded = some (resource, uploadHeap) ∧
      self.CreateTexture Name FileName Loaded =
        ({ Textures := self.Textures ++
            [(Name, { Name := Name, FileName := FileName, Resource := some resource,
                      UploadHeap := some uploadHeap,
                      HeapIdx := (self.Textures.length : Int) })] },
          CreateTextureResult.Created
            { Name := Name, FileName := FileName, Resource := some resource,
              UploadHeap := some uploadHeap, HeapIdx := (self.Textures.length : Int) })) := by
  by_cases hc : self.contains Name = true
  · left
    exact ⟨hc, by simp [OTextureManager.CreateTexture, hc]⟩
  · right
    have hc2 : self.contains Name = false := by simpa using hc
    cases Loaded with
    | none =>
      left
      exact ⟨hc2, rfl, by simp [OTextureManager.CreateTexture, hc2]⟩
    | some p =>
      right
      obtain ⟨resource, uploadHeap⟩ := p
      exact ⟨hc2, resource, uploadHeap, rfl, by simp [OTextureManager.CreateTexture, hc2]⟩

theorem CreateTexture_ordered (Name FileName : String) (Loaded : Option (Nat × Nat))
    (self : OTextureManager) (h : CatalogOrdered self) :
    CatalogOrdered (self.CreateTexture Name FileName Loaded).1 := by
  rcases CreateTexture_cases Name FileName Loaded self with
    ⟨-, hr⟩ | ⟨-, -, hr⟩ | ⟨hc, resource, uploadHeap, -, hr⟩
  · rw [hr]; exact h
  · rw [hr]; exact h
  · rw [hr]
    obtain ⟨h1, h2, h3⟩ := h
    refine ⟨?_, ?_, ?_⟩
    · simp only [List.map_append, List.length_append, List.length_singleton, List.range_succ,
        List.map_cons, List.map_nil, h1]
    · intro entry he
      simp only [List.mem_append, List.mem_singleton] at he
      rcases he with he | he
      · exact h2 entry he
      · rw [he]
    · simp only [List.map_append, List.map_cons, List.map_nil]
      rw [List.nodup_append]
      refine ⟨h3, List.nodup_singleton _, ?_⟩
      intro a ha hb
      simp only [List.mem_singleton] at hb
      subst hb
      simp only [OTextureManager.contains, List.any_eq_false] at hc
      obtain ⟨entry, he, hn⟩ := List.mem_map.mp ha
      have := hc entry he
      simp [hn] at this

theorem RunCreateTexture_ordered (calls : List CreateTextureCall) (self : OTextureManager)
    (h : CatalogOrdered self) : CatalogOrdered (RunCreateTexture calls self).1 := by
  induction calls generalizing self with
  | nil => exact h
  | cons call rest ih =>
    exact ih _ (CreateTexture_ordered call.Name call.FileName call.Loaded self h)

theorem RunCreateTexture_textures (calls : List CreateTextureCall) (self : OTextureManager) :
    (RunCreateTexture calls self).1.Textures =
      self.Textures ++
        ((RunCreateTexture calls self).2.filterMap CreateTextureResult.registered).map
          (fun texture => (texture.Name, texture)) := by
  induction calls generalizing self with
  | nil => simp [RunCreateTexture]
  | cons call rest ih =>
    simp only [RunCreateTexture]
    rw [ih]
    rcases CreateTexture_cases call.Name call.FileName call.Loaded self with
      ⟨-, hr⟩ | ⟨-, -, hr⟩ | ⟨-, resource, uploadHeap, -, hr⟩
    · rw [hr]; simp [CreateTextureResult.registered]
    · rw [hr]; simp [CreateTextureResult.registered]
    · rw [hr]; simp [CreateTextureResult.registered]

/-- C20 (heap indices).  After every sequence of `CreateTexture` calls on an empty
catalog (thrown loader failures being caught): the textures the calls registered
are, in the order of the calls, exactly the entries of the catalog, and the `k`-th
of them (from 0) has `HeapIdx = k`; so the heap indices are `0 .. n-1` in insertion
order and pairwise distinct, and so are the names.  A further call under a name the
catalog contains returns `nullptr` and leaves the catalog as it is.  A further call
under a new name whose file loads appends to the catalog, under that name, a texture
whose `HeapIdx` is the number of textures registered before, and returns it; when
the file does not load the call throws and leaves the catalog as it is. -/
theorem C20_heap_indices (calls : List CreateTextureCall) (Name FileName : String)
    (Loaded : Option (Nat × Nat)) :
    (RunCreateTexture calls { Textures := [] }).2.filterMap CreateTextureResult.registered =
      (RunCreateTexture calls { Textures := [] }).1.Textures.map (fun entry => entry.2) ∧
    ((RunCreateTexture calls { Textures := [] }).2.filterMap
        CreateTextureResult.registered).map (fun texture => texture.HeapIdx) =
      (List.range
        ((RunCreateTexture calls { Textures := [] }).2.filterMap
          CreateTextureResult.registered).length).map (fun k : Nat => (k : Int)) ∧
    (RunCreateTexture calls { Textures := [] }).1.Textures.map (fun entry => entry.2.HeapIdx) =
      (List.range (RunCreateTexture calls { Textures := [] }).1.Textures.length).map
        (fun k : Nat => (k : Int)) ∧
    ((RunCreateTexture calls { Textures := [] }).1.Textures.map
      (fun entry => entry.2.HeapIdx)).Nodup ∧
    ((RunCreateTexture calls { Textures := [] }).1.Textures.map (fun entry => entry.1)).Nodup ∧
    if (RunCreateTexture calls { Textures := [] }).1.contains Name then
      (RunCreateTexture calls { Textures := [] }).1.CreateTexture Name FileName Loaded =
        ((RunCreateTexture calls { Textures := [] }).1, CreateTextureResult.Nullptr)
    else
      match Loaded with
      | none =>
        (RunCreateTexture calls { Textures := [] }).1.CreateTexture Name FileName none =
          ((RunCreateTexture calls { Textures := [] }).1, CreateTextureResult.Thrown)
      | some (resource, uploadHeap) =>
        (RunCreateTexture calls { Textures := [] }).1.CreateTexture Name FileName
            (some (resource, uploadHeap)) =
          ({ Textures := (RunCreateTexture calls { Textures := [] }).1.Textures ++
              [(Name,
                { Name := Name, FileName := FileName, Resource := some resource,
                  UploadHeap := some uploadHeap,
                  HeapIdx :=
                    (((RunCreateTexture calls { Textures := [] }).2.filterMap
                      CreateTextureResult.registered).length : Int) })] },
            CreateTextureResult.Created
              { Name := Name, FileName := FileName, Resource := some resource,
                UploadHeap := some uploadHeap,
                HeapIdx :=
                  (((RunCreateTexture calls { Textures := [] }).2.filterMap
                    CreateTextureResult.registered).length : Int) }) := by
  have hord : CatalogOrdered (RunCreateTexture calls { Textures := [] }).1 :=
    RunCreateTexture_ordered calls _ ⟨rfl, by simp, by simp⟩
  have htex := RunCreateTexture_textures calls { Textures := [] }
  simp only [List.nil_append] at htex
  obtain ⟨h1, -, h3⟩ := hord
  have hreg : (RunCreateTexture calls { Textures := [] }).2.filterMap
      CreateTextureResult.registered =
      (RunCreateTexture calls { Textures := [] }).1.Textures.map (fun entry => entry.2) := by
    conv_rhs => rw [htex, List.map_map]
    exact (List.map_id _).symm
  refine ⟨hreg, ?_, h1, ?_, h3, ?_⟩
  · rw [hreg, List.map_map, List.length_map]
    exact h1
  · rw [h1]
    exact (List.nodup_range _).map (fun a b hab => by exact_mod_cast hab)
  · rcases CreateTexture_cases Name FileName Loaded (RunCreateTexture calls { Textures := [] }).1
      with ⟨hc, hr⟩ | ⟨hc, hl, hr⟩ | ⟨hc, resource, uploadHeap, hl, hr⟩
    · rw [if_pos hc]
      exact hr
    · subst hl
      rw [hc]
      exact hr
    · subst hl
      rw [hc, hreg, List.length_map]
      exact hr

/-! ## C21: a duplicate texture name -/

/-- C21, counterexample to the claim as stated.  With `Grass` in the catalog, a second
`CreateTexture` under the name `Grass` returns normally: it returns `nullptr`, whether
or not the file could be loaded, and the catalog is as before. -/
theorem C21_counterexample :
    demoTextures.contains "Grass" = true ∧
    demoTextures.CreateTexture "Grass" "Resources/Textures/grass.dds" (some (30, 31)) =
      (demoTextures, CreateTextureResult.Nullptr) ∧
    demoTextures.CreateTexture "Grass" "Resources/Textures/grass.dds" none =
      (demoTextures, CreateTextureResult.Nullptr) := by
  refine ⟨by decide, by decide, by decide⟩

/-- C21, amended.  When `Textures` already contains `Name`, `CreateTexture` returns
normally with `nullptr` (after logging an error): it neither throws nor registers
anything, the catalog is unchanged, the loader is not consulted (the outcome is the
same whatever the loader would do), and `FindTexture(Name)` still finds the texture
registered first. -/
theorem C21_duplicate_returns_nullptr (Name FileName : String) (Loaded : Option (Nat × Nat))
    (self : OTextureManager) (h : self.contains Name = true) :
    self.CreateTexture Name FileName Loaded = (self, CreateTextureResult.Nullptr) ∧
    (self.CreateTexture Name FileName Loaded).2 ≠ CreateTextureResult.Thrown ∧
    self.CreateTexture Name FileName Loaded = self.CreateTexture Name FileName none ∧
    (self.CreateTexture Name FileName Loaded).1.FindTexture Name = self.FindTexture Name ∧
    (self.FindTexture Name).isSome = true := by
  have hr : ∀ L, self.CreateTexture Name FileName L = (self, CreateTextureResult.Nullptr) := by
    intro L
    simp [OTextureManager.CreateTexture, h]
  refine ⟨hr Loaded, by rw [hr]; simp, by rw [hr, hr], by rw [hr], ?_⟩
  simp only [OTextureManager.FindTexture, h, Bool.not_true, Bool.false_eq_true, if_false,
    Option.isSome_map']
  simp only [OTextureManager.contains, List.any_eq_true] at h
  obtain ⟨entry, he, hn⟩ := h
  rw [List.find?_isSome]
  exact ⟨entry, he, hn⟩

theorem C21_duplicate_returns_nullptr_witness :
    demoTextures.contains "Grass" = true ∧
    demoTextures.CreateTexture "Grass" "other.dds" (some (30, 31)) =
      (demoTextures, CreateTextureResult.Nullptr) :=
  ⟨by decide,
    (C21_duplicate_returns_nullptr "Grass" "other.dds" (some (30, 31)) demoTextures
      (by decide)).1⟩

/-! ## C29, C30: the stencil weights and the order of the rotation -/

/-- C29 (stencil weights).  For every damping `c`, speed `s`, `dt` and `dx` with
`dx ≠ 0` and `c * dt + 2 ≠ 0`, the constants a completed constructor call stores
satisfy `K[0] + K[1] + 4 K[2] = 1` over the rationals (the centre and previous-step
weights alone fall short of 1 by `8 s² dt² / ((c dt + 2) dx²)`, which the four
neighbour weights supply), so a height `h` that is the same at a texel, at its four
neighbours and at the previous step is reproduced:
`K[0] h + K[1] h + K[2] (h + h + h + h) = h`. -/
theorem C29_weights_sum_to_one (device : ID3D12Device) (M N : Int) (dx dt s c : ℚ)
    (hdx : dx ≠ 0) (hd : c * dt + 2 ≠ 0) (hdev : Constructible device M N) :
    ∃ w device1 cmds,
      OGPUWave.Constructor device M N dx dt s c = some (w, device1, cmds) ∧
      w.mK 0 + w.mK 1 + 4 * w.mK 2 = 1 ∧
      (1 - (w.mK 0 + w.mK 1)) * (c * dt + 2) * dx ^ 2 = 8 * (s ^ 2 * dt ^ 2) ∧
      ∀ h : ℚ, w.mK 0 * h + w.mK 1 * h + w.mK 2 * (h + h + h + h) = h := by
  refine ⟨_, _, _, Constructor_eq device M N dx dt s c hdev, ?_⟩
  have k0 : ∀ a b d : ℚ, (![a, b, d] : Fin 3 → ℚ) 0 = a := fun _ _ _ => rfl
  have k1 : ∀ a b d : ℚ, (![a, b, d] : Fin 3 → ℚ) 1 = b := fun _ _ _ => rfl
  have k2 : ∀ a b d : ℚ, (![a, b, d] : Fin 3 → ℚ) 2 = d := fun _ _ _ => rfl
  dsimp only
  rw [k0, k1, k2]
  have hsum : (c * dt - 2) / (c * dt + 2) +
      (4 - 8 * (s * s * (dt * dt) / (dx * dx))) / (c * dt + 2) +
      4 * (2 * (s * s * (dt * dt) / (dx * dx)) / (c * dt + 2)) = 1 := by
    field_simp
    ring
  refine ⟨hsum, ?_, ?_⟩
  · field_simp
    ring
  · intro h
    have : (c * dt - 2) / (c * dt + 2) * h +
        (4 - 8 * (s * s * (dt * dt) / (dx * dx))) / (c * dt + 2) * h +
        2 * (s * s * (dt * dt) / (dx * dx)) / (c * dt + 2) * (h + h + h + h) =
        ((c * dt - 2) / (c * dt + 2) +
          (4 - 8 * (s * s * (dt * dt) / (dx * dx))) / (c * dt + 2) +
          4 * (2 * (s * s * (dt * dt) / (dx * dx)) / (c * dt + 2))) * h := by ring
    rw [this, hsum, one_mul]

theorem C29_weights_sum_to_one_witness :
    ((1 / 4 : ℚ) ≠ 0 ∧ (1 / 5 : ℚ) * (3 / 100) + 2 ≠ 0 ∧ Constructible demoDevice 256 256) ∧
    ∃ w device1 cmds,
      InitializeWaves demoDevice = some (w, device1, cmds) ∧
      w.mK 0 + w.mK 1 + 4 * w.mK 2 = 1 := by
  obtain ⟨w, device1, cmds, hw, hsum, -, -⟩ :=
    C29_weights_sum_to_one demoDevice 256 256 (1 / 4) (3 / 100) 2 (1 / 5)
      (by norm_num) (by norm_num) (by decide)
  exact ⟨⟨by norm_num, by norm_num, by decide⟩, w, device1, cmds, hw, hsum⟩

/-- Any sequence of `Update` and `Disturb` calls permutes the three textures. -/
theorem RunWave_textures_perm (calls : List WaveCall) (w : OGPUWave) :
    [(RunWave calls w).1.PrevSol, (RunWave calls w).1.CurrSol, (RunWave calls w).1.NextSol].Perm
      [w.PrevSol, w.CurrSol, w.NextSol] := by
  induction calls generalizing w with
  | nil => exact List.Perm.refl _
  | cons call rest ih =>
    cases call with
    | Disturb I J Magnitude => exact ih w
    | Update Gt =>
      refine (ih _).trans ?_
      by_cases hstep : roundBinary32 (w.t + Gt.DeltaTime) ≥ roundBinary32 w.TimeStep
      · rw [Update_step_rounded _ _ _ _ hstep]
        show [w.CurrSol, w.NextSol, w.PrevSol].Perm [w.PrevSol, w.CurrSol, w.NextSol]
        have h1 : [w.CurrSol, w.NextSol, w.PrevSol].Perm [w.CurrSol, w.PrevSol, w.NextSol] :=
          (List.Perm.swap w.PrevSol w.NextSol []).cons w.CurrSol
        exact h1.trans (List.Perm.swap w.PrevSol w.CurrSol [w.NextSol])
      · rw [Update_idle _ _ _ _ hstep]

/-- What `OnKeyPressed` does to the window, for every key event: it toggles fullscreen
exactly for F11 and for Enter with Alt, and toggles VSync exactly for V and for Enter
without Alt. -/
theorem OnKeyPressed_toggles (Event : KeyEventArgs) (window : OWindow) :
    ∃ window1 codes,
      OTextureWaves.OnKeyPressed Event (some window) = some (some window1, codes) ∧
      (window1.WindowInfo.Fullscreen = !window.WindowInfo.Fullscreen ↔
        Event.Key = KeyCode.F11 ∨ (Event.Key = KeyCode.Enter ∧ Event.Alt = true)) ∧
      (window1.WindowInfo.VSync = !window.WindowInfo.VSync ↔
        Event.Key = KeyCode.V ∨ (Event.Key = KeyCode.Enter ∧ Event.Alt = false)) := by
  obtain ⟨Key, Alt⟩ := Event
  cases Key <;> cases Alt <;>
    simp [OTextureWaves.OnKeyPressed, OWindow.ToggleFullscreen, OWindow.SetFullscreen,
      OWindow.ToggleVSync, OWindow.SetVSync]

/-- C22, the code at the failing input.  For the key Enter without Alt, `OnKeyPressed`
toggles VSync of the window and leaves fullscreen as it is; the claim has it toggle
neither.  (Enter with Alt toggles fullscreen only, as claimed.) -/
theorem C22_enter_without_alt_toggles_vsync :
    ∃ window1,
      OTextureWaves.OnKeyPressed { Key := KeyCode.Enter, Alt := false } (some demoWindow) =
        some (some window1, []) ∧
      demoWindow.WindowInfo.VSync = false ∧
      window1.WindowInfo.VSync = true ∧
      window1.WindowInfo.Fullscreen = demoWindow.WindowInfo.Fullscreen ∧
      ∃ window2,
        OTextureWaves.OnKeyPressed { Key := KeyCode.Enter, Alt := true } (some demoWindow) =
          some (some window2, []) ∧
        window2.WindowInfo.VSync = false ∧
        window2.WindowInfo.Fullscreen = true :=
  ⟨demoWindow.ToggleVSync, rfl, rfl, rfl, rfl, demoWindow.ToggleFullscreen, rfl, rfl, rfl⟩

/-! ## C23, C24: a frame resource without materials -/

theorem UploadBuffer_Constructor_eq (device : ID3D12Device) (ElementByteSize ElementCount : Nat)
    (IsConstantBuffer : Bool)
    (h : device.Accepts (UploadRequest ElementByteSize ElementCount IsConstantBuffer) = true) :
    OUploadBuffer.Constructor device ElementByteSize ElementCount IsConstantBuffer =
      some
        ({ GPUVirtualAddress := device.GPUVirtualAddress device.NextResource,
           ElementCount := ElementCount, IsConstantBuffer := IsConstantBuffer },
          { device with NextResource := device.NextResource + 1 }) := by
  unfold UploadRequest at h
  simp only [OUploadBuffer.Constructor, ID3D12Device.CreateCommittedResource, h, if_true]

/-- The constructor of a frame resource without materials, in closed form. -/
theorem FrameResource_Constructor_zero (sizes : ElementSizes) (device : ID3D12Device)
    (PassCount ObjectCount WaveVertexCount : Nat)
    (h : CanConstructFrameResource sizes device PassCount ObjectCount WaveVertexCount 0) :
    SFrameResource.Constructor sizes device PassCount ObjectCount WaveVertexCount 0 =
      some
        ({ PassCB := ⟨device.GPUVirtualAddress device.NextResource, PassCount, true⟩
           ObjectCB := ⟨device.GPUVirtualAddress (device.NextResource + 1), ObjectCount, true⟩
           MaterialCB := none
           WavesVB :=
             ⟨device.GPUVirtualAddress (device.NextResource + 1 + 1), WaveVertexCount, false⟩
           Fence := 0 },
          { device with NextResource := device.NextResource + 1 + 1 + 1 }) := by
  obtain ⟨halloc, hpass, hobj, hvb, -⟩ := h
  unfold SFrameResource.Constructor
  rw [if_pos halloc, UploadBuffer_Constructor_eq _ _ _ _ hpass]
  dsimp only
  rw [UploadBuffer_Constructor_eq { device with NextResource := device.NextResource + 1 }
    _ _ _ hobj]
  dsimp only
  rw [UploadBuffer_Constructor_eq { device with NextResource := device.NextResource + 1 + 1 }
    _ _ _ hvb]
  dsimp only
  rw [if_neg (by omega)]

/-- The constructor of a frame resource with materials, in closed form. -/
theorem FrameResource_Constructor_pos (sizes : ElementSizes) (device : ID3D12Device)
    (PassCount ObjectCount WaveVertexCount MaterialCount : Nat) (hm : MaterialCount > 0)
    (h : CanConstructFrameResource sizes device PassCount ObjectCount WaveVertexCount
      MaterialCount) :
    SFrameResource.Constructor sizes device PassCount ObjectCount WaveVertexCount
        MaterialCount =
      some
        ({ PassCB := ⟨device.GPUVirtualAddress device.NextResource, PassCount, true⟩
           ObjectCB := ⟨device.GPUVirtualAddress (device.NextResource + 1), ObjectCount, true⟩
           MaterialCB :=
             some ⟨device.GPUVirtualAddress (device.NextResource + 1 + 1 + 1), MaterialCount,
               true⟩
           WavesVB :=
             ⟨device.GPUVirtualAddress (device.NextResource + 1 + 1), WaveVertexCount, false⟩
           Fence := 0 },
          { device with NextResource := device.NextResource + 1 + 1 + 1 + 1 }) := by
  obtain ⟨halloc, hpass, hobj, hvb, hmat⟩ := h
  have hacc : device.Accepts (UploadRequest sizes.SMaterialConstants MaterialCount true) =
      true := by
    rcases hmat with h0 | h1
    · omega
    · exact h1
  unfold SFrameResource.Constructor
  rw [if_pos halloc, UploadBuffer_Constructor_eq _ _ _ _ hpass]
  dsimp only
  rw [UploadBuffer_Constructor_eq { device with NextResource := device.NextResource + 1 }
    _ _ _ hobj]
  dsimp only
  rw [UploadBuffer_Constructor_eq { device with NextResource := device.NextResource + 1 + 1 }
    _ _ _ hvb]
  dsimp only
  rw [if_pos hm,
    UploadBuffer_Constructor_eq { device with NextResource := device.NextResource + 1 + 1 + 1 }
      _ _ _ hacc]

/-- C23 (frame resource construction).  For every `(PassCount, ObjectCount,
WaveVertexCount, MaterialCount)` for which the device creates the allocator and the
buffers, the constructor completes; `MaterialCB` is allocated if and only if
`MaterialCount > 0`, then with `MaterialCount` elements as a constant buffer, and is
null for `MaterialCount = 0`; `PassCB`, `ObjectCB` (constant buffers) and `WavesVB`
(not one) are allocated in either case with `PassCount`, `ObjectCount` and
`WaveVertexCount` elements; the fence marker is 0. -/
theorem C23_frame_resource_constructor (sizes : ElementSizes) (device : ID3D12Device)
    (PassCount ObjectCount WaveVertexCount MaterialCount : Nat)
    (h : CanConstructFrameResource sizes device PassCount ObjectCount WaveVertexCount
      MaterialCount) :
    ∃ F device1,
      SFrameResource.Constructor sizes device PassCount ObjectCount WaveVertexCount
        MaterialCount = some (F, device1) ∧
      (F.MaterialCB.isSome = true ↔ MaterialCount > 0) ∧
      (if MaterialCount = 0 then F.MaterialCB = none
        else ∃ MaterialCB, F.MaterialCB = some MaterialCB ∧
          MaterialCB.ElementCount = MaterialCount ∧ MaterialCB.IsConstantBuffer = true) ∧
      F.PassCB.ElementCount = PassCount ∧ F.PassCB.IsConstantBuffer = true ∧
      F.ObjectCB.ElementCount = ObjectCount ∧ F.ObjectCB.IsConstantBuffer = true ∧
      F.WavesVB.ElementCount = WaveVertexCount ∧ F.WavesVB.IsConstantBuffer = false ∧
      F.Fence = 0 ∧
      device1.NextResource = device.NextResource + (if MaterialCount = 0 then 3 else 4) := by
  by_cases hm : MaterialCount = 0
  · subst hm
    exact ⟨_, _, FrameResource_Constructor_zero sizes device PassCount ObjectCount
      WaveVertexCount h, by simp⟩
  · have hm2 : MaterialCount > 0 := by omega
    exact ⟨_, _, FrameResource_Constructor_pos sizes device PassCount ObjectCount
      WaveVertexCount MaterialCount hm2 h, by simp [hm, hm2]⟩

theorem C23_frame_resource_constructor_witness :
    (CanConstructFrameResource demoSizes demoDevice 1 6 65536 0 ∧
      CanConstructFrameResource demoSizes demoDevice 1 6 65536 6) ∧
    (∃ F device1,
      SFrameResource.Constructor demoSizes demoDevice 1 6 65536 0 = some (F, device1) ∧
      F.MaterialCB = none ∧ F.PassCB.ElementCount = 1 ∧ F.ObjectCB.ElementCount = 6 ∧
      F.WavesVB.ElementCount = 65536 ∧ F.Fence = 0) ∧
    ∃ F device1,
      SFrameResource.Constructor demoSizes demoDevice 1 6 65536 6 = some (F, device1) ∧
      F.MaterialCB.isSome = true := by
  obtain ⟨F, device1, hF, -, hnone, hp, -, ho, -, hv, -, hf, -⟩ :=
    C23_frame_resource_constructor demoSizes demoDevice 1 6 65536 0 (by decide)
  obtain ⟨G, device2, hG, hiff, -⟩ :=
    C23_frame_resource_constructor demoSizes demoDevice 1 6 65536 6 (by decide)
  exact ⟨⟨by decide, by decide⟩, ⟨F, device1, hF, by simpa using hnone, hp, ho, hv, hf⟩,
    G, device2, hG, hiff.mpr (by decide)⟩

/-- C24, the code at the failing input.  The frame resource the constructor builds for
`MaterialCount = 0` has a null `MaterialCB`.  With it as the current frame resource,
`DrawRenderItems` has no defined result for any list of render items, the empty one
included: it fetches `MaterialCB->GetResource()` before its loop and without a test,
which dereferences the null pointer.  No item is rejected and nothing is recorded
in a defined way. -/
theorem C24_null_MaterialCB_dereferenced :
    ∃ F device1,
      SFrameResource.Constructor demoSizes demoDevice 1 6 65536 0 = some (F, device1) ∧
      F.MaterialCB = none ∧
      (zeroMaterialApp F).Engine.FrameResources[(zeroMaterialApp F).Engine.CurrentFrameResources]? =
        some F ∧
      (zeroMaterialApp F).DrawRenderItems 256 256 [] = none ∧
      ∀ RenderItems : List SRenderItem,
        (zeroMaterialApp F).DrawRenderItems 256 256 RenderItems = none := by
  refine ⟨_, _, FrameResource_Constructor_zero demoSizes demoDevice 1 6 65536 (by decide),
    rfl, rfl, rfl, ?_⟩
  intro RenderItems
  rfl

/-! ## C25, C26: the state of the textures when they are used -/

/-- An `UpdateWave` in which the disturbance is not due is the `Update` alone. -/
theorem UpdateWave_quiet (Timer : STimer) (I J : Nat) (R : ℚ) (self : OTextureWaves)
    (h : ¬ Timer.Time - self.tBase ≥ 1 / 4) :
    self.UpdateWave Timer I J R =
      ({ self with
          Waves := (self.Waves.Update Timer SRootSignature.Waves SPSOType.WavesUpdate).1 },
        (self.Waves.Update Timer SRootSignature.Waves SPSOType.WavesUpdate).2) := by
  simp only [OTextureWaves.UpdateWave, if_neg h, List.nil_append]

/-- An `UpdateWave` in which the disturbance is due is `Disturb` followed by `Update`. -/
theorem UpdateWave_disturb (Timer : STimer) (I J : Nat) (R : ℚ) (self : OTextureWaves)
    (h : Timer.Time - self.tBase ≥ 1 / 4) :
    self.UpdateWave Timer I J R =
      ({ self with
          tBase := self.tBase + 1 / 4
          Waves := (self.Waves.Update Timer SRootSignature.Waves SPSOType.WavesUpdate).1 },
        self.Waves.Disturb SRootSignature.Waves SPSOType.WavesDisturb I J R ++
          (self.Waves.Update Timer SRootSignature.Waves SPSOType.WavesUpdate).2) := by
  simp only [OTextureWaves.UpdateWave, if_pos h]

/-- The commands of `OnRender` up to the binding of the displacement map. -/
theorem OnRender_prefix (objectCBByteSize matCBByteSize : Nat) (Event : UpdateEventArgs)
    (I J : Nat) (R : ℚ) (self : OTextureWaves) (F : SFrameResource)
    (materialCB : OUploadBuffer)
    (hF : self.Engine.FrameResources[self.Engine.CurrentFrameResources]? = some F)
    (hcb : F.MaterialCB = some materialCB)
    (hptr : ∀ q ∈ self.Engine.AllRenderItems,
      q.1 ∈ DrawnLayers → PointersValid self.Engine q.2) :
    ∃ post,
      self.OnRender objectCBByteSize matCBByteSize Event I J R =
        some ((self.UpdateWave Event.Timer I J R).1,
          ([Command.SetGraphicsRootConstantBufferView 2 F.PassCB.GPUVirtualAddress] ++
            (self.UpdateWave Event.Timer I J R).2) ++
          [Command.SetGraphicsRootDescriptorTable 4
            (self.UpdateWave Event.Timer I J R).1.Waves.CurrSolSrv] ++ post) := by
  obtain ⟨dO, hO, -⟩ := DrawRenderItems_layer objectCBByteSize matCBByteSize self F materialCB
    hF hcb hptr SRenderLayer.Opaque (by decide)
  obtain ⟨dT, hT, -⟩ := DrawRenderItems_layer objectCBByteSize matCBByteSize self F materialCB
    hF hcb hptr SRenderLayer.Tesselation (by decide)
  obtain ⟨dA, hA, -⟩ := DrawRenderItems_layer objectCBByteSize matCBByteSize self F materialCB
    hF hcb hptr SRenderLayer.AlphaTested (by decide)
  obtain ⟨dR, hR, -⟩ := DrawRenderItems_layer objectCBByteSize matCBByteSize self F materialCB
    hF hcb hptr SRenderLayer.Transparent (by decide)
  obtain ⟨dW, hW, -⟩ := DrawRenderItems_layer objectCBByteSize matCBByteSize self F materialCB
    hF hcb hptr SRenderLayer.Waves (by decide)
  have hsame : ∀ items, (self.UpdateWave Event.Timer I J R).1.DrawRenderItems objectCBByteSize
      matCBByteSize items = self.DrawRenderItems objectCBByteSize matCBByteSize items :=
    fun _ => rfl
  refine ⟨[Command.SetPipelineState SPSOType.Opaque] ++ dO ++
      [Command.SetPipelineState SPSOType.Tesselation] ++ dT ++
      [Command.SetPipelineState SPSOType.AlphaTested] ++ dA ++
      [Command.SetPipelineState SPSOType.Transparent] ++ dR ++
      [Command.SetPipelineState SPSOType.WavesRender] ++ dW, ?_⟩
  simp only [OTextureWaves.OnRender, hF, hsame, hO, hT, hA, hR, hW, OGPUWave.GetDisplacementMap,
    List.append_assoc]

/-- After `BuildDescriptors` the six handles are aligned with the textures. -/
theorem BuildDescriptors_aligned (descriptor : SRenderObjectDescriptor) (device : ID3D12Device)
    (w : OGPUWave) (h : SixSlots descriptor) :
    HandlesAligned descriptor (w.BuildDescriptors (some descriptor) device).2
      (w.BuildDescriptors (some descriptor) device).1 := by
  rw [BuildDescriptors_eq descriptor device w h]
  obtain ⟨v0, v1, v2, v3, v4, v5⟩ :=
    ViewAt_six device.Views descriptor.CPUSRVescriptor descriptor.DSVSRVUAVDescriptorSize h.1
      ⟨_, ViewKind.SRV, w.PrevSol⟩ ⟨_, ViewKind.SRV, w.CurrSol⟩ ⟨_, ViewKind.SRV, w.NextSol⟩
      ⟨_, ViewKind.UAV, w.PrevSol⟩ ⟨_, ViewKind.UAV, w.CurrSol⟩ ⟨_, ViewKind.UAV, w.NextSol⟩
      rfl rfl rfl rfl rfl rfl
  exact ⟨⟨⟨0, by omega⟩, rfl, v0⟩, ⟨⟨1, by omega⟩, rfl, v1⟩, ⟨⟨2, by omega⟩, rfl, v2⟩,
    ⟨⟨3, by omega⟩, rfl, v3⟩, ⟨⟨4, by omega⟩, rfl, v4⟩, ⟨⟨5, by omega⟩, rfl, v5⟩⟩

/-- What `BuildDescriptors` leaves as it was. -/
theorem BuildDescriptors_keeps (Descriptor : Option SRenderObjectDescriptor)
    (device : ID3D12Device) (w : OGPUWave) :
    (w.BuildDescriptors Descriptor device).1.PrevSol = w.PrevSol ∧
    (w.BuildDescriptors Descriptor device).1.CurrSol = w.CurrSol ∧
    (w.BuildDescriptors Descriptor device).1.NextSol = w.NextSol ∧
    (w.BuildDescriptors Descriptor device).1.t = w.t ∧
    (w.BuildDescriptors Descriptor device).1.TimeStep = w.TimeStep ∧
    (w.BuildDescriptors Descriptor device).1.NumRows = w.NumRows ∧
    (w.BuildDescriptors Descriptor device).1.NumCols = w.NumCols := by
  cases Descriptor <;> exact ⟨rfl, rfl, rfl, rfl, rfl, rfl, rfl⟩

/-- A frame of 1/60 s from `t = 0` does not reach a time step of 0.03 s in `float`
arithmetic either: the binary32 values `3 / 128` and `7 / 256` lie between the two. -/
theorem roundBinary32_sixtieth_lt :
    roundBinary32 (0 + 1 / 60) < roundBinary32 (3 / 100) := by
  have h1 : roundBinary32 (((3 : ℤ) : ℚ) * (2 : ℚ) ^ (-7 : ℤ)) =
      ((3 : ℤ) : ℚ) * (2 : ℚ) ^ (-7 : ℤ) :=
    roundBinary32_eq_self 3 (-7) (by norm_num) (by norm_num)
  have h2 : roundBinary32 (((7 : ℤ) : ℚ) * (2 : ℚ) ^ (-8 : ℤ)) =
      ((7 : ℤ) : ℚ) * (2 : ℚ) ^ (-8 : ℤ) :=
    roundBinary32_eq_self 7 (-8) (by norm_num) (by norm_num)
  have e1 : ((3 : ℤ) : ℚ) * (2 : ℚ) ^ (-7 : ℤ) = 3 / 128 := by norm_num
  have e2 : ((7 : ℤ) : ℚ) * (2 : ℚ) ^ (-8 : ℤ) = 7 / 256 := by norm_num
  rw [e1] at h1
  rw [e2] at h2
  have h3 : roundBinary32 (0 + 1 / 60) ≤ roundBinary32 (3 / 128) :=
    roundBinary32_mono (by norm_num)
  have h4 : roundBinary32 (7 / 256) ≤ roundBinary32 (3 / 100) :=
    roundBinary32_mono (by norm_num)
  rw [h1] at h3
  rw [h2] at h4
  have h5 : (3 / 128 : ℚ) < 7 / 256 := by norm_num
  exact lt_of_le_of_lt h3 (lt_of_lt_of_le h5 h4)

/-- The wave simulator of `Initialize` on the demo device, with the facts about it the
evaluations below use. -/
theorem InitializeWaves_demo :
    ∃ w device cmds0,
      InitializeWaves demoDevice = some (w, device, cmds0) ∧
      w.t = 0 ∧ w.TimeStep = 3 / 100 ∧ w.NumRows = 256 ∧ w.NumCols = 256 ∧
      w.PrevSol = 0 ∧ w.CurrSol = 1 ∧ w.NextSol = 2 ∧
      trackStates createdStates cmds0 0 = D3D12_RESOURCE_STATES.UNORDERED_ACCESS ∧
      trackStates createdStates cmds0 1 = D3D12_RESOURCE_STATES.GENERIC_READ ∧
      trackStates createdStates cmds0 2 = D3D12_RESOURCE_STATES.UNORDERED_ACCESS := by
  refine ⟨_, _, _, Constructor_eq demoDevice 256 256 _ _ _ _ demoDevice_constructible,
    rfl, rfl, rfl, rfl, rfl, rfl, rfl, ?_, ?_, ?_⟩ <;>
    simp [trackStates, createdStates, demoDevice]

/-- C25, the code at the failing input.  The wave simulator is built as in `Initialize`
and given its descriptors; `BuildResources` leaves Curr in GENERIC_READ.  In a frame
of 1/60 s at time 0.25 s `UpdateWave` calls `Disturb`, which moves Curr to
UNORDERED_ACCESS, and an `Update` that does not step (it records no dispatch and no
barrier and does not rotate).  `OnRender` then binds root parameter 4 to
`CurrSolSrv`, which is the handle of the SRV of the Curr texture, while the recorded
transitions leave that texture in UNORDERED_ACCESS, not GENERIC_READ. -/
theorem C25_displacement_map_in_unordered_access :
    ∃ w device cmds0,
      InitializeWaves demoDevice = some (w, device, cmds0) ∧
      trackStates createdStates cmds0 w.CurrSol = D3D12_RESOURCE_STATES.GENERIC_READ ∧
      ∃ r post,
        (demoBuiltApp w device).OnRender 256 256 demoDisturbEvent 128 128 1 = some r ∧
        r.2 =
          ([Command.SetGraphicsRootConstantBufferView 2 65536] ++
            ((demoBuiltApp w device).Waves.Disturb SRootSignature.Waves SPSOType.WavesDisturb
                128 128 1 ++
              [Command.SetPipelineState SPSOType.WavesUpdate,
               Command.SetComputeRootSignature SRootSignature.Waves])) ++
          [Command.SetGraphicsRootDescriptorTable 4 r.1.Waves.CurrSolSrv] ++ post ∧
        r.1.Waves.CurrSol = w.CurrSol ∧
        HandleOfView demoDescriptor (w.BuildDescriptors (some demoDescriptor) device).2
          r.1.Waves.CurrSolSrv ViewKind.SRV r.1.Waves.CurrSol ∧
        trackStates (trackStates createdStates cmds0)
            ([Command.SetGraphicsRootConstantBufferView 2 65536] ++
              ((demoBuiltApp w device).Waves.Disturb SRootSignature.Waves SPSOType.WavesDisturb
                  128 128 1 ++
                [Command.SetPipelineState SPSOType.WavesUpdate,
                 Command.SetComputeRootSignature SRootSignature.Waves]))
            r.1.Waves.CurrSol =
          D3D12_RESOURCE_STATES.UNORDERED_ACCESS := by
  obtain ⟨w, device, cmds0, hw, ht, hts, -, -, -, hcurr, -, -, hs1, -⟩ := InitializeWaves_demo
  refine ⟨w, device, cmds0, hw, by rw [hcurr]; exact hs1, ?_⟩
  have hptr : ∀ q ∈ demoEngine.AllRenderItems,
      q.1 ∈ DrawnLayers → PointersValid demoEngine q.2 := by decide
  obtain ⟨post, hr⟩ := OnRender_prefix 256 256 demoDisturbEvent 128 128 1
    (demoBuiltApp w device) (demoFrameResource 65536) (demoBuffer (65536 + 8192) 6 true)
    rfl rfl hptr
  obtain ⟨-, hk2, -, hk4, hk5, -, -⟩ := BuildDescriptors_keeps (some demoDescriptor) device w
  have hdue : demoDisturbEvent.Timer.Time - (demoBuiltApp w device).tBase ≥ 1 / 4 := by
    simp [demoDisturbEvent, demoBuiltApp, demoApp]
  have hidle : ¬ roundBinary32
        ((demoBuiltApp w device).Waves.t + demoDisturbEvent.Timer.DeltaTime) ≥
      roundBinary32 (demoBuiltApp w device).Waves.TimeStep := by
    show ¬ roundBinary32 ((w.BuildDescriptors (some demoDescriptor) device).1.t + (1 / 60 : ℚ)) ≥
      roundBinary32 (w.BuildDescriptors (some demoDescriptor) device).1.TimeStep
    rw [hk4, hk5, ht, hts]
    exact not_le.mpr roundBinary32_sixtieth_lt
  have hwave := UpdateWave_disturb demoDisturbEvent.Timer 128 128 1 (demoBuiltApp w device) hdue
  rw [Update_idle _ _ _ _ hidle] at hwave
  rw [hwave] at hr
  have haligned := BuildDescriptors_aligned demoDescriptor device w (by decide)
  refine ⟨_, post, hr, rfl, hk2, haligned.2.1, ?_⟩
  simp [trackStates, OGPUWave.Disturb]

/-- Frames in which the disturbance is never due record the commands of their
`Update` calls alone. -/
theorem RunUpdateWave_quiet (frames : List WaveFrame) (self : OTextureWaves)
    (h : ∀ frame ∈ frames, ¬ frame.Timer.Time - self.tBase ≥ 1 / 4) :
    (RunUpdateWave frames self).2 =
      (RunWave (frames.map (fun frame => WaveCall.Update frame.Timer)) self.Waves).2 := by
  induction frames generalizing self with
  | nil => rfl
  | cons frame rest ih =>
    simp only [RunUpdateWave, List.map_cons, RunWave]
    rw [UpdateWave_quiet _ _ _ _ _ (h frame (List.mem_cons_self _ _))]
    dsimp only
    rw [ih { self with
          Waves := (self.Waves.Update frame.Timer SRootSignature.Waves SPSOType.WavesUpdate).1 }
      (fun f hf => h f (List.mem_cons_of_mem _ hf))]

/-- C26, the code at the failing input.  The wave simulator is built as in `Initialize`
(every transition of the build names the state its texture is in) and given its
descriptors.  In frames of 0.03 s from time 0.03 s on the disturbance is not due and
every `Update` steps.  In the first frame no barrier precedes the dispatch, root
parameter 2 is bound to `CurrSolUav`, the handle of the UAV of the Curr texture, and
that texture is in GENERIC_READ at the dispatch, not UNORDERED_ACCESS.  Over the
first three frames one recorded barrier names a before-state its texture is not
in. -/
theorem C26_update_without_disturb :
    ∃ w device cmds0,
      InitializeWaves demoDevice = some (w, device, cmds0) ∧
      barriersMatch createdStates cmds0 = true ∧
      (∃ pre post,
        ((demoBuiltApp w device).UpdateWave (demoStepFrame 1).Timer 128 128 1).2 =
          pre ++ [Command.Dispatch 16 16 1] ++ post ∧
        pre.filter Command.isResourceBarrier = [] ∧
        computeTables (fun _ => none) pre 2 = some (demoBuiltApp w device).Waves.CurrSolUav ∧
        HandleOfView demoDescriptor (w.BuildDescriptors (some demoDescriptor) device).2
          (demoBuiltApp w device).Waves.CurrSolUav ViewKind.UAV w.CurrSol ∧
        trackStates (trackStates createdStates cmds0) pre w.CurrSol =
          D3D12_RESOURCE_STATES.GENERIC_READ) ∧
      barriersMatch (trackStates createdStates cmds0)
        (RunUpdateWave [demoStepFrame 1, demoStepFrame 2, demoStepFrame 3]
          (demoBuiltApp w device)).2 = false := by
  obtain ⟨w, device, cmds0, hw, hmatch, ht, hts, hrows, hcols, hp, hc, hn, s0, s1, s2⟩ :
      ∃ w device cmds0,
        InitializeWaves demoDevice = some (w, device, cmds0) ∧
        barriersMatch createdStates cmds0 = true ∧
        w.t = 0 ∧ w.TimeStep = 3 / 100 ∧ w.NumRows = 256 ∧ w.NumCols = 256 ∧
        w.PrevSol = 0 ∧ w.CurrSol = 1 ∧ w.NextSol = 2 ∧
        trackStates createdStates cmds0 0 = D3D12_RESOURCE_STATES.UNORDERED_ACCESS ∧
        trackStates createdStates cmds0 1 = D3D12_RESOURCE_STATES.GENERIC_READ ∧
        trackStates createdStates cmds0 2 = D3D12_RESOURCE_STATES.UNORDERED_ACCESS := by
    refine ⟨_, _, _, Constructor_eq demoDevice 256 256 _ _ _ _ demoDevice_constructible,
      ?_, rfl, rfl, rfl, rfl, rfl, rfl, rfl, ?_, ?_, ?_⟩ <;>
      simp [trackStates, createdStates, demoDevice, barriersMatch]
  obtain ⟨hk1, hk2, hk3, hk4, hk5, hk6, hk7⟩ :=
    BuildDescriptors_keeps (some demoDescriptor) device w
  have haligned := BuildDescriptors_aligned demoDescriptor device w (by decide)
  have hquiet : ∀ frame ∈ [demoStepFrame 1, demoStepFrame 2, demoStepFrame 3],
      ¬ frame.Timer.Time - (demoBuiltApp w device).tBase ≥ 1 / 4 := by
    intro frame hf
    simp only [List.mem_cons, List.mem_singleton, List.not_mem_nil, or_false] at hf
    rcases hf with rfl | rfl | rfl <;>
      simp [demoStepFrame, demoBuiltApp, demoApp] <;> norm_num
  have hstep : ∀ v : OGPUWave, v.t = 0 → v.TimeStep = 3 / 100 → ∀ k,
      v.t + (demoStepFrame k).Timer.DeltaTime ≥ v.TimeStep := by
    intro v h0 h1 k
    rw [h0, h1]
    simp [demoStepFrame]
  have hstep0 := hstep (demoBuiltApp w device).Waves (hk4.trans ht) (hk5.trans hts)
  refine ⟨w, device, cmds0, hw, hmatch, ?_, ?_⟩
  · rw [UpdateWave_quiet _ _ _ _ _ (hquiet _ (List.mem_cons_self _ _)),
      Update_step _ _ _ _ (hstep0 1)]
    refine ⟨[Command.SetPipelineState SPSOType.WavesUpdate,
        Command.SetComputeRootSignature SRootSignature.Waves,
        Command.SetComputeRoot32BitConstants 0 3
          [Const32.F32 ((demoBuiltApp w device).Waves.mK 0),
           Const32.F32 ((demoBuiltApp w device).Waves.mK 1),
           Const32.F32 ((demoBuiltApp w device).Waves.mK 2)] 0,
        Command.SetComputeRootDescriptorTable 1 (demoBuiltApp w device).Waves.PrevSolSrv,
        Command.SetComputeRootDescriptorTable 2 (demoBuiltApp w device).Waves.CurrSolUav,
        Command.SetComputeRootDescriptorTable 3 (demoBuiltApp w device).Waves.NextSolUav],
      [Command.ResourceBarrier (demoBuiltApp w device).Waves.NextSol
        D3D12_RESOURCE_STATES.UNORDERED_ACCESS D3D12_RESOURCE_STATES.GENERIC_READ], ?_, rfl,
      ?_, ?_, ?_⟩
    · have h6 : (demoBuiltApp w device).Waves.NumRows = 256 := hk6.trans hrows
      have h7 : (demoBuiltApp w device).Waves.NumCols = 256 := hk7.trans hcols
      simp [h6, h7]
    · simp [computeTables]
    · have := haligned.2.2.2.2.1
      rw [hk2] at this
      exact this
    · simp only [trackStates]
      rw [hc]
      exact s1
  · rw [RunUpdateWave_quiet _ _ hquiet]
    simp only [List.map_cons, List.map_nil, RunWave]
    have hge : ∀ k, (0 : ℚ) + (demoStepFrame k).Timer.DeltaTime ≥
        (demoBuiltApp w device).Waves.TimeStep := by
      intro k
      rw [show (demoBuiltApp w device).Waves.TimeStep = 3 / 100 from hk5.trans hts]
      simp [demoStepFrame]
    have e1 := Update_step (demoStepFrame 1).Timer SRootSignature.Waves SPSOType.WavesUpdate
      (demoBuiltApp w device).Waves (hstep0 1)
    have e2 := Update_step (demoStepFrame 2).Timer SRootSignature.Waves SPSOType.WavesUpdate
      ((demoBuiltApp w device).Waves.Update (demoStepFrame 1).Timer SRootSignature.Waves
        SPSOType.WavesUpdate).1
      (by rw [e1]; exact hge 2)
    have e3 := Update_step (demoStepFrame 3).Timer SRootSignature.Waves SPSOType.WavesUpdate
      (((demoBuiltApp w device).Waves.Update (demoStepFrame 1).Timer SRootSignature.Waves
        SPSOType.WavesUpdate).1.Update (demoStepFrame 2).Timer SRootSignature.Waves
        SPSOType.WavesUpdate).1
      (by rw [e2, e1]; exact hge 3)
    rw [e3, e2, e1]
    have h1 : (demoBuiltApp w device).Waves.PrevSol = 0 := hk1.trans hp
    have h2 : (demoBuiltApp w device).Waves.CurrSol = 1 := hk2.trans hc
    have h3 : (demoBuiltApp w device).Waves.NextSol = 2 := hk3.trans hn
    simp [barriersMatch, h1, h2, h3, s0, s1, s2]

/-! ## C27, C28: the order of the clear and the prepared flag -/

/-- C27, the code at the failing input.  On a render target not yet prepared, whose
colour resource is in GENERIC_READ (the before-state the code itself names),
`PrepareRenderTarget` records the clear of the colour view first and the transition
to RENDER_TARGET last: no transition precedes the clear, so by the recorded
transitions the resource is still in GENERIC_READ when it is cleared, and reaches
RENDER_TARGET only after the clears and the binding. -/
theorem C27_clear_before_transition :
    demoOffscreen.HasBeedPrepared = false ∧
    (demoOffscreen.toORenderTargetBase.PrepareRenderTarget demoOffscreen.RTVHandle 20 69632).2 =
      [Command.ClearRenderTargetView 8288 LightSteelBlue,
       Command.ClearDepthStencilView 69632 true true 1 0,
       Command.OMSetRenderTargets 1 8288 true 69632,
       Command.ResourceBarrier 20 D3D12_RESOURCE_STATES.GENERIC_READ
         D3D12_RESOURCE_STATES.RENDER_TARGET] ∧
    (demoOffscreen.toORenderTargetBase.PrepareRenderTarget demoOffscreen.RTVHandle 20
        69632).2.findIdx Command.isClearRenderTargetView = 0 ∧
    (demoOffscreen.toORenderTargetBase.PrepareRenderTarget demoOffscreen.RTVHandle 20
        69632).2.findIdx Command.isResourceBarrier = 3 ∧
    trackStates (fun _ => D3D12_RESOURCE_STATES.GENERIC_READ)
        ((demoOffscreen.toORenderTargetBase.PrepareRenderTarget demoOffscreen.RTVHandle 20
          69632).2.takeWhile (fun c => !c.isClearRenderTargetView)) 20 =
      D3D12_RESOURCE_STATES.GENERIC_READ ∧
    trackStates (fun _ => D3D12_RESOURCE_STATES.GENERIC_READ)
        (demoOffscreen.toORenderTargetBase.PrepareRenderTarget demoOffscreen.RTVHandle 20
          69632).2 20 =
      D3D12_RESOURCE_STATES.RENDER_TARGET :=
  ⟨rfl, rfl, rfl, rfl, rfl, rfl⟩

theorem BuildResource_flag (device device1 : ID3D12Device) (self self1 : OOffscreenTexture)
    (h : self.BuildResource device = some (self1, device1)) :
    self1.HasBeedPrepared = self.HasBeedPrepared := by
  unfold OOffscreenTexture.BuildResource at h
  dsimp only at h
  split at h
  · cases h
  · simp only [Option.some.injEq, Prod.mk.injEq] at h
    obtain ⟨rfl, -⟩ := h
    rfl

theorem OnResize_flag (NewWidth NewHeight : Nat) (device device1 : ID3D12Device)
    (self self1 : OOffscreenTexture)
    (h : self.OnResize NewWidth NewHeight device = some (self1, device1)) :
    self1.HasBeedPrepared = self.HasBeedPrepared := by
  unfold OOffscreenTexture.OnResize at h
  split at h
  · dsimp only at h
    split at h
    · cases h
    · rename_i self2 device2 hbuild
      have hflag := BuildResource_flag _ _ _ _ hbuild
      split at h
      · cases h
      · simp only [Option.some.injEq, Prod.mk.injEq] at h
        obtain ⟨rfl, -⟩ := h
        exact hflag
  · simp only [Option.some.injEq, Prod.mk.injEq] at h
    obtain ⟨rfl, -⟩ := h
    rfl

theorem BuildDescriptorsFrom_flag
    (Descriptor : Option (SDescriptorPair × SDescriptorPair × SDescriptorPair))
    (device device1 : ID3D12Device) (self self1 : OOffscreenTexture)
    (h : self.BuildDescriptorsFrom Descriptor device = some (self1, device1)) :
    self1.HasBeedPrepared = self.HasBeedPrepared := by
  unfold OOffscreenTexture.BuildDescriptorsFrom at h
  split at h
  · simp only [Option.some.injEq, Prod.mk.injEq] at h
    obtain ⟨rfl, -⟩ := h
    rfl
  · dsimp only at h
    split at h
    · cases h
    · simp only [Option.some.injEq, Prod.mk.injEq] at h
      obtain ⟨rfl, -⟩ := h
      rfl

theorem InitRenderObject_flag (device device1 : ID3D12Device) (self self1 : OOffscreenTexture)
    (h : self.InitRenderObject device = some (self1, device1)) :
    self1.HasBeedPrepared = self.HasBeedPrepared :=
  BuildResource_flag _ _ _ _ h

theorem CallRenderTarget_flag (call : RenderTargetCall) (device : ID3D12Device)
    (self self1 : OOffscreenTexture) (device1 : ID3D12Device) (cmds : List Command)
    (h : CallRenderTarget call device self = some (self1, device1, cmds)) :
    self1.HasBeedPrepared = (self.HasBeedPrepared || call.isPrepareRenderTarget) ∧
    (self.HasBeedPrepared = true → call.isPrepareRenderTarget = true → cmds = []) := by
  cases call with
  | SetViewport =>
    simp only [CallRenderTarget, Option.some.injEq, Prod.mk.injEq] at h
    obtain ⟨rfl, -, -⟩ := h
    simp [RenderTargetCall.isPrepareRenderTarget]
  | CopyTo Dest =>
    simp only [CallRenderTarget, Option.some.injEq, Prod.mk.injEq] at h
    obtain ⟨rfl, -, -⟩ := h
    simp [RenderTargetCall.isPrepareRenderTarget, ORenderTargetBase.CopyTo]
  | OnResize NewWidth NewHeight =>
    simp only [CallRenderTarget, Option.map_eq_some', Prod.mk.injEq] at h
    obtain ⟨r, hr, rfl, -, rfl⟩ := h
    simp [RenderTargetCall.isPrepareRenderTarget, OnResize_flag _ _ _ _ _ _ hr]
  | BuildDescriptors Descriptor =>
    simp only [CallRenderTarget, Option.map_eq_some', Prod.mk.injEq] at h
    obtain ⟨r, hr, rfl, -, rfl⟩ := h
    simp [RenderTargetCall.isPrepareRenderTarget, BuildDescriptorsFrom_flag _ _ _ _ _ hr]
  | InitRenderObject =>
    simp only [CallRenderTarget, Option.map_eq_some', Prod.mk.injEq] at h
    obtain ⟨r, hr, rfl, -, rfl⟩ := h
    simp [RenderTargetCall.isPrepareRenderTarget, InitRenderObject_flag _ _ _ _ hr]
  | SetID Other =>
    simp only [CallRenderTarget, Option.some.injEq, Prod.mk.injEq] at h
    obtain ⟨rfl, -, -⟩ := h
    simp [RenderTargetCall.isPrepareRenderTarget, ORenderTargetBase.SetID]
  | PrepareRenderTarget RTV Resource DepthStencilView =>
    simp only [CallRenderTarget, Option.some.injEq, Prod.mk.injEq] at h
    obtain ⟨rfl, -, rfl⟩ := h
    by_cases hp : self.HasBeedPrepared = true
    · simp [RenderTargetCall.isPrepareRenderTarget, ORenderTargetBase.PrepareRenderTarget, hp]
    · simp [RenderTargetCall.isPrepareRenderTarget, ORenderTargetBase.PrepareRenderTarget, hp]

/-- Once the flag is set, every call leaves it set and every `PrepareRenderTarget`
records nothing. -/
theorem RunRenderTarget_prepared (calls : List RenderTargetCall) (device : ID3D12Device)
    (self : OOffscreenTexture) (h : self.HasBeedPrepared = true) :
    (RunRenderTarget calls device self).all
      (fun record =>
        record.2.2 && (!record.1.isPrepareRenderTarget || record.2.1.isEmpty)) = true := by
  induction calls generalizing device self with
  | nil => rfl
  | cons call rest ih =>
    unfold RunRenderTarget
    split
    · rfl
    · rename_i self1 device1 cmds hcall
      obtain ⟨hflag, hcmds⟩ := CallRenderTarget_flag call device self self1 device1 cmds hcall
      have h1 : self1.HasBeedPrepared = true := by
        rw [hflag, h]
        rfl
      rw [List.all_cons, ih device1 self1 h1, Bool.and_true, h1, Bool.true_and]
      by_cases hp : call.isPrepareRenderTarget = true
      · rw [hcmds h hp]
        simp
      · simp [hp]

/-- C28 (prepared flag).  Each operation of `RenderTarget.cpp` on an offscreen texture
(`SetViewport`, `CopyTo`, `OnResize`, `BuildDescriptors`, `InitRenderObject`,
`SetID`) that completes leaves `HasBeedPrepared` as it was, and
`PrepareRenderTarget` sets it.  So after a first `PrepareRenderTarget`, in every
sequence of such operations, over any number of frames, the flag is set after every
call and every `PrepareRenderTarget` call records no command. -/
theorem C28_prepared_flag_never_cleared (self other : OOffscreenTexture)
    (device device2 : ID3D12Device) (RTV : SDescriptorPair) (Resource DepthStencilView : Nat)
    (calls : List RenderTargetCall) (call : RenderTargetCall) :
    (RunRenderTarget calls device
        { self with
          toORenderTargetBase :=
            (self.toORenderTargetBase.PrepareRenderTarget RTV Resource
              DepthStencilView).1 }).all
      (fun record =>
        record.2.2 && (!record.1.isPrepareRenderTarget || record.2.1.isEmpty)) = true ∧
    match CallRenderTarget call device2 other with
    | none => True
    | some r => r.1.HasBeedPrepared = (other.HasBeedPrepared || call.isPrepareRenderTarget) := by
  refine ⟨RunRenderTarget_prepared calls device _ ?_, ?_⟩
  · show (self.toORenderTargetBase.PrepareRenderTarget RTV Resource
      DepthStencilView).1.HasBeedPrepared = true
    unfold ORenderTargetBase.PrepareRenderTarget
    by_cases h : self.HasBeedPrepared = true
    · simp [h]
    · simp [h]
  · split
    · trivial
    · rename_i r hr
      obtain ⟨self1, device1, cmds⟩ := r
      exact (CallRenderTarget_flag call device2 other self1 device1 cmds hr).1

theorem C28_prepared_flag_never_cleared_witness :
    (RunRenderTarget
        [RenderTargetCall.OnResize 1280 720, RenderTargetCall.SetViewport,
         RenderTargetCall.PrepareRenderTarget demoOffscreen.RTVHandle 0 69632,
         RenderTargetCall.SetID 9, RenderTargetCall.InitRenderObject,
         RenderTargetCall.PrepareRenderTarget demoOffscreen.RTVHandle 1 69632]
        demoDevice
        { demoOffscreen with
          toORenderTargetBase :=
            (demoOffscreen.toORenderTargetBase.PrepareRenderTarget demoOffscreen.RTVHandle 20
              69632).1 }).length = 6 ∧
    (RunRenderTarget
        [RenderTargetCall.OnResize 1280 720, RenderTargetCall.SetViewport,
         RenderTargetCall.PrepareRenderTarget demoOffscreen.RTVHandle 0 69632,
         RenderTargetCall.SetID 9, RenderTargetCall.InitRenderObject,
         RenderTargetCall.PrepareRenderTarget demoOffscreen.RTVHandle 1 69632]
        demoDevice
        { demoOffscreen with
          toORenderTargetBase :=
            (demoOffscreen.toORenderTargetBase.PrepareRenderTarget demoOffscreen.RTVHandle 20
              69632).1 }).all
      (fun record =>
        record.2.2 && (!record.1.isPrepareRenderTarget || record.2.1.isEmpty)) = true :=
  ⟨rfl,
    (C28_prepared_flag_never_cleared demoOffscreen demoOffscreen demoDevice demoDevice
      demoOffscreen.RTVHandle 20 69632
      [RenderTargetCall.OnResize 1280 720, RenderTargetCall.SetViewport,
       RenderTargetCall.PrepareRenderTarget demoOffscreen.RTVHandle 0 69632,
       RenderTargetCall.SetID 9, RenderTargetCall.InitRenderObject,
       RenderTargetCall.PrepareRenderTarget demoOffscreen.RTVHandle 1 69632]
      RenderTargetCall.SetViewport).1⟩

end DX12Renderer
